import Mathlib

/-!
# Esports tournament backend: authentication, authorization and lockout

A shallow embedding of the Express/MySQL backend (`backend/middleware/auth.js`,
`backend/config/database.js`, `backend/models/User.js`, `backend/models/Team.js`,
`backend/models/Tournament.js`, `backend/models/Match.js`, `backend/routes/auth.js`,
`backend/routes/users.js`, `backend/routes/admin.js`, `backend/routes/teams.js`,
`backend/routes/matches.js`, `backend/routes/tournaments.js`, `backend/routes/scheduling.js`,
`backend/middleware/validation.js`, `backend/server.js`).

* Tables are lists of rows; a `World` carries the tables, a schedule of storage
  faults (one entry per SQL statement issued, `true` = that statement errors) and a
  counter of `bcrypt.compare` calls.
* External libraries (`jsonwebtoken`, `bcrypt`, `JSON.stringify`) and the clock are
  oracles in `Env`, and so are two conversions of MySQL: of a text compared with an id
  column, and of a value written to an `ENUM` column.
* The numbers of the pagination are doubles holding natural numbers; their arithmetic is
  rounded to 53 significant binary digits.
* SQL `=` on a column is equality of the stored values (strings are taken up to the
  collation of their column); timestamps are natural numbers.
* A middleware returns a `Step`: it either calls `next()` with the (possibly
  extended) request, or sends a response.
-/

namespace Esports

/-! ## Data model -/

/-- A row of the `users` table (`setup-database.js`). -/
structure UserRow where
  id : Nat
  username : String
  email : String
  password_hash : String
  role : String := "player"
  email_verified : Bool := false
  account_locked : Bool := false
  failed_login_count : Nat := 0
  last_login : Option Nat := none
deriving DecidableEq, Repr

/-- A row of the `user_sessions` table, with the columns the code reads. -/
structure SessionRow where
  id : Nat
  user_id : Nat
  token_hash : String
  expires_at : Nat
deriving DecidableEq, Repr

/-- A row of the `login_attempts` table, as inserted by `User.recordLoginAttempt`. -/
structure LoginAttemptRow where
  email : String
  ip_address : String
  user_agent : Option String
  success : Bool
  failure_reason : Option String
deriving DecidableEq, Repr

/-- A row of the `teams` table. -/
structure TeamRow where
  id : Nat
  name : String
  captain_id : Nat
  is_active : Bool := true
deriving DecidableEq, Repr

/-- A row of the `team_members` table. -/
structure TeamMemberRow where
  team_id : Nat
  user_id : Nat
  status : String
deriving DecidableEq, Repr

/-- A row of the `tournaments` table. -/
structure TournamentRow where
  id : Nat
  name : String
  created_by : Nat
  game : String := ""
  start_date : Nat := 0
  end_date : Option Nat := none
  status : String := "draft"
  max_teams : Nat := 16
deriving DecidableEq, Repr

/-- A row of the `matches` table. -/
structure MatchRow where
  id : Nat
  tournament_id : Nat
  team1_id : Nat
  team2_id : Nat
  scheduled_time : Nat := 0
  score1 : Option Int := some 0
  score2 : Option Int := some 0
  status : String := "scheduled"
  submitted_by_user_id : Option Nat := none
  verified_by_admin_id : Option Nat := none
deriving DecidableEq, Repr

/-- A row of the `audit_logs` table, as inserted by `logAudit`. -/
structure AuditRow where
  user_id : Option Nat
  action : String
  table_name : String
  record_id : Option Nat
  old_values : Option String
  new_values : Option String
  ip_address : String
deriving DecidableEq, Repr

/-- The store (the table `matches` is the field `matchRows`, `matches` being reserved in
Lean) together with the effects the claims observe: `faults` is the schedule of
storage faults (the head says whether the next SQL statement errors; an exhausted schedule
means no further fault) and `bcryptCalls` counts the calls of `bcrypt.compare`. -/
structure World where
  users : List UserRow := []
  user_sessions : List SessionRow := []
  login_attempts : List LoginAttemptRow := []
  teams : List TeamRow := []
  team_members : List TeamMemberRow := []
  tournaments : List TournamentRow := []
  matchRows : List MatchRow := []
  audit_logs : List AuditRow := []
  faults : List Bool := []
  bcryptCalls : Nat := 0
deriving DecidableEq, Repr

/-- Whether the SQL statement issued now errors. -/
def World.faultNow (w : World) : Bool :=
  match w.faults with
  | [] => false
  | b :: _ => b

/-- The world after one SQL statement has been issued (its schedule entry is consumed). -/
def World.advance (w : World) : World :=
  { w with faults := w.faults.tail }

/-- What `jwt.verify` does with a token: it returns the decoded payload (of which the code
reads `userId`) or throws an error whose `name` the middleware inspects. -/
inductive JwtVerdict where
  | ok (userId : Nat)
  | jsonWebTokenError
  | tokenExpiredError
  | otherError
deriving DecidableEq, Repr

/-- A JavaScript value as it travels in a JSON body or an audit snapshot. -/
inductive Json where
  | null
  | bool (b : Bool)
  | num (n : Int)
  | str (s : String)
  | arr (items : List Json)
  | obj (fields : List (String × Json))

/-- JavaScript truthiness of a JSON value. -/
def Json.truthy : Json → Bool
  | .null => false
  | .bool b => b
  | .num n => n != 0
  | .str s => s != ""
  | .arr _ => true
  | .obj _ => true

/-- The external collaborators: `jsonwebtoken` (`jwtVerify` checks against `JWT_SECRET`,
`jwtVerifyRefresh` against `JWT_REFRESH_SECRET || JWT_SECRET`, `jwtSign` takes the payload
fields `userId`, `email`, `role`), `bcrypt.compare` (plaintext, stored hash), `bcrypt.hash`,
`JSON.stringify`, the database clock `NOW()`, and the conversion MySQL applies to a text
that is compared with an id column: `sqlRowId text` is the natural number the text is
converted to (the number written at its start, 0 when there is none, so that `5`, ` 5` and
`5abc` all give 5), and `none` when the text is converted to a number that is no natural
number. `enumMember members value` is the member MySQL stores when a value that is not
the name of a member is written to an `ENUM` column with these members: the number of a
member (`3` or `'3'` for the third) is stored as that member; `none` when the value stands
for no member, which makes the statement error (strict SQL mode). -/
structure Env where
  jwtVerify : String → JwtVerdict
  jwtVerifyRefresh : String → JwtVerdict
  jwtSign : Nat → String → String → String
  bcryptCompare : String → String → Bool
  bcryptHash : String → String
  jsonStringify : Json → String
  now : Nat
  sqlRowId : String → Option Nat
  enumMember : List String → Json → Option String

/-- The projection of a `users` row that the middleware attaches as `req.user`
(`SELECT id, username, email, role, account_locked, email_verified`). -/
structure AuthUser where
  id : Nat
  username : String
  email : String
  role : String
  account_locked : Bool
  email_verified : Bool
deriving DecidableEq, Repr

/-- The columns selected for `req.user`. -/
def authUserOf (u : UserRow) : AuthUser :=
  { id := u.id, username := u.username, email := u.email, role := u.role,
    account_locked := u.account_locked, email_verified := u.email_verified }

/-- The user projection sent back by the login handlers. -/
structure PublicUser where
  id : Nat
  username : String
  email : String
  role : String
deriving DecidableEq, Repr

/-- The route parameters `req.params` as Express gives them: the text of the matching
segments of the URL. -/
structure RouteParams where
  id : Option String := none
  teamId : Option String := none
  tournamentId : Option String := none
deriving DecidableEq, Repr

/-- The parts of an Express request the modelled code reads or writes. `params` holds the
route parameters as text, as the ownership guards (which run before `validateIdParam`) read
them; `paramId` is the parameter `id` of a request whose `id` is the decimal text of a
number, as that number, for the route handlers. -/
structure Request where
  authorization : Option String := none
  path : String := "/"
  params : RouteParams := {}
  paramId : Option Nat := none
  ip : String := "127.0.0.1"
  user : Option AuthUser := none
  sessionId : Option Nat := none
deriving DecidableEq, Repr

/-- A JSON response: the HTTP status and the body fields the handlers set. -/
structure Response where
  status : Nat := 200
  error : Option String := none
  code : Option String := none
  message : Option String := none
  token : Option String := none
  accessToken : Option String := none
  user : Option PublicUser := none
  required : Option (List String) := none
  current : Option String := none
  locked : Option Bool := none
  team : Option Nat := none
  stack : Option String := none
  matchRow : Option MatchRow := none
  tournamentRow : Option TournamentRow := none
  matches_generated : Option Nat := none
  bracket_type : Option String := none
deriving DecidableEq, Repr

/-- The outcome of a middleware: `next()` was called, or a response was sent. -/
inductive Step where
  | next (req : Request)
  | respond (res : Response)
deriving DecidableEq, Repr

/-! ## String helpers (JavaScript `split(" ")` and `includes`) -/

/-- The pieces of `s.split(" ")`. -/
def splitSpace : List Char → List (List Char)
  | [] => [[]]
  | c :: cs =>
    if c = ' ' then [] :: splitSpace cs
    else
      match splitSpace cs with
      | [] => [[c]]
      | p :: ps => (c :: p) :: ps

/-- Whether `p` is an initial segment of `s`. -/
def startsWithChars : List Char → List Char → Bool
  | [], _ => true
  | _ :: _, [] => false
  | a :: p, b :: s => a = b && startsWithChars p s

/-- Whether `sub` occurs in `s`. -/
def includesChars (sub : List Char) : List Char → Bool
  | [] => startsWithChars sub []
  | c :: cs => startsWithChars sub (c :: cs) || includesChars sub cs

/-- JavaScript `s.includes(sub)`. -/
def jsIncludes (s sub : String) : Bool :=
  includesChars sub.data s.data

/-! ## `middleware/auth.js` -/

/-- The token read by the middleware: `authHeader && authHeader.split(" ")[1]`, kept only
when truthy (defined and not the empty string). -/
def bearerToken (authHeader : Option String) : Option String :=
  match authHeader with
  | none => none
  | some h =>
    match splitSpace h.data with
    | _ :: t :: _ => if t = [] then none else some (String.mk t)
    | _ => none

/-- The failure body `{ error, code }` sent with a status. -/
def failWith (status : Nat) (error code : String) : Step :=
  .respond { status := status, error := some error, code := some code }

/-- The rows of
`SELECT * FROM user_sessions WHERE user_id = ? AND token_hash = ? AND expires_at > NOW()`. -/
def validSessions (env : Env) (userId : Nat) (token : String) (w : World) : List SessionRow :=
  w.user_sessions.filter
    (fun s => decide (s.user_id = userId) && decide (s.token_hash = token)
      && decide (env.now < s.expires_at))

/-- The rows of `SELECT ... FROM users WHERE id = ?`. -/
def usersById (userId : Nat) (w : World) : List UserRow :=
  w.users.filter (fun u => decide (u.id = userId))

/-- The middleware `authenticateToken`. -/
def authenticateToken (env : Env) (req : Request) (w : World) : Step × World :=
  match bearerToken req.authorization with
  | none => (failWith 401 "Access token required" "TOKEN_MISSING", w)
  | some token =>
    match env.jwtVerify token with
    | .jsonWebTokenError => (failWith 401 "Invalid token" "TOKEN_INVALID", w)
    | .tokenExpiredError => (failWith 401 "Token expired" "TOKEN_EXPIRED", w)
    | .otherError => (failWith 500 "Authentication failed" "AUTH_ERROR", w)
    | .ok userId =>
      if w.faultNow then
        (failWith 500 "Authentication failed" "AUTH_ERROR", w.advance)
      else
        match validSessions env userId token w.advance with
        | [] => (failWith 401 "Invalid or expired session" "SESSION_INVALID", w.advance)
        | s0 :: _ =>
          if w.advance.faultNow then
            (failWith 500 "Authentication failed" "AUTH_ERROR", w.advance.advance)
          else
            match usersById userId w.advance.advance with
            | [] => (failWith 401 "User not found" "USER_NOT_FOUND", w.advance.advance)
            | user :: _ =>
              if user.account_locked then
                (failWith 403 "Account is locked" "ACCOUNT_LOCKED", w.advance.advance)
              else if !user.email_verified && jsIncludes req.path "/admin" then
                (failWith 403 "Email verification required" "EMAIL_NOT_VERIFIED",
                  w.advance.advance)
              else
                (.next { req with user := some (authUserOf user), sessionId := some s0.id },
                  w.advance.advance)

/-- The roles argument of `requireRole`: one role string or an array of roles. -/
inductive RolesArg where
  | one (role : String)
  | many (roles : List String)
deriving DecidableEq, Repr

/-- The list `Array.isArray(roles) ? roles : [roles]`. -/
def allowedRoles : RolesArg → List String
  | .one role => [role]
  | .many roles => roles

/-- The middleware returned by `requireRole(roles)`. -/
def requireRole (roles : RolesArg) (req : Request) : Step :=
  match req.user with
  | none => failWith 401 "Authentication required" "AUTH_REQUIRED"
  | some user =>
    if !(allowedRoles roles).contains user.role then
      .respond { status := 403, error := some "Insufficient permissions",
                 code := some "INSUFFICIENT_PERMISSIONS",
                 required := some (allowedRoles roles), current := some user.role }
    else
      .next req

/-- The expression `first || second` on two route parameters: the first when it is a
non-empty text, otherwise the second. -/
def orParam (first second : Option String) : Option String :=
  match first with
  | some text => if text = "" then second else some text
  | none => second

/-- The rows of `SELECT captain_id FROM teams WHERE id = ?` for the parameter of the
guard, which is the text of a route parameter: the rows whose id is the number MySQL
converts the text to; an absent parameter is sent as `NULL` and matches no row. -/
def teamsById (env : Env) (teamId : Option String) (w : World) : List TeamRow :=
  match teamId with
  | none => []
  | some text => w.teams.filter (fun t => decide (env.sqlRowId text = some t.id))

/-- The rows of `SELECT created_by FROM tournaments WHERE id = ?` for the parameter of
the guard. -/
def tournamentsById (env : Env) (tournamentId : Option String) (w : World) :
    List TournamentRow :=
  match tournamentId with
  | none => []
  | some text => w.tournaments.filter (fun t => decide (env.sqlRowId text = some t.id))

/-- The middleware `requireTeamOwnership`; its parameter is
`req.params.teamId || req.params.id`. Reading `req.user.id` of an absent `req.user`
throws, which the surrounding `try` turns into the 500 response. -/
def requireTeamOwnership (env : Env) (req : Request) (w : World) : Step × World :=
  match req.user with
  | none => (failWith 500 "Authorization check failed" "AUTH_CHECK_ERROR", w)
  | some user =>
    if user.role = "admin" then (.next req, w)
    else if w.faultNow then
      (failWith 500 "Authorization check failed" "AUTH_CHECK_ERROR", w.advance)
    else
      match teamsById env (orParam req.params.teamId req.params.id) w.advance with
      | [] => (failWith 404 "Team not found" "TEAM_NOT_FOUND", w.advance)
      | team :: _ =>
        if team.captain_id ≠ user.id then
          (failWith 403 "Team access denied" "TEAM_ACCESS_DENIED", w.advance)
        else (.next req, w.advance)

/-- The middleware `requireTournamentOwnership`; its parameter is
`req.params.tournamentId || req.params.id`. -/
def requireTournamentOwnership (env : Env) (req : Request) (w : World) : Step × World :=
  match req.user with
  | none => (failWith 500 "Authorization check failed" "AUTH_CHECK_ERROR", w)
  | some user =>
    if user.role = "admin" then (.next req, w)
    else if w.faultNow then
      (failWith 500 "Authorization check failed" "AUTH_CHECK_ERROR", w.advance)
    else
      match tournamentsById env (orParam req.params.tournamentId req.params.id)
          w.advance with
      | [] => (failWith 404 "Tournament not found" "TOURNAMENT_NOT_FOUND", w.advance)
      | tournament :: _ =>
        if tournament.created_by ≠ user.id then
          (failWith 403 "Tournament access denied" "TOURNAMENT_ACCESS_DENIED", w.advance)
        else (.next req, w.advance)

/-- The middleware `optionalAuth`: it reads the `users` table only (never
`user_sessions`), and every path ends in `next()`. -/
def optionalAuth (env : Env) (req : Request) (w : World) : Step × World :=
  match bearerToken req.authorization with
  | none => (.next req, w)
  | some token =>
    match env.jwtVerify token with
    | .ok userId =>
      if w.faultNow then (.next req, w.advance)
      else
        match usersById userId w.advance with
        | [] => (.next req, w.advance)
        | user :: _ =>
          if !user.account_locked then
            (.next { req with user := some (authUserOf user) }, w.advance)
          else (.next req, w.advance)
    | _ => (.next req, w)

/-! ## `server.js`: router mounting -/

/-- The rest of `s` after the initial segment `p`, when `s` starts with `p`; Express
matches a mount path without regard to the case of its letters. -/
def dropChars : List Char → List Char → Option (List Char)
  | [], s => some s
  | _ :: _, [] => none
  | a :: p, b :: s => if a.toLower = b.toLower then dropChars p s else none

/-- The `req.path` seen inside a router registered with `app.use(mount, router)`: while the
router handles the request Express strips the mount path from `req.url`, so the path read
by the middlewares and handlers of the router is what follows the mount point (`/` when
nothing follows); the unstripped path stays in `req.originalUrl`. A path that does not
continue the mount point at a `/` is not handled by the router and is returned as it is. -/
def routerPath (mount originalPath : String) : String :=
  match dropChars mount.data originalPath.data with
  | some [] => "/"
  | some ('/' :: rest) => String.mk ('/' :: rest)
  | _ => originalPath

/-- The mount point of the admin router (`app.use('/api/admin', ...)`). -/
def adminMount : String := "/api/admin"

/-! ## `config/database.js` -/

/-- The stored form of an audit snapshot: `values ? JSON.stringify(values) : null`. -/
def auditValue (env : Env) (values : Option Json) : Option String :=
  match values with
  | none => none
  | some v => if v.truthy then some (env.jsonStringify v) else none

/-- The helper `logAudit`: one insert into `audit_logs`; an error of the insert is caught
and logged, never rethrown. -/
def logAudit (env : Env) (userId : Option Nat) (action tableName : String)
    (recordId : Option Nat) (oldValues newValues : Option Json) (ipAddress : String)
    (w : World) : World :=
  if w.faultNow then w.advance
  else
    { w.advance with
      audit_logs := w.advance.audit_logs ++
        [{ user_id := userId, action := action, table_name := tableName,
           record_id := recordId, old_values := auditValue env oldValues,
           new_values := auditValue env newValues, ip_address := ipAddress }] }

/-! ## `models/User.js` -/

/-- What a rejected promise or an error-first callback of a model carries: an `Error`
created by the code itself, with its message, or the error of a failed SQL statement;
`uncaught` stands for an exception thrown inside a driver callback, which escapes the
model (its callback is never called). -/
inductive AuthError where
  | message (msg : String)
  | storage
  | uncaught (msg : String)
deriving DecidableEq, Repr

/-- The largest value of the column `failed_login_count INT`. -/
def sqlIntMax : Nat := 2147483647

/-- `User.getByEmail`: the first row of `SELECT * FROM users WHERE email = ?`; a failed
statement rejects. -/
def User.getByEmail (email : String) (w : World) : Except AuthError (Option UserRow) × World :=
  if w.faultNow then (.error .storage, w.advance)
  else (.ok (w.users.find? (fun u => decide (u.email = email))), w.advance)

/-- One row under
`SET failed_login_count = failed_login_count + 1,
     account_locked = CASE WHEN failed_login_count >= 4 THEN TRUE ELSE account_locked END`.
MySQL evaluates the assignments of a single-table `UPDATE` from left to right, and a column
named in a later assignment has its already updated value (MySQL Reference Manual, UPDATE
Statement: "`UPDATE t1 SET col1 = col1 + 1, col2 = col1;` sets col2 to the current (updated)
col1 value, not the original col1 value"), so the `CASE` reads the incremented counter. -/
def bumpFailedLogin (u : UserRow) : UserRow :=
  { u with
    failed_login_count := u.failed_login_count + 1,
    account_locked := if 4 ≤ u.failed_login_count + 1 then true else u.account_locked }

/-- One row under `SET failed_login_count = 0, last_login = CURRENT_TIMESTAMP`. -/
def resetFailedLogin (now : Nat) (u : UserRow) : UserRow :=
  { u with failed_login_count := 0, last_login := some now }

/-- `User.recordLoginAttempt`: the insert into `login_attempts` and the update of the
counter sit in one `try` block, whose `catch` only logs. A counter that would leave the
range of the `INT` column makes the `UPDATE` statement error (strict SQL mode). -/
def User.recordLoginAttempt (env : Env) (email ipAddress : String) (userAgent : Option String)
    (success : Bool) (failureReason : Option String) (w : World) : World :=
  if w.faultNow then w.advance
  else
    let w1 : World :=
      { w.advance with
        login_attempts := w.advance.login_attempts ++
          [{ email := email, ip_address := ipAddress, user_agent := userAgent,
             success := success, failure_reason := failureReason }] }
    if w1.faultNow then w1.advance
    else if !success then
      if w1.users.any (fun u => decide (u.email = email) &&
          decide (sqlIntMax < u.failed_login_count + 1)) then w1.advance
      else
        { w1.advance with
          users := w1.users.map (fun u => if u.email = email then bumpFailedLogin u else u) }
    else
      { w1.advance with
        users := w1.users.map
          (fun u => if u.email = email then resetFailedLogin env.now u else u) }

/-- `User.authenticate`. -/
def User.authenticate (env : Env) (email password ipAddress : String) (w : World) :
    Except AuthError UserRow × World :=
  match User.getByEmail email w with
  | (.error e, w1) => (.error e, w1)
  | (.ok none, w1) =>
    (.error (.message "Invalid credentials"),
      User.recordLoginAttempt env email ipAddress none false (some "User not found") w1)
  | (.ok (some user), w1) =>
    if user.account_locked then
      (.error (.message "Account is locked"),
        User.recordLoginAttempt env email ipAddress none false (some "Account locked") w1)
    else
      let w2 : World := { w1 with bcryptCalls := w1.bcryptCalls + 1 }
      if !env.bcryptCompare password user.password_hash then
        (.error (.message "Invalid credentials"),
          User.recordLoginAttempt env email ipAddress none false (some "Invalid password") w2)
      else if w2.faultNow then (.error .storage, w2.advance)
      else
        let w3 : World :=
          { w2.advance with
            users := w2.users.map (fun u =>
              if u.id = user.id then
                { u with last_login := some env.now, failed_login_count := 0 }
              else u) }
        (.ok user, User.recordLoginAttempt env email ipAddress none true none w3)

/-! ## `routes/auth.js` -/

/-- A string field of a JSON body when it is truthy (present and not empty). -/
def truthyStr : Option String → Option String
  | some s => if s = "" then none else some s
  | none => none

/-- A field of a JSON body when it is truthy. -/
def truthyJson : Option Json → Option Json
  | some v => if v.truthy then some v else none
  | none => none

/-- The body of `POST /login`; the route has no validator, so `password` is any JSON value
(`email` is taken to be a string). -/
structure LoginBody where
  email : Option String := none
  password : Option Json := none

/-- The handler of `POST /login` (`routes/auth.js`). `bcrypt.compare` rejects when its
first argument is no string, which the `catch` around it answers with 500. -/
def postLogin (env : Env) (body : LoginBody) (w : World) : Response × World :=
  match truthyStr body.email, truthyJson body.password with
  | some email, some password =>
    if w.faultNow then ({ status := 500, error := some "Database error" }, w.advance)
    else
      match w.users.filter (fun u => decide (u.email = email)) with
      | [] => ({ status := 401, error := some "Invalid credentials" }, w.advance)
      | user :: _ =>
        let w1 : World := { w.advance with bcryptCalls := w.bcryptCalls + 1 }
        match password with
        | .str text =>
          if !env.bcryptCompare text user.password_hash then
            ({ status := 401, error := some "Invalid credentials" }, w1)
          else
            ({ status := 200, message := some "Login successful",
               token := some (env.jwtSign user.id user.email user.role),
               user := some { id := user.id, username := user.username, email := user.email,
                              role := user.role } }, w1)
        | _ => ({ status := 500, error := some "Authentication failed" }, w1)
  | _, _ => ({ status := 400, error := some "Email and password are required" }, w)

/-- Evaluating an identifier that `routes/auth.js` uses but neither defines nor imports
(`getClientIP`, `createSession`, `logAudit`): a `ReferenceError` is thrown. -/
def authRoutesUnbound (name : String) : Except String Unit :=
  .error ("ReferenceError: " ++ name ++ " is not defined")

/-- The body of `POST /refresh`. -/
structure RefreshBody where
  refresh_token : Option String := none
deriving DecidableEq, Repr

/-- The handler of `POST /refresh`. Any error of `jwt.verify` lands in the outer `catch`;
after the access token is signed, the inner `try` first evaluates `getClientIP(req)` and
then `createSession(...)`, and its `catch` answers 500. -/
def postRefresh (env : Env) (body : RefreshBody) (w : World) : Response × World :=
  match truthyStr body.refresh_token with
  | none =>
    ({ status := 401, error := some "Refresh token required",
       code := some "REFRESH_TOKEN_REQUIRED" }, w)
  | some refreshToken =>
    match env.jwtVerifyRefresh refreshToken with
    | .ok userId =>
      if w.faultNow then ({ status := 500, error := some "Database error" }, w.advance)
      else
        match usersById userId w.advance with
        | [] =>
          ({ status := 401, error := some "Invalid refresh token",
             code := some "INVALID_REFRESH_TOKEN" }, w.advance)
        | user :: _ =>
          if user.account_locked then
            ({ status := 401, error := some "Invalid refresh token",
               code := some "INVALID_REFRESH_TOKEN" }, w.advance)
          else
            let accessToken := env.jwtSign user.id user.email user.role
            match authRoutesUnbound "getClientIP", authRoutesUnbound "createSession" with
            | .ok _, .ok _ =>
              ({ status := 200, accessToken := some accessToken,
                 user := some { id := user.id, username := user.username,
                                email := user.email, role := user.role } }, w.advance)
            | _, _ => ({ status := 500, error := some "Failed to create session" }, w.advance)
    | _ =>
      ({ status := 401, error := some "Invalid refresh token",
         code := some "INVALID_REFRESH_TOKEN" }, w)

/-- The handler of `POST /logout`, run after `authenticateToken`. Reading `req.user.id` of
an absent `req.user` throws outside any `try` (answered 500 by the error middleware). The
audit call evaluates the unbound `logAudit` inside a `try` whose `catch` sends the same
success response. -/
def postLogout (req : Request) (w : World) : Response × World :=
  match req.user with
  | none => ({ status := 500 }, w)
  | some _ =>
    if w.faultNow then ({ status := 500, error := some "Logout failed" }, w.advance)
    else
      let w1 : World :=
        { w.advance with
          user_sessions := w.user_sessions.filter (fun s => decide (some s.id ≠ req.sessionId)) }
      match authRoutesUnbound "logAudit" with
      | .ok _ => ({ status := 200, message := some "Logout successful" }, w1)
      | .error _ => ({ status := 200, message := some "Logout successful" }, w1)

/-- The handler of `POST /logout-all`, run after `authenticateToken`. -/
def postLogoutAll (req : Request) (w : World) : Response × World :=
  match req.user with
  | none => ({ status := 500 }, w)
  | some user =>
    if w.faultNow then ({ status := 500, error := some "Logout failed" }, w.advance)
    else
      let w1 : World :=
        { w.advance with
          user_sessions := w.user_sessions.filter (fun s => decide (s.user_id ≠ user.id)) }
      match authRoutesUnbound "logAudit" with
      | .ok _ => ({ status := 200, message := some "Logged out from all devices" }, w1)
      | .error _ => ({ status := 200, message := some "Logged out from all devices" }, w1)

/-! ## `routes/users.js` -/

/-- The body of `PUT /users/:id`; `account_locked` and `email_verified` are kept only when
they are of type boolean, the other fields when they are strings. -/
structure UserUpdateBody where
  username : Option String := none
  email : Option String := none
  role : Option String := none
  account_locked : Option Bool := none
  email_verified : Option Bool := none
deriving DecidableEq, Repr

/-- The assignments collected in `updateFields`. -/
structure UserChanges where
  username : Option String := none
  email : Option String := none
  role : Option String := none
  account_locked : Option Bool := none
  email_verified : Option Bool := none
deriving DecidableEq, Repr

/-- Whether `updateFields` is empty. -/
def UserChanges.isEmpty (c : UserChanges) : Bool :=
  c.username.isNone && c.email.isNone && c.role.isNone && c.account_locked.isNone
    && c.email_verified.isNone

/-- One row under the `UPDATE users SET ...` built from `updateFields`; the lock
assignment is `account_locked = ?, failed_login_count = 0`. -/
def applyUserChanges (c : UserChanges) (u : UserRow) : UserRow :=
  let u1 := match c.username with | some v => { u with username := v } | none => u
  let u2 := match c.email with | some v => { u1 with email := v } | none => u1
  let u3 := match c.role with | some v => { u2 with role := v } | none => u2
  let u4 := match c.account_locked with
    | some v => { u3 with account_locked := v, failed_login_count := 0 }
    | none => u3
  match c.email_verified with
  | some v => { u4 with email_verified := v }
  | none => u4

/-- A string field that is truthy and differs from the stored value. -/
def changedStr (field : Option String) (old : String) : Option String :=
  match truthyStr field with
  | some v => if v ≠ old then some v else none
  | none => none

/-- The 500 response of the handler's `catch`. -/
def updateError : Response :=
  { status := 500, error := some "Failed to update user", code := some "UPDATE_ERROR" }

/-- The last part of the `PUT /users/:id` handler: the `UPDATE`, the re-read, the audit
entry and the response. -/
def putUserWrite (env : Env) (req : Request) (userId : Nat) (old : UserRow)
    (c : UserChanges) (w : World) : Response × World :=
  if c.isEmpty then
    ({ status := 400, error := some "No valid fields to update", code := some "NO_UPDATES" }, w)
  else if w.faultNow then (updateError, w.advance)
  else
    let w1 : World :=
      { w.advance with
        users := w.users.map (fun u => if u.id = userId then applyUserChanges c u else u) }
    if w1.faultNow then (updateError, w1.advance)
    else
      match usersById userId w1.advance, req.user with
      | updated :: _, some caller =>
        let oldValues : Json := .obj
          [("username", .str old.username), ("email", .str old.email), ("role", .str old.role),
           ("account_locked", .num (if old.account_locked then 1 else 0)),
           ("email_verified", .num (if old.email_verified then 1 else 0))]
        let newValues : Json := .obj
          [("username", .str updated.username), ("email", .str updated.email),
           ("role", .str updated.role),
           ("account_locked", .num (if updated.account_locked then 1 else 0)),
           ("email_verified", .num (if updated.email_verified then 1 else 0))]
        ({ status := 200, message := some "User updated successfully",
           user := some { id := updated.id, username := updated.username,
                          email := updated.email, role := updated.role } },
          logAudit env (some caller.id) "ADMIN_UPDATE" "users" (some userId)
            (some oldValues) (some newValues) req.ip w1.advance)
      | _, _ => (updateError, w1.advance)

/-- The uniqueness lookup and the `email` part of the handler. -/
def putUserEmail (env : Env) (req : Request) (body : UserUpdateBody) (userId : Nat)
    (old : UserRow) (c : UserChanges) (w : World) : Response × World :=
  let rest (c1 : UserChanges) : UserChanges :=
    { c1 with
      role := changedStr body.role old.role,
      account_locked := body.account_locked,
      email_verified := body.email_verified }
  match changedStr body.email old.email with
  | none => putUserWrite env req userId old (rest c) w
  | some email =>
    if w.faultNow then (updateError, w.advance)
    else if w.users.any (fun u => decide (u.email = email) && decide (u.id ≠ userId)) then
      ({ status := 409, error := some "Email already taken", code := some "EMAIL_TAKEN" },
        w.advance)
    else putUserWrite env req userId old (rest { c with email := some email }) w.advance

/-- The handler of `PUT /users/:id` (`routes/users.js`), run after `authenticateToken`,
`validateIdParam` and `validateUserUpdate`. The stored `account_locked` and
`email_verified` come back from MySQL as the numbers 0 and 1, so the strict comparison
`account_locked !== oldValues.account_locked` of a boolean with them is always true. -/
def putUserById (env : Env) (req : Request) (body : UserUpdateBody) (w : World) :
    Response × World :=
  if w.faultNow then (updateError, w.advance)
  else
    match req.paramId with
    | none =>
      ({ status := 404, error := some "User not found", code := some "USER_NOT_FOUND" },
        w.advance)
    | some userId =>
      match usersById userId w.advance with
      | [] =>
        ({ status := 404, error := some "User not found", code := some "USER_NOT_FOUND" },
          w.advance)
      | old :: _ =>
        match changedStr body.username old.username with
        | none => putUserEmail env req body userId old {} w.advance
        | some username =>
          if w.advance.faultNow then (updateError, w.advance.advance)
          else if w.users.any
              (fun u => decide (u.username = username) && decide (u.id ≠ userId)) then
            ({ status := 409, error := some "Username already taken",
               code := some "USERNAME_TAKEN" }, w.advance.advance)
          else
            putUserEmail env req body userId old { username := some username }
              w.advance.advance

/-- The route `PUT /users/:id` as registered: `authenticateToken`, then the validators
`validateIdParam` and `validateUserUpdate` (whose verdict on the request is
`validationOk`), then the handler; `body` is the request body as `sanitizeInput` left it. -/
def putUserRoute (env : Env) (validationOk : Bool) (req : Request) (body : UserUpdateBody)
    (w : World) : Response × World :=
  match authenticateToken env req w with
  | (.respond res, w1) => (res, w1)
  | (.next req1, w1) =>
    if !validationOk then
      ({ status := 400, error := some "Validation failed", code := some "VALIDATION_ERROR" },
        w1)
    else putUserById env req1 body w1

/-! ## `models/User.js`: administration -/

/-- The fields of an update object for a user (`updateData`, or the body of the admin
route); an absent key is `none`. -/
structure UserPatch where
  username : Option String := none
  email : Option String := none
  role : Option String := none
  email_verified : Option Bool := none
  account_locked : Option Bool := none
  password : Option String := none
deriving DecidableEq, Repr

/-- A boolean column as the driver returns it (`TINYINT(1)`, a number). -/
def sqlBool (b : Bool) : Json := .num (if b then 1 else 0)

/-- The snapshot of a `users` row as selected by `User.getById`. -/
def userJson (u : UserRow) : Json :=
  .obj [("id", .num u.id), ("username", .str u.username), ("email", .str u.email),
        ("role", .str u.role), ("email_verified", sqlBool u.email_verified),
        ("account_locked", sqlBool u.account_locked)]

/-- An optional field as a list of JSON object entries. -/
def jsonEntry (key : String) (value : Option Json) : List (String × Json) :=
  match value with
  | some v => [(key, v)]
  | none => []

/-- The update object as a JSON value. -/
def UserPatch.toJson (p : UserPatch) : Json :=
  .obj (jsonEntry "username" (p.username.map .str) ++ jsonEntry "email" (p.email.map .str) ++
    jsonEntry "role" (p.role.map .str) ++
    jsonEntry "email_verified" (p.email_verified.map .bool) ++
    jsonEntry "account_locked" (p.account_locked.map .bool) ++
    jsonEntry "password" (p.password.map .str))

/-- One row under `UPDATE users SET <field> = ?, ...` with one assignment per given field
of `username`, `email`, `role`, `email_verified`, `account_locked` (and `password_hash`
when a hash is given); `failed_login_count` is not assigned. -/
def applyUserPatch (p : UserPatch) (hash : Option String) (u : UserRow) : UserRow :=
  { u with
    username := p.username.getD u.username,
    email := p.email.getD u.email,
    role := p.role.getD u.role,
    email_verified := p.email_verified.getD u.email_verified,
    account_locked := p.account_locked.getD u.account_locked,
    password_hash := hash.getD u.password_hash }

/-- Whether the patch would give the row `userId` a username or email that another row
holds (the `UNIQUE` constraints make the `UPDATE` error). -/
def patchCollides (p : UserPatch) (userId : Nat) (w : World) : Bool :=
  w.users.any (fun u => decide (u.id ≠ userId) &&
    (decide (some u.username = p.username) || decide (some u.email = p.email)))

/-- Whether the patch names none of the five updatable columns. -/
def UserPatch.noColumns (p : UserPatch) : Bool :=
  p.username.isNone && p.email.isNone && p.role.isNone && p.email_verified.isNone
    && p.account_locked.isNone

/-- `User.getById`: the first row of `SELECT ... FROM users WHERE id = ?`. -/
def User.getById (id : Nat) (w : World) : Except AuthError (Option UserRow) × World :=
  if w.faultNow then (.error .storage, w.advance)
  else (.ok (w.users.find? (fun u => decide (u.id = id))), w.advance)

/-- `User.toggleLock`: the `UPDATE` assigns `account_locked` (and `updated_at`) only. -/
def User.toggleLock (env : Env) (userId adminId : Nat) (ipAddress : String) (w : World) :
    Except AuthError Bool × World :=
  match User.getById userId w with
  | (.error e, w1) => (.error e, w1)
  | (.ok none, w1) => (.error (.message "User not found"), w1)
  | (.ok (some user), w1) =>
    let newLockStatus := !user.account_locked
    if w1.faultNow then (.error .storage, w1.advance)
    else
      let w2 : World :=
        { w1.advance with
          users := w1.users.map (fun u =>
            if u.id = userId then { u with account_locked := newLockStatus } else u) }
      (.ok newLockStatus,
        logAudit env (some adminId) "TOGGLE_LOCK" "users" (some userId)
          (some (.obj [("account_locked", sqlBool user.account_locked)]))
          (some (.obj [("account_locked", .bool newLockStatus)])) ipAddress w2)

/-- `User.update`. -/
def User.update (env : Env) (id : Nat) (updateData : UserPatch) (adminId : Nat)
    (ipAddress : String) (w : World) : Except AuthError Bool × World :=
  match User.getById id w with
  | (.error e, w1) => (.error e, w1)
  | (.ok none, w1) => (.error (.message "User not found"), w1)
  | (.ok (some oldData), w1) =>
    let hash := (truthyStr updateData.password).map env.bcryptHash
    if updateData.noColumns && hash.isNone then
      (.error (.message "No valid fields to update"), w1)
    else if w1.faultNow || patchCollides updateData id w1 then (.error .storage, w1.advance)
    else if (w1.users.filter (fun u => decide (u.id = id))).length = 0 then
      (.error (.message "User not found"), w1.advance)
    else
      let w2 : World :=
        { w1.advance with
          users := w1.users.map (fun u =>
            if u.id = id then applyUserPatch updateData hash u else u) }
      (.ok true,
        logAudit env (some adminId) "UPDATE" "users" (some id) (some (userJson oldData))
          (some updateData.toJson) ipAddress w2)

/-! ## `routes/admin.js` -/

/-- The names exported by `middleware/validation.js` (`module.exports`). -/
def validationExports : List String :=
  ["handleValidationErrors", "validateUserRegistration", "validateUserLogin",
   "validateUserUpdate", "validateTeamCreation", "validateTeamUpdate",
   "validateTournamentCreation", "validateMatchCreation", "validateScoreSubmission",
   "validateIdParam", "validatePagination", "validateSearch", "validateFileUpload",
   "sanitizeInput"]

/-- Calling `logAuditEvent`, bound by
`const { logAuditEvent } = require('../middleware/validation')`: a name the module does
not export is bound to `undefined`, and calling it throws a `TypeError`. -/
def logAuditEvent : Except String Unit :=
  if validationExports.contains "logAuditEvent" then .ok ()
  else .error "TypeError: logAuditEvent is not a function"

/-- The 500 response of the `catch` of the admin handlers. -/
def internalError : Response :=
  { status := 500, message := some "Internal server error" }

/-- The local middleware `requireAdmin` of `routes/admin.js`; reading `req.user.role` of an
absent `req.user` throws (answered 500 by the error middleware). -/
def adminRequireAdmin (req : Request) : Step :=
  match req.user with
  | none => .respond { status := 500 }
  | some user =>
    if user.role ≠ "admin" then
      .respond { status := 403, message := some "Admin access required" }
    else .next req

/-- The rows of `SELECT ... FROM users WHERE id = ?` for a route parameter. -/
def usersByParam (userId : Option Nat) (w : World) : List UserRow :=
  w.users.filter (fun u => decide (some u.id = userId))

/-- The handler of `PUT /users/:id/lock`. -/
def adminPutUserLock (req : Request) (w : World) : Response × World :=
  match req.user with
  | none => (internalError, w)
  | some caller =>
    if req.paramId = some caller.id then
      ({ status := 400, message := some "Cannot lock your own account" }, w)
    else if w.faultNow then (internalError, w.advance)
    else
      match usersByParam req.paramId w.advance with
      | [] => ({ status := 404, message := some "User not found" }, w.advance)
      | current :: _ =>
        let newLockStatus := !current.account_locked
        if w.advance.faultNow then (internalError, w.advance.advance)
        else
          let w2 : World :=
            { w.advance.advance with
              users := w.users.map (fun u =>
                if some u.id = req.paramId then
                  { u with account_locked := newLockStatus, failed_login_count := 0 }
                else u) }
          match logAuditEvent with
          | .error _ => (internalError, w2)
          | .ok _ =>
            ({ status := 200,
               message := some (if newLockStatus then "User locked successfully"
                                else "User unlocked successfully"),
               locked := some newLockStatus }, w2)

/-- The handler of `PUT /users/:id` of the admin router; `validationOk` is the verdict of
`validationResult(req)`, and the body is read through its five updatable keys. -/
def adminPutUser (validationOk : Bool) (req : Request) (updates : UserPatch) (w : World) :
    Response × World :=
  if !validationOk then ({ status := 400 }, w)
  else if w.faultNow then (internalError, w.advance)
  else
    match req.paramId, usersByParam req.paramId w.advance with
    | some userId, _ :: _ =>
      match req.user with
      | none => (internalError, w.advance)
      | some caller =>
        if userId = caller.id && updates.account_locked = some true then
          ({ status := 400, message := some "Cannot lock your own account" }, w.advance)
        else if updates.noColumns then
          ({ status := 400, message := some "No valid fields to update" }, w.advance)
        else if w.advance.faultNow || patchCollides updates userId w then
          (internalError, w.advance.advance)
        else
          let w2 : World :=
            { w.advance.advance with
              users := w.users.map (fun u =>
                if u.id = userId then applyUserPatch updates none u else u) }
          if updates.account_locked = some false then
            if w2.faultNow then (internalError, w2.advance)
            else
              let w3 : World :=
                { w2.advance with
                  users := w2.users.map (fun u =>
                    if u.id = userId then { u with failed_login_count := 0 } else u) }
              match logAuditEvent with
              | .error _ => (internalError, w3)
              | .ok _ => ({ status := 200, message := some "User updated successfully" }, w3)
          else
            match logAuditEvent with
            | .error _ => (internalError, w2)
            | .ok _ => ({ status := 200, message := some "User updated successfully" }, w2)
    | _, _ => ({ status := 404, message := some "User not found" }, w.advance)

/-- The route `PUT /api/admin/users/:id/lock` as registered: `authenticateToken`, the local
`requireAdmin`, then the handler. -/
def adminPutUserLockRoute (env : Env) (req : Request) (w : World) : Response × World :=
  match authenticateToken env req w with
  | (.respond res, w1) => (res, w1)
  | (.next req1, w1) =>
    match adminRequireAdmin req1 with
    | .respond res => (res, w1)
    | .next req2 => adminPutUserLock req2 w1

/-! ## `models/Team.js`, `models/Tournament.js`, `models/Match.js` -/

/-- A property read off a JavaScript value (`const { name } = value`, `value.name`): the
entry of an object, `undefined` for a string, number, boolean or array. -/
def Json.field (key : String) : Json → Option Json
  | .obj fields => (fields.find? (fun kv => kv.1 == key)).map (fun kv => kv.2)
  | _ => none

/-- The SQL parameter for a text column: `undefined` and `null` are sent as `NULL`. -/
def sqlText : Option Json → Option String
  | some (.str s) => some s
  | some (.num n) => some (toString n)
  | some (.bool b) => some (if b then "1" else "0")
  | _ => none

/-- The id `AUTO_INCREMENT` gives to a new row: one that no row of the table has. -/
def nextId (ids : List Nat) : Nat :=
  ids.foldl max 0 + 1

/-- Whether a value fits a signed `INT` column. -/
def sqlIntOk (n : Int) : Bool :=
  decide (-2147483648 ≤ n) && decide (n ≤ 2147483647)

/-- The callback of the domain `UPDATE` that every mutator of the three models ends with:
an error of the statement (a storage fault, or a constraint the new values break:
`errors`), or `result.affectedRows === 0`, ends the call with an error and nothing else
happens; otherwise `logAudit` runs on the store as updated and the callback gets `true`
(`logAudit` never rejects, so its `.catch` branch cannot run). -/
def updateThenAudit (errors : Bool) (affected : Nat) (notFound : String)
    (mutate audit : World → World) (w : World) : Except AuthError Bool × World :=
  if w.faultNow || errors then (.error .storage, w.advance)
  else if affected = 0 then (.error (.message notFound), w.advance)
  else (.ok true, audit (mutate w.advance))

/-- The update object of `Team.update`. -/
structure TeamPatch where
  name : Option String := none
  is_active : Option Bool := none
deriving DecidableEq, Repr

/-- The update object as a JSON value. -/
def TeamPatch.toJson (p : TeamPatch) : Json :=
  .obj (jsonEntry "name" (p.name.map .str) ++ jsonEntry "is_active" (p.is_active.map .bool))

/-- One row under the `UPDATE teams SET ...` built from the update object. -/
def applyTeamPatch (p : TeamPatch) (t : TeamRow) : TeamRow :=
  { t with name := p.name.getD t.name, is_active := p.is_active.getD t.is_active }

/-- The row of `Team.getById` as a snapshot: the team columns, the captain's username and
the number of active members. -/
def teamJson (w : World) (t : TeamRow) : Json :=
  .obj [("id", .num t.id), ("name", .str t.name), ("captain_id", .num t.captain_id),
        ("is_active", sqlBool t.is_active),
        ("captain_username",
          match w.users.find? (fun u => decide (u.id = t.captain_id)) with
          | some u => .str u.username
          | none => .null),
        ("member_count",
          .num (w.team_members.filter
            (fun m => decide (m.team_id = t.id) && decide (m.status = "active"))).length)]

/-- `Team.getById`: the team joined with its captain. -/
def Team.getById (id : Nat) (w : World) : Except AuthError (Option TeamRow) × World :=
  if w.faultNow then (.error .storage, w.advance)
  else
    (.ok (w.teams.find? (fun t =>
      decide (t.id = id) && w.users.any (fun u => decide (u.id = t.captain_id)))), w.advance)

/-- `Team.create`. The first parameter is destructured (`const { name } = teamData`); a
`NULL` name breaks `name VARCHAR(100) NOT NULL` and an unknown captain the foreign key, and
either makes the `INSERT` error. -/
def Team.create (env : Env) (teamData : Json) (userId : Nat) (ipAddress : String)
    (w : World) : Except AuthError Nat × World :=
  match teamData with
  | .null => (.error (.uncaught "TypeError: cannot destructure null"), w)
  | _ =>
    if w.faultNow then (.error .storage, w.advance)
    else if w.teams.any (fun t => decide (some t.name = sqlText (teamData.field "name"))) then
      (.error (.message "Team name already exists"), w.advance)
    else if w.advance.faultNow then (.error .storage, w.advance.advance)
    else
      match sqlText (teamData.field "name") with
      | none => (.error .storage, w.advance.advance)
      | some name =>
        if !(w.users.any (fun u => decide (u.id = userId))) then
          (.error .storage, w.advance.advance)
        else
          let teamId := nextId (w.teams.map (fun t => t.id))
          let w2 : World :=
            { w.advance.advance with
              teams := w.teams ++ [{ id := teamId, name := name, captain_id := userId }] }
          if w2.faultNow then (.error .storage, w2.advance)
          else
            let w3 : World :=
              { w2.advance with
                team_members := w2.team_members ++
                  [{ team_id := teamId, user_id := userId, status := "active" }] }
            (.ok teamId,
              logAudit env (some userId) "CREATE" "teams" (some teamId) none (some teamData)
                ipAddress w3)

/-- Whether the new name is held by another team (`name ... UNIQUE`). -/
def teamNameTaken (p : TeamPatch) (id : Nat) (w : World) : Bool :=
  w.teams.any (fun t => decide (t.id ≠ id) && decide (some t.name = p.name))

/-- The inner function `continueUpdate` of `Team.update`. -/
def Team.continueUpdate (env : Env) (id : Nat) (oldData : TeamRow) (updateData : TeamPatch)
    (userId : Nat) (ipAddress : String) (w : World) : Except AuthError Bool × World :=
  if updateData.name.isNone && updateData.is_active.isNone then
    (.error (.message "No valid fields to update"), w)
  else
    updateThenAudit (teamNameTaken updateData id w)
      (w.teams.filter (fun t => decide (t.id = id))).length "Team not found"
      (fun w1 => { w1 with
        teams := w1.teams.map (fun t => if t.id = id then applyTeamPatch updateData t else t) })
      (logAudit env (some userId) "UPDATE" "teams" (some id) (some (teamJson w oldData))
        (some updateData.toJson) ipAddress) w

/-- The inner function `continueDelete` of `Team.delete`. -/
def Team.continueDelete (env : Env) (id : Nat) (oldData : TeamRow) (userId : Nat)
    (ipAddress : String) (w : World) : Except AuthError Bool × World :=
  updateThenAudit false (w.teams.filter (fun t => decide (t.id = id))).length "Team not found"
    (fun w1 => { w1 with
      teams := w1.teams.map (fun t => if t.id = id then { t with is_active := false } else t) })
    (logAudit env (some userId) "DELETE" "teams" (some id) (some (teamJson w oldData))
      (some (.obj [("is_active", .bool false)])) ipAddress) w

/-- The captain-or-admin check shared by `Team.update` and `Team.delete`: a caller who is
not the captain is looked up (`SELECT role FROM users WHERE id = ?`); reading `user[0].role`
of an empty result throws inside the driver callback. -/
def Team.asCaptainOrAdmin (oldData : TeamRow) (userId : Nat) (denied : String)
    (continuation : World → Except AuthError Bool × World) (w : World) :
    Except AuthError Bool × World :=
  if oldData.captain_id ≠ userId then
    if w.faultNow then (.error .storage, w.advance)
    else
      match usersById userId w.advance with
      | [] => (.error (.uncaught "TypeError: cannot read role of undefined"), w.advance)
      | user :: _ =>
        if user.role ≠ "admin" then (.error (.message denied), w.advance)
        else continuation w.advance
  else continuation w

/-- `Team.update`. -/
def Team.update (env : Env) (id : Nat) (updateData : TeamPatch) (userId : Nat)
    (ipAddress : String) (w : World) : Except AuthError Bool × World :=
  match Team.getById id w with
  | (.error e, w1) => (.error e, w1)
  | (.ok none, w1) => (.error (.message "Team not found"), w1)
  | (.ok (some oldData), w1) =>
    Team.asCaptainOrAdmin oldData userId "Only team captain or admin can update team"
      (Team.continueUpdate env id oldData updateData userId ipAddress) w1

/-- `Team.delete` (soft delete: `is_active = FALSE`). -/
def Team.delete (env : Env) (id userId : Nat) (ipAddress : String) (w : World) :
    Except AuthError Bool × World :=
  match Team.getById id w with
  | (.error e, w1) => (.error e, w1)
  | (.ok none, w1) => (.error (.message "Team not found"), w1)
  | (.ok (some oldData), w1) =>
    Team.asCaptainOrAdmin oldData userId "Only team captain or admin can delete team"
      (Team.continueDelete env id oldData userId ipAddress) w1

/-- The update object of `Tournament.update`. -/
structure TournamentPatch where
  name : Option String := none
  game : Option String := none
  start_date : Option Nat := none
  end_date : Option Nat := none
  max_teams : Option Nat := none
  status : Option String := none
deriving DecidableEq, Repr

/-- Whether the update object names none of the updatable columns. -/
def TournamentPatch.noColumns (p : TournamentPatch) : Bool :=
  p.name.isNone && p.game.isNone && p.start_date.isNone && p.end_date.isNone
    && p.max_teams.isNone && p.status.isNone

/-- The update object as a JSON value. -/
def TournamentPatch.toJson (p : TournamentPatch) : Json :=
  .obj (jsonEntry "name" (p.name.map .str) ++ jsonEntry "game" (p.game.map .str) ++
    jsonEntry "start_date" (p.start_date.map (fun n => .num n)) ++
    jsonEntry "end_date" (p.end_date.map (fun n => .num n)) ++
    jsonEntry "max_teams" (p.max_teams.map (fun n => .num n)) ++
    jsonEntry "status" (p.status.map .str))

/-- One row under the `UPDATE tournaments SET ...` built from the update object. -/
def applyTournamentPatch (p : TournamentPatch) (t : TournamentRow) : TournamentRow :=
  { t with
    name := p.name.getD t.name, game := p.game.getD t.game,
    start_date := p.start_date.getD t.start_date,
    end_date := match p.end_date with | some d => some d | none => t.end_date,
    max_teams := p.max_teams.getD t.max_teams, status := p.status.getD t.status }

/-- The values of `tournaments.status ENUM(...)`. -/
def tournamentStatuses : List String := ["draft", "active", "completed", "cancelled"]

/-- The values of `matches.status ENUM(...)`. -/
def matchStatuses : List String := ["scheduled", "in_progress", "completed", "disputed"]

/-- Whether a given status lies outside the column's `ENUM` (the `UPDATE` then errors). -/
def statusRejected (allowed : List String) (status : Option String) : Bool :=
  match status with
  | some s => !allowed.contains s
  | none => false

/-- The row of `Tournament.getById` as a snapshot. -/
def tournamentJson (t : TournamentRow) : Json :=
  .obj [("id", .num t.id), ("name", .str t.name), ("game", .str t.game),
        ("start_date", .num t.start_date),
        ("end_date", match t.end_date with | some d => .num d | none => .null),
        ("status", .str t.status), ("max_teams", .num t.max_teams),
        ("created_by", .num t.created_by)]

/-- `Tournament.getById`: the tournament joined with its creator. -/
def Tournament.getById (id : Nat) (w : World) :
    Except AuthError (Option TournamentRow) × World :=
  if w.faultNow then (.error .storage, w.advance)
  else
    (.ok (w.tournaments.find? (fun t =>
      decide (t.id = id) && w.users.any (fun u => decide (u.id = t.created_by)))), w.advance)

/-- `Tournament.update`. -/
def Tournament.update (env : Env) (id : Nat) (updateData : TournamentPatch) (userId : Nat)
    (ipAddress : String) (w : World) : Except AuthError Bool × World :=
  match Tournament.getById id w with
  | (.error e, w1) => (.error e, w1)
  | (.ok none, w1) => (.error (.message "Tournament not found"), w1)
  | (.ok (some oldData), w1) =>
    if updateData.noColumns then (.error (.message "No valid fields to update"), w1)
    else
      updateThenAudit (statusRejected tournamentStatuses updateData.status)
        (w1.tournaments.filter (fun t => decide (t.id = id))).length "Tournament not found"
        (fun w2 => { w2 with
          tournaments := w2.tournaments.map
            (fun t => if t.id = id then applyTournamentPatch updateData t else t) })
        (logAudit env (some userId) "UPDATE" "tournaments" (some id)
          (some (tournamentJson oldData)) (some updateData.toJson) ipAddress) w1

/-- `Tournament.delete` (soft delete: `status = 'cancelled'`). -/
def Tournament.delete (env : Env) (id userId : Nat) (ipAddress : String) (w : World) :
    Except AuthError Bool × World :=
  match Tournament.getById id w with
  | (.error e, w1) => (.error e, w1)
  | (.ok none, w1) => (.error (.message "Tournament not found"), w1)
  | (.ok (some oldData), w1) =>
    updateThenAudit false
      (w1.tournaments.filter (fun t => decide (t.id = id))).length "Tournament not found"
      (fun w2 => { w2 with
        tournaments := w2.tournaments.map
          (fun t => if t.id = id then { t with status := "cancelled" } else t) })
      (logAudit env (some userId) "DELETE" "tournaments" (some id)
        (some (tournamentJson oldData)) (some (.obj [("status", .str "cancelled")]))
        ipAddress) w1

/-- The update object of `Match.update`. -/
structure MatchPatch where
  scheduled_time : Option Nat := none
  score1 : Option Int := none
  score2 : Option Int := none
  status : Option String := none
deriving DecidableEq, Repr

/-- Whether the update object names none of the updatable columns. -/
def MatchPatch.noColumns (p : MatchPatch) : Bool :=
  p.scheduled_time.isNone && p.score1.isNone && p.score2.isNone && p.status.isNone

/-- The update object as a JSON value. -/
def MatchPatch.toJson (p : MatchPatch) : Json :=
  .obj (jsonEntry "scheduled_time" (p.scheduled_time.map (fun n => .num n)) ++
    jsonEntry "score1" (p.score1.map .num) ++ jsonEntry "score2" (p.score2.map .num) ++
    jsonEntry "status" (p.status.map .str))

/-- One row under the `UPDATE matches SET ...` built from the update object. -/
def applyMatchPatch (p : MatchPatch) (m : MatchRow) : MatchRow :=
  { m with
    scheduled_time := p.scheduled_time.getD m.scheduled_time,
    score1 := match p.score1 with | some s => some s | none => m.score1,
    score2 := match p.score2 with | some s => some s | none => m.score2,
    status := p.status.getD m.status }

/-- Whether a given score lies outside the `INT` column (the `UPDATE` then errors). -/
def scoreRejected (score : Option Int) : Bool :=
  match score with
  | some s => !sqlIntOk s
  | none => false

/-- A nullable number as a JSON value. -/
def jsonOfInt (n : Option Int) : Json :=
  match n with
  | some v => .num v
  | none => .null

/-- The row of `Match.getById` as a snapshot. -/
def matchJson (m : MatchRow) : Json :=
  .obj [("id", .num m.id), ("tournament_id", .num m.tournament_id),
        ("team1_id", .num m.team1_id), ("team2_id", .num m.team2_id),
        ("scheduled_time", .num m.scheduled_time), ("score1", jsonOfInt m.score1),
        ("score2", jsonOfInt m.score2), ("status", .str m.status),
        ("submitted_by_user_id", jsonOfInt (m.submitted_by_user_id.map (fun n => (n : Int)))),
        ("verified_by_admin_id", jsonOfInt (m.verified_by_admin_id.map (fun n => (n : Int))))]

/-- `Match.getById`: the match joined with its two teams and its tournament. -/
def Match.getById (id : Nat) (w : World) : Except AuthError (Option MatchRow) × World :=
  if w.faultNow then (.error .storage, w.advance)
  else
    (.ok (w.matchRows.find? (fun m =>
      decide (m.id = id) && w.teams.any (fun t => decide (t.id = m.team1_id))
        && w.teams.any (fun t => decide (t.id = m.team2_id))
        && w.tournaments.any (fun t => decide (t.id = m.tournament_id)))), w.advance)

/-- `Match.update`. -/
def Match.update (env : Env) (id : Nat) (updateData : MatchPatch) (userId : Nat)
    (ipAddress : String) (w : World) : Except AuthError Bool × World :=
  match Match.getById id w with
  | (.error e, w1) => (.error e, w1)
  | (.ok none, w1) => (.error (.message "Match not found"), w1)
  | (.ok (some oldData), w1) =>
    if updateData.noColumns then (.error (.message "No valid fields to update"), w1)
    else
      updateThenAudit
        (statusRejected matchStatuses updateData.status || scoreRejected updateData.score1
          || scoreRejected updateData.score2)
        (w1.matchRows.filter (fun m => decide (m.id = id))).length "Match not found"
        (fun w2 => { w2 with
          matchRows := w2.matchRows.map
            (fun m => if m.id = id then applyMatchPatch updateData m else m) })
        (logAudit env (some userId) "UPDATE" "matches" (some id) (some (matchJson oldData))
          (some updateData.toJson) ipAddress) w1

/-- The result object of `Match.submitResult`; an absent score is `undefined`. -/
structure ResultData where
  score1 : Option Int := none
  score2 : Option Int := none
deriving DecidableEq, Repr

/-- JavaScript `score < 0`, false for `undefined`. -/
def jsNegative (score : Option Int) : Bool :=
  match score with
  | some s => decide (s < 0)
  | none => false

/-- `Match.submitResult`. -/
def Match.submitResult (env : Env) (id : Nat) (resultData : ResultData) (userId : Nat)
    (ipAddress : String) (w : World) : Except AuthError Bool × World :=
  if jsNegative resultData.score1 || jsNegative resultData.score2 then
    (.error (.message "Scores must be non-negative"), w)
  else
    updateThenAudit (scoreRejected resultData.score1 || scoreRejected resultData.score2)
      (w.matchRows.filter (fun m => decide (m.id = id))).length "Match not found"
      (fun w1 => { w1 with
        matchRows := w1.matchRows.map (fun m =>
          if m.id = id then
            { m with score1 := resultData.score1, score2 := resultData.score2,
                     status := "completed", submitted_by_user_id := some userId }
          else m) })
      (logAudit env (some userId) "SUBMIT_RESULT" "matches" (some id) none
        (some (.obj [("score1", jsonOfInt resultData.score1),
                     ("score2", jsonOfInt resultData.score2)])) ipAddress) w

/-- `Match.verifyResult`. -/
def Match.verifyResult (env : Env) (id adminId : Nat) (ipAddress : String) (w : World) :
    Except AuthError Bool × World :=
  updateThenAudit false
    (w.matchRows.filter (fun m => decide (m.id = id))).length "Match not found"
    (fun w1 => { w1 with
      matchRows := w1.matchRows.map (fun m =>
        if m.id = id then { m with verified_by_admin_id := some adminId } else m) })
    (logAudit env (some adminId) "VERIFY_RESULT" "matches" (some id) none
      (some (.obj [("verified", .bool true)])) ipAddress) w

/-! ## `routes/teams.js` -/

/-- The handler of `POST /teams`, run after `authenticateToken` and
`validateTeamCreation`; `name` is `req.body.name`. The handler passes the name string
itself as first argument of `Team.create`, and answers 409 only for two error codes that
`Team.create` never produces. -/
def postTeams (env : Env) (req : Request) (name : String) (w : World) : Response × World :=
  match req.user with
  | none => ({ status := 500 }, w)
  | some caller =>
    match Team.create env (.str name) caller.id req.ip w with
    | (.ok teamId, w1) =>
      ({ status := 201, message := some "Team created successfully", team := some teamId },
        w1)
    | (.error _, w1) =>
      ({ status := 500, error := some "Failed to create team",
         code := some "CREATE_TEAM_ERROR" }, w1)

/-! ## `server.js`: error-handling middleware -/

/-- A thrown JavaScript error, with the two properties the error middleware reads. -/
structure JsError where
  message : String
  stack : String
deriving DecidableEq, Repr

/-- The error-handling middleware of `server.js`; `nodeEnv` is `process.env.NODE_ENV`
(`none` when unset). -/
def errorHandler (nodeEnv : Option String) (err : JsError) : Response :=
  if nodeEnv = some "production" then
    { status := 500, error := some "Internal server error" }
  else
    { status := 500, error := some err.message, stack := some err.stack }

/-! ## Pagination of the list operations -/

/-- The `pagination` object built by `Team.getAll` and by `GET /users`; its numbers are
JavaScript numbers (doubles) holding natural numbers. -/
structure Pagination where
  page : Nat
  limit : Nat
  total : Nat
  totalPages : Option Nat
  hasNext : Bool
  hasPrev : Bool
deriving DecidableEq, Repr

/-- The number of binary digits of a natural number (`fuel` bounds the number of
halvings; `bitLength` gives it the number itself). -/
def bitLengthAux : Nat → Nat → Nat
  | 0, _ => 0
  | fuel + 1, n => if n = 0 then 0 else bitLengthAux fuel (n / 2) + 1

/-- The number of binary digits of `n`: `2 ^ (bitLength n - 1) ≤ n < 2 ^ bitLength n` for
`n > 0`. -/
def bitLength (n : Nat) : Nat := bitLengthAux n n

/-- The integer nearest to `n / d`, a tie going to the even one (the rounding of IEEE 754
arithmetic). -/
def divRoundEven (n d : Nat) : Nat :=
  if 2 * (n % d) < d then n / d
  else if d < 2 * (n % d) then n / d + 1
  else if (n / d) % 2 = 0 then n / d
  else n / d + 1

/-- The largest finite double, `2 ^ 1024 - 2 ^ 971`. -/
def maxDouble : Nat :=
  179769313486231570814527423731704356798070567525844996598917476803157260780028538760589558632766878171540458953514382464234321326889464182768467546703537516986049910576551282076245490090389328944075868508455133942304583236903222948165808559332123348274797826204144723168738177180919299881250404026184124858368

/-- The double that holds the result of an operation whose exact value is the natural
number `n`: `n` itself up to `2 ^ 53`, beyond that the nearest number with 53 significant
binary digits (ties to even); `none` is `Infinity`. -/
def roundDouble (n : Nat) : Option Nat :=
  if n ≤ 2 ^ 53 then some n
  else
    let e := bitLength n - 53
    let rounded := divRoundEven n (2 ^ e) * 2 ^ e
    if maxDouble < rounded then none else some rounded

/-- `Math.ceil(total / limit)` for two numbers holding natural numbers: the quotient is
rounded to 53 significant binary digits (ties to even) and then rounded up to an integer.
For `limit = 0` the quotient is `Infinity` or `NaN`, which is no natural number (`none`);
a quotient below 1 of a positive `total` is a positive double at most 1. -/
def jsCeilDiv (total limit : Nat) : Option Nat :=
  if limit = 0 then none
  else if total = 0 then some 0
  else if total < limit then some 1
  else
    let digits := bitLength (total / limit)
    if digits ≤ 53 then
      let scale := 2 ^ (53 - digits)
      some ((divRoundEven (total * scale) limit + scale - 1) / scale)
    else
      let scale := 2 ^ (digits - 53)
      some (divRoundEven total (limit * scale) * scale)

/-- `const offset = (page - 1) * limit` for two numbers holding natural numbers: the
difference and the product are each rounded to a double; `none` is `Infinity`. -/
def pageOffset (page limit : Nat) : Option Int :=
  if page = 0 then some (-(limit : Int))
  else (roundDouble (page - 1)).bind (fun p => (roundDouble (p * limit)).map Int.ofNat)

/-- The record `{ page, limit, total, totalPages, hasNext: page < totalPages,
hasPrev: page > 1 }`; against `Infinity` the comparison `page < totalPages` is true, against
`NaN` it is false. -/
def paginationRecord (page limit total : Nat) : Pagination :=
  { page := page, limit := limit, total := total,
    totalPages := jsCeilDiv total limit,
    hasNext :=
      match jsCeilDiv total limit with
      | some totalPages => decide (page < totalPages)
      | none => decide (0 < total),
    hasPrev := decide (1 < page) }

/-! ## `routes/auth.js`: registration -/

/-- The body of `POST /register`; an omitted key is `none`. The route has no validator, so
`password` and `role` are any JSON values (`username` and `email` are taken to be
strings). -/
structure RegisterBody where
  username : Option String := none
  email : Option String := none
  password : Option Json := none
  role : Option Json := none

/-- The values of `users.role ENUM('player', 'captain', 'admin')` (strings are taken up to
the collation of the column). -/
def userRoles : List String := ["player", "captain", "admin"]

/-- The member stored when a value is written to an `ENUM` column: the name of a member is
stored as it is, any other value as the member MySQL resolves it to; `none` when it
resolves to no member and the statement errors. -/
def enumStored (env : Env) (members : List String) (value : Json) : Option String :=
  match value with
  | .str name => if members.contains name then some name else env.enumMember members value
  | _ => env.enumMember members value

/-- Whether the texts of a new `users` row are too long for their columns
(`username VARCHAR(50)`, `email VARCHAR(255)`), which makes the `INSERT` error. -/
def userTextTooLong (username email : String) : Bool :=
  decide (50 < username.length) || decide (255 < email.length)

/-- The handler of `POST /register`; the route has no validator and no authentication.
`role` defaults to `player` when the key is omitted; `bcrypt.hash` rejects when the password
is no string, which the `catch` around it answers with 500. -/
def postRegister (env : Env) (body : RegisterBody) (w : World) : Response × World :=
  match truthyStr body.username, truthyStr body.email, truthyJson body.password with
  | some username, some email, some password =>
    if w.faultNow then ({ status := 500, error := some "Database error" }, w.advance)
    else if w.users.any
        (fun u => decide (u.email = email) || decide (u.username = username)) then
      ({ status := 409, error := some "User with this email or username already exists" },
        w.advance)
    else
      match password with
      | .str text =>
        let stored : Option String :=
          if w.advance.faultNow || userTextTooLong username email then none
          else enumStored env userRoles (body.role.getD (.str "player"))
        match stored with
        | none => ({ status := 500, error := some "Failed to create user" }, w.advance.advance)
        | some role =>
          let userId := nextId (w.users.map (fun u => u.id))
          let w2 : World :=
            { w.advance.advance with
              users := w.users ++
                [{ id := userId, username := username, email := email,
                   password_hash := env.bcryptHash text, role := role }] }
          if w2.faultNow then
            ({ status := 500, error := some "Failed to fetch user" }, w2.advance)
          else
            match usersById userId w2.advance with
            | newUser :: _ =>
              ({ status := 201, message := some "User registered successfully",
                 user := some { id := newUser.id, username := newUser.username,
                                email := newUser.email, role := newUser.role } }, w2.advance)
            | [] => ({ status := 500 }, w2.advance)
      | _ => ({ status := 500, error := some "Password hashing failed" }, w.advance)
  | _, _, _ =>
    ({ status := 400, error := some "Username, email, and password are required" }, w)

/-! ## `routes/matches.js` and `routes/tournaments.js` -/

/-- The body of `PUT /matches/:id/score`. -/
structure ScoreBody where
  score1 : Option Int := none
  score2 : Option Int := none
deriving DecidableEq, Repr

/-- The handler of `PUT /matches/:id/score`: `Match.submitResult` with the caller's id, then
the re-read of the match. -/
def putMatchScore (env : Env) (req : Request) (matchId : Nat) (body : ScoreBody)
    (w : World) : Response × World :=
  match req.user with
  | none => ({ status := 500 }, w)
  | some caller =>
    match Match.submitResult env matchId { score1 := body.score1, score2 := body.score2 }
        caller.id req.ip w with
    | (.error (.message msg), w1) =>
      if msg = "Scores must be non-negative" then
        ({ status := 400, error := some "Scores must be non-negative",
           code := some "INVALID_SCORES" }, w1)
      else if msg = "Match not found" then
        ({ status := 404, error := some "Match not found", code := some "MATCH_NOT_FOUND" },
          w1)
      else
        ({ status := 500, error := some "Failed to submit score",
           code := some "SUBMIT_SCORE_ERROR" }, w1)
    | (.error _, w1) =>
      ({ status := 500, error := some "Failed to submit score",
         code := some "SUBMIT_SCORE_ERROR" }, w1)
    | (.ok _, w1) =>
      match Match.getById matchId w1 with
      | (.ok updated, w2) =>
        ({ status := 200, message := some "Match score submitted successfully",
           matchRow := updated }, w2)
      | (.error _, w2) =>
        ({ status := 200, message := some "Match score submitted successfully" }, w2)

/-- The route `PUT /matches/:id/score` as registered: `authenticateToken`, the validators
`validateIdParam` and `validateScoreSubmission` (verdict `validationOk`; a parameter that is
no positive integer is refused), then the handler. -/
def putMatchScoreRoute (env : Env) (validationOk : Bool) (req : Request) (body : ScoreBody)
    (w : World) : Response × World :=
  match authenticateToken env req w with
  | (.respond res, w1) => (res, w1)
  | (.next req1, w1) =>
    match validationOk, req1.paramId with
    | true, some matchId => putMatchScore env req1 matchId body w1
    | _, _ =>
      ({ status := 400, error := some "Validation failed", code := some "VALIDATION_ERROR" },
        w1)

/-- The object passed to `Tournament.create` (`req.body`). -/
structure TournamentData where
  name : Option String := none
  game : Option String := none
  start_date : Option Nat := none
  end_date : Option Nat := none
  max_teams : Option Nat := none
  status : Option String := none
deriving DecidableEq, Repr

/-- The creation object as a JSON value. -/
def TournamentData.toJson (d : TournamentData) : Json :=
  .obj (jsonEntry "name" (d.name.map .str) ++ jsonEntry "game" (d.game.map .str) ++
    jsonEntry "start_date" (d.start_date.map (fun n => .num n)) ++
    jsonEntry "end_date" (d.end_date.map (fun n => .num n)) ++
    jsonEntry "max_teams" (d.max_teams.map (fun n => .num n)) ++
    jsonEntry "status" (d.status.map .str))

/-- `Tournament.create`; `max_teams` defaults to 16 and `status` to `draft`. The `INSERT`
errors on a `NULL` name, game or start date, on a status outside the `ENUM`, and on a
creator that is no user (foreign key). -/
def Tournament.create (env : Env) (tournamentData : TournamentData) (userId : Nat)
    (ipAddress : String) (w : World) : Except AuthError Nat × World :=
  if w.faultNow then (.error .storage, w.advance)
  else if w.tournaments.any (fun t => decide (some t.name = tournamentData.name)) then
    (.error (.message "Tournament name already exists"), w.advance)
  else if w.advance.faultNow then (.error .storage, w.advance.advance)
  else
    match tournamentData.name, tournamentData.game, tournamentData.start_date with
    | some name, some game, some startDate =>
      if statusRejected tournamentStatuses (some (tournamentData.status.getD "draft"))
          || !(w.users.any (fun u => decide (u.id = userId))) then
        (.error .storage, w.advance.advance)
      else
        let tournamentId := nextId (w.tournaments.map (fun t => t.id))
        let w2 : World :=
          { w.advance.advance with
            tournaments := w.tournaments ++
              [{ id := tournamentId, name := name, created_by := userId, game := game,
                 start_date := startDate, end_date := tournamentData.end_date,
                 status := tournamentData.status.getD "draft",
                 max_teams := tournamentData.max_teams.getD 16 }] }
        (.ok tournamentId,
          logAudit env (some userId) "CREATE" "tournaments" (some tournamentId) none
            (some tournamentData.toJson) ipAddress w2)
    | _, _, _ => (.error .storage, w.advance.advance)

/-- The handler of `POST /tournaments`. Reading `req.user.id` of an absent `req.user`
throws inside the `try`, and the `catch` answers 500. -/
def postTournaments (env : Env) (req : Request) (body : TournamentData) (w : World) :
    Response × World :=
  match req.user with
  | none =>
    ({ status := 500, error := some "Failed to create tournament",
       code := some "CREATE_TOURNAMENT_ERROR" }, w)
  | some caller =>
    match Tournament.create env body caller.id req.ip w with
    | (.error e, w1) =>
      if e = .message "Tournament name already exists" then
        ({ status := 409, error := some "Tournament name already exists",
           code := some "TOURNAMENT_NAME_TAKEN" }, w1)
      else
        ({ status := 500, error := some "Failed to create tournament",
           code := some "CREATE_TOURNAMENT_ERROR" }, w1)
    | (.ok tournamentId, w1) =>
      match Tournament.getById tournamentId w1 with
      | (.error _, w2) =>
        ({ status := 500, error := some "Tournament created but failed to retrieve details",
           code := some "GET_TOURNAMENT_ERROR" }, w2)
      | (.ok created, w2) =>
        ({ status := 201, message := some "Tournament created successfully",
           tournamentRow := created }, w2)

/-- A request as Express hands it to the first middleware of a route: no middleware has
run, so it has neither `user` nor `sessionId`. -/
def Request.incoming (req : Request) : Request :=
  { req with user := none, sessionId := none }

/-- The route `POST /tournaments` as registered: `validateTournamentCreation` (verdict
`validationOk`), then the handler; `authenticateToken` and `requireAdmin` are commented
out in the registration, so nothing sets `req.user`. -/
def postTournamentsRoute (env : Env) (validationOk : Bool) (req : Request)
    (body : TournamentData) (w : World) : Response × World :=
  if !validationOk then
    ({ status := 400, error := some "Validation failed", code := some "VALIDATION_ERROR" }, w)
  else postTournaments env req.incoming body w

/-! ## `middleware/validation.js`: `sanitizeInput` -/

/-- Whether the text starts with the pattern, which is given in lower case; the flag `i` of
the regular expressions makes the ASCII letters compare without regard to case (no character
outside ASCII is equivalent to an ASCII character when the flag `u` is absent). -/
def startsWithCI : List Char → List Char → Bool
  | _, [] => true
  | [], _ :: _ => false
  | c :: cs, p :: ps => (c.toLower == p) && startsWithCI cs ps

/-- The class `\w`: ASCII letters, digits and the underscore. -/
def isWordChar (c : Char) : Bool :=
  c.isAlphanum || c == '_'

/-- The class `\s`: the white space and line terminators of JavaScript, by code point. -/
def isJsSpace (c : Char) : Bool :=
  [9, 10, 11, 12, 13, 32, 160, 5760, 8232, 8233, 8239, 8287, 12288, 65279].contains c.toNat
    || (decide (8192 ≤ c.toNat) && decide (c.toNat ≤ 8202))

/-- The number of characters up to the end of the first `</script>` of the text, if there
is one. -/
def closingTagEnd : List Char → Option Nat
  | [] => none
  | c :: cs =>
    if startsWithCI (c :: cs) "</script>".data then some 9
    else (closingTagEnd cs).map (fun n => n + 1)

/-- The length of the match of `/<script\b[^<]*(?:(?!<\/script>)<[^<]*)*<\/script>/i` at the
start of the text: `<script`, a word boundary, then everything up to the first `</script>`
that follows (`[^<]*` stops at each `<`, and the group refuses exactly the `<` that opens a
`</script>`). -/
def scriptBlockLength (cs : List Char) : Option Nat :=
  if startsWithCI cs "<script".data then
    match cs.drop 7 with
    | [] => none
    | c :: rest =>
      if isWordChar c then none
      else (closingTagEnd (c :: rest)).map (fun n => n + 7)
  else none

/-- The length of the match of `/javascript:/i` at the start of the text. -/
def schemeLength (cs : List Char) : Option Nat :=
  if startsWithCI cs "javascript:".data then some 11 else none

/-- The length of the match of `/on\w+\s*=/i` at the start of the text: `on`, the whole run
of word characters that follows (at least one), the whole run of white space, then `=`. -/
def handlerLength (cs : List Char) : Option Nat :=
  if startsWithCI cs "on".data then
    let word := (cs.drop 2).takeWhile isWordChar
    let afterWord := (cs.drop 2).dropWhile isWordChar
    let blank := afterWord.takeWhile isJsSpace
    match word, afterWord.dropWhile isJsSpace with
    | _ :: _, '=' :: _ => some (2 + word.length + blank.length + 1)
    | _, _ => none
  else none

/-- The call `str.replace(re, '')` for a global regular expression whose matches are never
empty: the text is scanned from the left, each match is dropped and the scan resumes right
after it; `skip` counts the characters of the current match still to drop. The result is
not scanned again. -/
def replaceAll (matchLength : List Char → Option Nat) : Nat → List Char → List Char
  | _, [] => []
  | skip + 1, _ :: cs => replaceAll matchLength skip cs
  | 0, c :: cs =>
    match matchLength (c :: cs) with
    | some (n + 1) => replaceAll matchLength n cs
    | _ => c :: replaceAll matchLength 0 cs

/-- The function `sanitizeString` on a string: the three `replace` calls, one after the
other. -/
def sanitizeString (str : String) : String :=
  String.mk (replaceAll handlerLength 0 (replaceAll schemeLength 0
    (replaceAll scriptBlockLength 0 str.data)))

mutual
/-- The function `sanitizeObject`: `null` and every value that is no object are returned as
they are, an array is mapped with `sanitizeObject`, and an object is rebuilt entry by
entry (keys are ordinary property names). -/
def sanitizeObject : Json → Json
  | .arr items => .arr (sanitizeItems items)
  | .obj fields => .obj (sanitizeFields fields)
  | v => v
/-- The call `obj.map(sanitizeObject)`. -/
def sanitizeItems : List Json → List Json
  | [] => []
  | v :: vs => sanitizeObject v :: sanitizeItems vs
/-- The loop over `Object.entries(obj)`: a string value goes through `sanitizeString`, a
value of type `object` (`null`, array, object) through `sanitizeObject`, any other value is
copied. -/
def sanitizeFields : List (String × Json) → List (String × Json)
  | [] => []
  | (key, .str s) :: rest => (key, .str (sanitizeString s)) :: sanitizeFields rest
  | (key, .num n) :: rest => (key, .num n) :: sanitizeFields rest
  | (key, .bool b) :: rest => (key, .bool b) :: sanitizeFields rest
  | (key, value) :: rest => (key, sanitizeObject value) :: sanitizeFields rest
end

/-! ## `routes/scheduling.js` -/

/-- A row of the query for the registered teams: `id` and `name` of a team. -/
structure SchedTeam where
  id : Nat
  name : String
deriving DecidableEq, Repr

/-- A match as the generators build it; `scheduled_time` is the wall-clock time in hours. -/
structure GeneratedMatch where
  team1_id : Nat
  team2_id : Nat
  scheduled_time : Nat
  round : Nat
deriving DecidableEq, Repr

/-- The inner loop of `generateRoundRobinMatches` for the team at index `i`: one match with
each team at a later index, the running time advancing by two hours after each. -/
def roundRobinRow (team : SchedTeam) : List SchedTeam → Nat → List GeneratedMatch
  | [], _ => []
  | other :: rest, currentTime =>
    { team1_id := team.id, team2_id := other.id, scheduled_time := currentTime, round := 1 } ::
      roundRobinRow team rest (currentTime + 2)

/-- The helper `generateRoundRobinMatches`: the outer loop over the teams, each paired by the
inner loop with the teams after it; the running time is shared by the two loops. -/
def generateRoundRobinMatches : List SchedTeam → Nat → List GeneratedMatch
  | [], _ => []
  | team :: rest, startDate =>
    roundRobinRow team rest startDate ++
      generateRoundRobinMatches rest (startDate + 2 * rest.length)

/-- The helper `generateSingleEliminationMatches`: the first round pairs the teams at
indices `2 i` and `2 i + 1` for `i < floor (n / 2)`; a last unpaired team gets no match. -/
def generateSingleEliminationMatches : List SchedTeam → Nat → List GeneratedMatch
  | first :: second :: rest, startDate =>
    { team1_id := first.id, team2_id := second.id, scheduled_time := startDate, round := 1 } ::
      generateSingleEliminationMatches rest (startDate + 2)
  | _, _ => []

/-- The rows of `SELECT DISTINCT`: a row equal to a later one is dropped. -/
def distinctRows : List SchedTeam → List SchedTeam
  | [] => []
  | row :: rest => if rest.contains row then distinctRows rest else row :: distinctRows rest

/-- One step of `ORDER BY t.name`: the row is placed before the first row that does not
precede it; `nameLe` is the order of the column's collation. -/
def insertByName (nameLe : String → String → Bool) (row : SchedTeam) :
    List SchedTeam → List SchedTeam
  | [] => [row]
  | other :: rest =>
    if nameLe row.name other.name then row :: other :: rest
    else other :: insertByName nameLe row rest

/-- The clause `ORDER BY t.name`. -/
def orderByName (nameLe : String → String → Bool) : List SchedTeam → List SchedTeam
  | [] => []
  | row :: rest => insertByName nameLe row (orderByName nameLe rest)

/-- The rows of the query for the registered teams: `teams` joined with `matches` on
`t.id = m.team1_id OR t.id = m.team2_id`, kept where `m.tournament_id = ?`, projected to
`id` and `name`, made distinct and ordered by name. -/
def registeredTeams (nameLe : String → String → Bool) (tournamentId : Nat) (w : World) :
    List SchedTeam :=
  orderByName nameLe (distinctRows (w.teams.flatMap (fun t =>
    (w.matchRows.filter (fun m =>
      (decide (t.id = m.team1_id) || decide (t.id = m.team2_id))
        && decide (m.tournament_id = tournamentId))).map
      (fun _ => ({ id := t.id, name := t.name } : SchedTeam)))))

/-- The rows of `SELECT id, name, status, max_teams FROM tournaments WHERE id = ?` for a
parameter that has passed `validateIdParam` and writes the number `tournamentId`. -/
def tournamentsWithId (tournamentId : Nat) (w : World) : List TournamentRow :=
  w.tournaments.filter (fun t => decide (t.id = tournamentId))

/-- The rows counted by `SELECT COUNT(*) as count FROM matches WHERE tournament_id = ?`. -/
def matchesOfTournament (tournamentId : Nat) (w : World) : List MatchRow :=
  w.matchRows.filter (fun m => decide (m.tournament_id = tournamentId))

/-- The loop that inserts the generated matches, one statement each; the first statement
that errors ends the loop (the rows inserted before it stay). The result says whether all
statements succeeded. -/
def insertMatches (tournamentId : Nat) : List GeneratedMatch → World → Bool × World
  | [], w => (true, w)
  | m :: rest, w =>
    if w.faultNow then (false, w.advance)
    else
      insertMatches tournamentId rest
        { w.advance with
          matchRows := w.matchRows ++
            [{ id := nextId (w.matchRows.map (fun r => r.id)), tournament_id := tournamentId,
               team1_id := m.team1_id, team2_id := m.team2_id,
               scheduled_time := m.scheduled_time, status := "scheduled" }] }

/-- The response of the `catch` block of the generate-matches handler. -/
def generateMatchesError : Response :=
  { status := 500, error := some "Failed to generate matches",
    code := some "GENERATE_MATCHES_ERROR" }

/-- The part of the generate-matches handler after its checks: generation by bracket type
(`startDate` is the server time plus 24 hours), the inserts, the audit entry and the
success response. -/
def generateAndStore (env : Env) (serverTime : Nat) (req : Request) (tournamentId : Nat)
    (bracket_type : String) (teams : List SchedTeam) (w : World) : Response × World :=
  let generated : Option (List GeneratedMatch) :=
    if bracket_type = "single_elimination" then
      some (generateSingleEliminationMatches teams (serverTime + 24))
    else if bracket_type = "round_robin" then
      some (generateRoundRobinMatches teams (serverTime + 24))
    else none
  match generated with
  | none =>
    ({ status := 400, error := some "Invalid bracket type",
       code := some "INVALID_BRACKET_TYPE" }, w)
  | some matchList =>
    match insertMatches tournamentId matchList w with
    | (false, w1) => (generateMatchesError, w1)
    | (true, w1) =>
      match req.user with
      | none => (generateMatchesError, w1)
      | some caller =>
        ({ status := 200, message := some "Matches generated successfully",
           matches_generated := some matchList.length, bracket_type := some bracket_type },
          logAudit env (some caller.id) "GENERATE_MATCHES" "tournaments" (some tournamentId)
            none
            (some (.obj [("bracket_type", .str bracket_type),
                         ("matches_generated", .num matchList.length),
                         ("teams_count", .num teams.length)]))
            req.ip w1)

/-- The handler of `POST /tournaments/:id/generate-matches`, after `authenticateToken`,
`requireAdmin` and `validateIdParam`; `bracketType` is `req.body.bracket_type` (a string when
present), `nameLe` the order of the collation of `teams.name`. The three queries read the
same tables: nothing is written between them. -/
def postGenerateMatches (env : Env) (nameLe : String → String → Bool) (serverTime : Nat)
    (req : Request) (tournamentId : Nat) (bracketType : Option String) (w : World) :
    Response × World :=
  let bracket_type := bracketType.getD "single_elimination"
  if w.faultNow then (generateMatchesError, w.advance)
  else
    match tournamentsWithId tournamentId w with
    | [] =>
      ({ status := 404, error := some "Tournament not found",
         code := some "TOURNAMENT_NOT_FOUND" }, w.advance)
    | tournament :: _ =>
      if tournament.status ≠ "active" then
        ({ status := 400, error := some "Tournament must be active to generate matches",
           code := some "TOURNAMENT_NOT_ACTIVE" }, w.advance)
      else if w.advance.faultNow then (generateMatchesError, w.advance.advance)
      else if (registeredTeams nameLe tournamentId w).length < 2 then
        ({ status := 400, error := some "At least 2 teams must be registered",
           code := some "INSUFFICIENT_TEAMS" }, w.advance.advance)
      else if w.advance.advance.faultNow then
        (generateMatchesError, w.advance.advance.advance)
      else if 0 < (matchesOfTournament tournamentId w).length then
        ({ status := 409, error := some "Matches already exist for this tournament",
           code := some "MATCHES_EXIST" }, w.advance.advance.advance)
      else
        generateAndStore env serverTime req tournamentId bracket_type
          (registeredTeams nameLe tournamentId w) w.advance.advance.advance

/-! ## Notions used to state the properties -/

/-- The account a lookup by email finds: the row `User.getByEmail` resolves to. -/
def World.account (w : World) (email : String) : Option UserRow :=
  w.users.find? (fun u => decide (u.email = email))

/-- The `UNIQUE` constraint on `users.email`. -/
def World.uniqueEmails (w : World) : Prop :=
  (w.users.map (fun u => u.email)).Nodup

instance decidableUniqueEmails (w : World) : Decidable w.uniqueEmails :=
  inferInstanceAs (Decidable (List.Nodup _))

/-- Consecutive `User.authenticate` calls for one email, one per password of the list; only
the store is carried from one call to the next. -/
def authenticateEach (env : Env) (email ipAddress : String) : List String → World → World
  | [], w => w
  | password :: rest, w =>
    authenticateEach env email ipAddress rest
      (User.authenticate env email password ipAddress w).2

/-- The ordering contract of one mutator call, read on the table it updates (`before`,
`after`) and on the audit log: a call that ends in an error leaves the audit log and the
table as they were; a call that succeeds found a row with the id and left the table
updated; without a row with the id the call ends in an error; and at most one audit entry
is appended. -/
def MutationBeforeAudit {Row : Type} (result : Except AuthError Bool)
    (auditBefore auditAfter : List AuditRow) (before after : List Row)
    (hasId : Row → Bool) (updated : List Row) : Prop :=
  ((∃ e, result = .error e) → auditAfter = auditBefore ∧ after = before) ∧
  (result = .ok true → (∃ r ∈ before, hasId r = true) ∧ after = updated) ∧
  ((∀ r ∈ before, hasId r = false) → ∃ e, result = .error e) ∧
  (auditAfter ≠ auditBefore →
    result = .ok true ∧ ∃ entry, auditAfter = auditBefore ++ [entry])

/-- Whether the pattern (lower case) occurs somewhere in the text, in any letter case. -/
def includesCI (pat : List Char) : List Char → Bool
  | [] => startsWithCI [] pat
  | c :: cs => startsWithCI (c :: cs) pat || includesCI pat cs

/-- Whether a generated match is played by the teams with ids `a` and `b`, in either
order. -/
def pairsTeams (a b : Nat) (m : GeneratedMatch) : Bool :=
  (decide (m.team1_id = a) && decide (m.team2_id = b)) ||
    (decide (m.team1_id = b) && decide (m.team2_id = a))

/-! ## Sample data used by the concrete checks -/

/-- The number written in decimal digits at the start of a text, after leading spaces; 0
when there is none. -/
def leadingNumber (text : String) : Option Nat :=
  some (((text.data.dropWhile (fun c => c == ' ')).takeWhile Char.isDigit).foldl
    (fun n c => 10 * n + (c.toNat - 48)) 0)

/-- The member of an `ENUM` that a number, or a text made of decimal digits, stands for:
the member at that position, counted from 1. -/
def memberByNumber (members : List String) : Json → Option String
  | .num n => if 1 ≤ n then members[n.toNat - 1]? else none
  | .str text =>
    if text.data ≠ [] ∧ text.data.all Char.isDigit = true then
      match leadingNumber text with
      | some (k + 1) => members[k]?
      | _ => none
    else none
  | _ => none

/-- The oracles for the examples: the only valid access token is `"T"` and the only valid
refresh token is `"R"`, both issued to user 1; a text compared with an id column is read
as the number at its start, and a number written to an `ENUM` column as the position of a
member. -/
def sampleEnv : Env :=
  { jwtVerify := fun t => if t = "T" then .ok 1 else .jsonWebTokenError,
    jwtVerifyRefresh := fun t => if t = "R" then .ok 1 else .jsonWebTokenError,
    jwtSign := fun _ _ _ => "T",
    bcryptCompare := fun password hash => password == hash,
    bcryptHash := fun password => password,
    jsonStringify := fun _ => "json",
    now := 100,
    sqlRowId := leadingNumber,
    enumMember := memberByNumber }

/-- An unlocked player account with no failed attempts. -/
def alice : UserRow :=
  { id := 1, username := "alice", email := "a@x", password_hash := "pw" }

/-- The account of `alice` after the lockout: locked, with four failed attempts. -/
def lockedAlice : UserRow :=
  { alice with account_locked := true, failed_login_count := 4 }

/-- A second account, a team captain. -/
def bob : UserRow :=
  { id := 2, username := "bob", email := "b@x", password_hash := "pw2", role := "captain" }

/-- A session of `alice` for the token `"T"` expiring at the given time. -/
def aliceSession (expires : Nat) : SessionRow :=
  { id := 7, user_id := 1, token_hash := "T", expires_at := expires }

/-- An unlocked admin account whose email is not verified. -/
def carol : UserRow :=
  { id := 3, username := "carol", email := "c@x", password_hash := "pw3", role := "admin" }

/-- A token oracle for the examples with an admin: `"T"` belongs to user 1, `"A"` to user 3. -/
def adminEnv : Env :=
  { sampleEnv with
    jwtVerify := fun t =>
      if t = "T" then .ok 1 else if t = "A" then .ok 3 else .jsonWebTokenError }

/-- A live session of `carol` for the token `"A"`. -/
def carolSession : SessionRow :=
  { id := 9, user_id := 3, token_hash := "A", expires_at := 150 }

/-- The team of captain `bob`. -/
def ravens : TeamRow :=
  { id := 5, name := "Ravens", captain_id := 2 }

/-- A scheduled match of tournament 1. -/
def sampleMatch : MatchRow :=
  { id := 4, tournament_id := 1, team1_id := 5, team2_id := 6 }

/-- A second team of captain `bob`. -/
def crows : TeamRow :=
  { id := 6, name := "Crows", captain_id := 2 }

/-- An active tournament created by `carol`. -/
def springCup : TournamentRow :=
  { id := 1, name := "Spring Cup", created_by := 3, status := "active" }

/-- A store in which `alice` holds a live session and is a member of no team, `bob`
captains both teams of the sample match. -/
def matchWorld : World :=
  { users := [alice, bob, carol], user_sessions := [aliceSession 150],
    teams := [ravens, crows],
    team_members := [{ team_id := 5, user_id := 2, status := "active" },
                     { team_id := 6, user_id := 2, status := "active" }],
    tournaments := [springCup], matchRows := [sampleMatch] }

/-- The order of two names by their code points, used as the collation of the samples. -/
def byCodePoints (a b : String) : Bool :=
  decide (a.data.map Char.toNat ≤ b.data.map Char.toNat)

/-- The store `matchWorld` after the tournament is completed. -/
def finishedWorld : World :=
  { matchWorld with tournaments := [{ springCup with status := "completed" }] }

/-! ## Basic facts about the store -/

@[simp] theorem advance_users (w : World) : w.advance.users = w.users := rfl

@[simp] theorem advance_user_sessions (w : World) :
    w.advance.user_sessions = w.user_sessions := rfl

@[simp] theorem advance_login_attempts (w : World) :
    w.advance.login_attempts = w.login_attempts := rfl

@[simp] theorem advance_teams (w : World) : w.advance.teams = w.teams := rfl

@[simp] theorem advance_tournaments (w : World) :
    w.advance.tournaments = w.tournaments := rfl

@[simp] theorem advance_team_members (w : World) :
    w.advance.team_members = w.team_members := rfl

@[simp] theorem advance_matchRows (w : World) : w.advance.matchRows = w.matchRows := rfl

@[simp] theorem advance_audit_logs (w : World) : w.advance.audit_logs = w.audit_logs := rfl

@[simp] theorem advance_bcryptCalls (w : World) : w.advance.bcryptCalls = w.bcryptCalls := rfl

@[simp] theorem advance_faults (w : World) : w.advance.faults = w.faults.tail := rfl

theorem head_of_filter_eq_cons {α : Type} (p : α → Bool) (xs : List α) (x : α) (rest : List α)
    (h : xs.filter p = x :: rest) : x ∈ xs ∧ p x = true := by
  have hx : x ∈ xs.filter p := by rw [h]; exact List.mem_cons_self _ _
  exact List.mem_filter.mp hx

theorem filter_eq_nil_of_forall {α : Type} (p : α → Bool) (xs : List α)
    (h : ∀ x ∈ xs, p x = false) : xs.filter p = [] := by
  apply List.filter_eq_nil_iff.mpr
  intro x hx
  simp [h x hx]

/-! ## Session guard -/

/-- C1. `authenticateToken` calls `next()` only with a verified token signature, a
`user_sessions` row for that user id and that exact token that expires after now, and an
existing unlocked `users` row, and then `req.user` and `req.sessionId` are those rows; and
when every session row matching a validly signed token is expired, `next()` is not called
and, the session lookup being answered, the response is 401 `SESSION_INVALID`. -/
theorem authenticateToken_requires_live_session (env : Env) (req req1 : Request)
    (w w1 : World) :
    (authenticateToken env req w = (.next req1, w1) →
      ∃ token userId s u,
        bearerToken req.authorization = some token ∧ env.jwtVerify token = .ok userId ∧
        s ∈ w.user_sessions ∧ s.user_id = userId ∧ s.token_hash = token ∧
        env.now < s.expires_at ∧
        u ∈ w.users ∧ u.id = userId ∧ u.account_locked = false ∧
        req1.user = some (authUserOf u) ∧ req1.sessionId = some s.id) ∧
    (∀ token userId, bearerToken req.authorization = some token →
      env.jwtVerify token = .ok userId →
      (∀ s ∈ w.user_sessions, s.user_id = userId → s.token_hash = token →
        s.expires_at ≤ env.now) →
      (∀ r, (authenticateToken env req w).1 ≠ .next r) ∧
      (w.faultNow = false →
        (authenticateToken env req w).1 =
          failWith 401 "Invalid or expired session" "SESSION_INVALID")) := by
  constructor
  · intro h
    unfold authenticateToken at h
    split at h
    · simp [failWith] at h
    · rename_i token htok
      split at h
      · simp [failWith] at h
      · simp [failWith] at h
      · simp [failWith] at h
      · rename_i userId hver
        split at h
        · simp [failWith] at h
        · split at h
          · simp [failWith] at h
          · rename_i s0 srest hs
            split at h
            · simp [failWith] at h
            · split at h
              · simp [failWith] at h
              · rename_i user urest hu
                split at h
                · simp [failWith] at h
                · rename_i hlock
                  split at h
                  · simp [failWith] at h
                  · have hs1 := head_of_filter_eq_cons _ _ _ _ hs
                    have hu1 := head_of_filter_eq_cons _ _ _ _ hu
                    simp only [advance_user_sessions, advance_users, Bool.and_eq_true,
                      decide_eq_true_eq] at hs1 hu1
                    simp only [Prod.mk.injEq, Step.next.injEq] at h
                    refine ⟨token, userId, s0, user, htok, hver, hs1.1, hs1.2.1.1, hs1.2.1.2,
                      hs1.2.2, hu1.1, hu1.2, by simpa using hlock, ?_, ?_⟩
                    · rw [← h.1]
                    · rw [← h.1]
  · intro token userId htok hver hexp
    have hnil : validSessions env userId token w.advance = [] := by
      unfold validSessions
      apply filter_eq_nil_of_forall
      intro s hs
      simp only [advance_user_sessions] at hs
      by_cases h1 : s.user_id = userId
      · by_cases h2 : s.token_hash = token
        · have := hexp s hs h1 h2
          simp [h1, h2, Nat.not_lt.mpr this]
        · simp [h2]
      · simp [h1]
    constructor
    · intro r
      unfold authenticateToken
      simp only [htok, hver, hnil]
      split <;> simp [failWith]
    · intro hf
      unfold authenticateToken
      simp only [htok, hver, hnil, hf]
      simp

/-- A witness for C1: a live session of an unlocked account is let through, and the same
request with only an expired session is answered 401 `SESSION_INVALID`. -/
theorem authenticateToken_requires_live_session_witness :
    (∃ token userId s u,
        bearerToken (some "Bearer T") = some token ∧ sampleEnv.jwtVerify token = .ok userId ∧
        s ∈ [aliceSession 150] ∧ s.user_id = userId ∧ s.token_hash = token ∧
        sampleEnv.now < s.expires_at ∧
        u ∈ [alice] ∧ u.id = userId ∧ u.account_locked = false ∧
        some (authUserOf alice) = some (authUserOf u) ∧ some 7 = some s.id) ∧
    (authenticateToken sampleEnv { authorization := some "Bearer T" }
        { users := [alice], user_sessions := [aliceSession 50] }).1 =
      failWith 401 "Invalid or expired session" "SESSION_INVALID" :=
  ⟨(authenticateToken_requires_live_session sampleEnv { authorization := some "Bearer T" }
      { authorization := some "Bearer T", user := some (authUserOf alice), sessionId := some 7 }
      { users := [alice], user_sessions := [aliceSession 150] }
      { users := [alice], user_sessions := [aliceSession 150] }).1 (by decide),
   ((authenticateToken_requires_live_session sampleEnv { authorization := some "Bearer T" }
      { authorization := some "Bearer T" }
      { users := [alice], user_sessions := [aliceSession 50] }
      { users := [alice], user_sessions := [aliceSession 50] }).2 "T" 1 (by decide) (by decide)
      (by decide)).2 (by decide)⟩

/-! ## Login handler -/

/-- The login handler never writes the session table. -/
theorem postLogin_user_sessions (env : Env) (body : LoginBody) (w : World) :
    (postLogin env body w).2.user_sessions = w.user_sessions := by
  unfold postLogin
  split
  · split
    · rfl
    · split
      · rfl
      · split
        · split <;> rfl
        · rfl
  · rfl

/-- C2 (code defect). A successful `POST /login` signs a token and answers 200 without
writing `user_sessions`: on the sample store the session table is still empty after the
response, and the token just issued is refused by `authenticateToken` with 401
`SESSION_INVALID`. No login leaves a session row behind. -/
theorem postLogin_success_persists_no_session :
    (postLogin sampleEnv { email := some "a@x", password := some (.str "pw") }
        { users := [alice] }).1.status = 200 ∧
    (postLogin sampleEnv { email := some "a@x", password := some (.str "pw") }
        { users := [alice] }).1.token = some "T" ∧
    (postLogin sampleEnv { email := some "a@x", password := some (.str "pw") }
        { users := [alice] }).2.user_sessions = [] ∧
    (authenticateToken sampleEnv { authorization := some "Bearer T" }
        (postLogin sampleEnv { email := some "a@x", password := some (.str "pw") }
          { users := [alice] }).2).1 =
      failWith 401 "Invalid or expired session" "SESSION_INVALID" ∧
    (∀ (env : Env) (body : LoginBody) (w : World),
      (postLogin env body w).2.user_sessions = w.user_sessions) :=
  ⟨by decide, by decide, by decide, by decide, postLogin_user_sessions⟩

/-- C3 (code defect). `POST /login` never reads `account_locked`: for the locked sample
account and its correct password the handler answers 200 with a token instead of an
account-locked error. -/
theorem postLogin_locked_account_gets_token :
    lockedAlice.account_locked = true ∧
    sampleEnv.bcryptCompare "pw" lockedAlice.password_hash = true ∧
    (postLogin sampleEnv { email := some "a@x", password := some (.str "pw") }
        { users := [lockedAlice] }).1 =
      { status := 200, message := some "Login successful", token := some "T",
        user := some { id := 1, username := "alice", email := "a@x", role := "player" } } := by
  decide

/-! ## Lockout: facts about the `users` table -/

theorem find_unique_email (users : List UserRow) (email : String) (u : UserRow)
    (hn : (users.map (fun u => u.email)).Nodup)
    (hf : users.find? (fun u => decide (u.email = email)) = some u) :
    ∀ v ∈ users, v.email = email → v = u := by
  induction users with
  | nil => intro v hv; cases hv
  | cons x xs ih =>
    simp only [List.map_cons, List.nodup_cons] at hn
    intro v hv he
    by_cases hx : x.email = email
    · simp [List.find?_cons, hx] at hf
      subst hf
      rcases List.mem_cons.mp hv with rfl | hv1
      · rfl
      · exfalso
        apply hn.1
        rw [hx, ← he]
        exact List.mem_map_of_mem _ hv1
    · simp [List.find?_cons, hx] at hf
      rcases List.mem_cons.mp hv with rfl | hv1
      · exact absurd he hx
      · exact ih hn.2 hf v hv1 he

theorem find_map_email (users : List UserRow) (email : String) (f : UserRow → UserRow)
    (hf : ∀ u, (f u).email = u.email) :
    (users.map (fun u => if u.email = email then f u else u)).find?
        (fun u => decide (u.email = email)) =
      (users.find? (fun u => decide (u.email = email))).map f := by
  induction users with
  | nil => rfl
  | cons x xs ih =>
    by_cases hx : x.email = email
    · simp [List.find?_cons, hx, hf]
    · simp only [List.map_cons, List.find?_cons, hx, if_false, decide_False]
      exact ih

theorem map_email_preserved (users : List UserRow) (g : UserRow → UserRow)
    (hg : ∀ u, (g u).email = u.email) :
    (users.map g).map (fun u => u.email) = users.map (fun u => u.email) := by
  simp [List.map_map, Function.comp, hg]

@[simp] theorem bumpFailedLogin_email (u : UserRow) : (bumpFailedLogin u).email = u.email := rfl

@[simp] theorem bumpFailedLogin_password_hash (u : UserRow) :
    (bumpFailedLogin u).password_hash = u.password_hash := rfl

@[simp] theorem bumpFailedLogin_count (u : UserRow) :
    (bumpFailedLogin u).failed_login_count = u.failed_login_count + 1 := rfl

theorem bumpFailedLogin_locked (u : UserRow) :
    (bumpFailedLogin u).account_locked =
      (decide (4 ≤ u.failed_login_count + 1) || u.account_locked) := by
  unfold bumpFailedLogin
  by_cases h : 4 ≤ u.failed_login_count + 1 <;> simp [h]

/-- What a failed-attempt recording can do to the store, whatever the storage faults. -/
theorem recordLoginAttempt_failed_cases (env : Env) (email ipAddress : String)
    (userAgent reason : Option String) (w : World) :
    (User.recordLoginAttempt env email ipAddress userAgent false reason w).bcryptCalls =
        w.bcryptCalls ∧
    ((User.recordLoginAttempt env email ipAddress userAgent false reason w).login_attempts =
        w.login_attempts ∨
      (User.recordLoginAttempt env email ipAddress userAgent false reason w).login_attempts =
        w.login_attempts ++
          [{ email := email, ip_address := ipAddress, user_agent := userAgent,
             success := false, failure_reason := reason }]) ∧
    ((User.recordLoginAttempt env email ipAddress userAgent false reason w).users = w.users ∨
      (User.recordLoginAttempt env email ipAddress userAgent false reason w).users =
        w.users.map (fun u => if u.email = email then bumpFailedLogin u else u)) := by
  simp only [User.recordLoginAttempt]
  split_ifs <;> simp_all

/-- A failed-attempt recording on a store without storage faults and with the counter in
range: the attempt is appended and the counter of the account is bumped. -/
theorem recordLoginAttempt_failed_ok (env : Env) (email ipAddress : String)
    (userAgent reason : Option String) (w : World) (hf : w.faults = [])
    (hr : ∀ v ∈ w.users, v.email = email → v.failed_login_count < sqlIntMax) :
    (User.recordLoginAttempt env email ipAddress userAgent false reason w).faults = [] ∧
    (User.recordLoginAttempt env email ipAddress userAgent false reason w).users =
        w.users.map (fun u => if u.email = email then bumpFailedLogin u else u) := by
  have hany : (w.users.any (fun u => decide (u.email = email) &&
      decide (sqlIntMax < u.failed_login_count + 1))) = false := by
    rw [List.any_eq_false]
    intro v hv
    by_cases he : v.email = email
    · have := hr v hv he
      simp [he]
      omega
    · simp [he]
  unfold User.recordLoginAttempt
  simp [World.faultNow, World.advance, hf, hany]

/-- The account after a failed-attempt recording without storage faults. -/
theorem recordLoginAttempt_failed_account (env : Env) (email ipAddress : String)
    (userAgent reason : Option String) (w : World) (u : UserRow) (hf : w.faults = [])
    (hu : w.uniqueEmails) (ha : w.account email = some u)
    (hr : u.failed_login_count < sqlIntMax) :
    (User.recordLoginAttempt env email ipAddress userAgent false reason w).faults = [] ∧
    (User.recordLoginAttempt env email ipAddress userAgent false reason w).uniqueEmails ∧
    (User.recordLoginAttempt env email ipAddress userAgent false reason w).account email =
      some (bumpFailedLogin u) := by
  have hall : ∀ v ∈ w.users, v.email = email → v.failed_login_count < sqlIntMax := by
    intro v hv he
    rw [find_unique_email w.users email u hu ha v hv he]
    exact hr
  obtain ⟨h1, h2⟩ := recordLoginAttempt_failed_ok env email ipAddress userAgent reason w hf hall
  refine ⟨h1, ?_, ?_⟩
  · unfold World.uniqueEmails
    rw [h2, map_email_preserved]
    · exact hu
    · intro v
      by_cases hv : v.email = email <;> simp [hv]
  · unfold World.account
    rw [h2, find_map_email _ _ _ bumpFailedLogin_email]
    unfold World.account at ha
    rw [ha]
    rfl

/-- One failing `User.authenticate` call (locked account, or wrong password) on a store
without storage faults bumps the counter of the account. -/
theorem authenticate_failed_step (env : Env) (email password ipAddress : String) (w : World)
    (u : UserRow) (hf : w.faults = []) (hu : w.uniqueEmails) (ha : w.account email = some u)
    (hfail : u.account_locked = true ∨ env.bcryptCompare password u.password_hash = false)
    (hr : u.failed_login_count < sqlIntMax) :
    (User.authenticate env email password ipAddress w).2.faults = [] ∧
    (User.authenticate env email password ipAddress w).2.uniqueEmails ∧
    (User.authenticate env email password ipAddress w).2.account email =
      some (bumpFailedLogin u) := by
  have hfn : w.faultNow = false := by simp [World.faultNow, hf]
  have hget : User.getByEmail email w = (.ok (some u), w.advance) := by
    unfold World.account at ha
    simp [User.getByEmail, hfn, ha]
  unfold User.authenticate
  rw [hget]
  by_cases hl : u.account_locked = true
  · simp only [hl, if_true]
    exact recordLoginAttempt_failed_account env email ipAddress none _ w.advance u
      (by simp [hf]) hu ha hr
  · have hp : env.bcryptCompare password u.password_hash = false := by
      rcases hfail with h | h
      · exact absurd h hl
      · exact h
    simp only [hl, hp, Bool.not_false, if_true, Bool.false_eq_true, if_false]
    exact recordLoginAttempt_failed_account env email ipAddress none _
      { w.advance with bcryptCalls := w.advance.bcryptCalls + 1 } u (by simp [hf]) hu ha hr

/-- Consecutive failing calls: the counter grows by one per call, and the account is locked
as soon as a call has brought the counter to four. -/
theorem authenticateEach_failed (env : Env) (email ipAddress : String) :
    ∀ (ps : List String) (w : World) (u : UserRow), w.faults = [] → w.uniqueEmails →
      w.account email = some u →
      (∀ p ∈ ps, env.bcryptCompare p u.password_hash = false) →
      u.failed_login_count + ps.length ≤ sqlIntMax →
      ∃ a, (authenticateEach env email ipAddress ps w).account email = some a ∧
        a.failed_login_count = u.failed_login_count + ps.length ∧
        a.account_locked =
          (u.account_locked ||
            (decide (0 < ps.length) && decide (4 ≤ u.failed_login_count + ps.length))) := by
  intro ps
  induction ps with
  | nil =>
    intro w u _ _ ha _ _
    exact ⟨u, ha, by simp, by simp⟩
  | cons p ps ih =>
    intro w u hf hu ha hw hr
    simp only [List.length_cons] at hr
    obtain ⟨h1, h2, h3⟩ := authenticate_failed_step env email p ipAddress w u hf hu ha
      (Or.inr (hw p (List.mem_cons_self _ _))) (by omega)
    obtain ⟨a, ha1, ha2, ha3⟩ := ih _ (bumpFailedLogin u) h1 h2 h3
      (fun q hq => by
        rw [bumpFailedLogin_password_hash]
        exact hw q (List.mem_cons_of_mem _ hq))
      (by rw [bumpFailedLogin_count]; omega)
    refine ⟨a, ha1, ?_, ?_⟩
    · rw [ha2, bumpFailedLogin_count, List.length_cons]; omega
    · rw [ha3, bumpFailedLogin_locked, bumpFailedLogin_count, List.length_cons]
      by_cases hlock : u.account_locked = true
      · simp [hlock]
      · by_cases h4 : 4 ≤ u.failed_login_count + 1
        · have h5 : 4 ≤ u.failed_login_count + (ps.length + 1) := by omega
          simp [h4, h5]
        · by_cases h6 : 4 ≤ u.failed_login_count + (ps.length + 1)
          · have h7 : 0 < ps.length := by omega
            have h8 : 4 ≤ u.failed_login_count + 1 + ps.length := by omega
            simp [hlock, h4, h6, h7, h8]
          · have h8 : ¬ 4 ≤ u.failed_login_count + 1 + ps.length := by omega
            simp [hlock, h4, h6, h8]

/-! ## Lockout: the claims -/

/-- C4, as stated, fails: starting from the unlocked sample account with no failed
attempt, four consecutive wrong-password calls of `User.authenticate` already leave the
account locked (the fourth `UPDATE` brings the counter to 4 and its `CASE` reads that
value). -/
theorem authenticate_fourth_failure_locks_sample :
    alice.account_locked = false ∧ alice.failed_login_count = 0 ∧
    sampleEnv.bcryptCompare "bad" alice.password_hash = false ∧
    ((authenticateEach sampleEnv "a@x" "10.0.0.1" ["bad", "bad", "bad", "bad"]
        { users := [alice] }).account "a@x").map (fun a => a.account_locked) = some true := by
  decide

/-- C4, amended. On a store without storage faults, for an account that starts unlocked
with `failed_login_count` 0, after any number of consecutive wrong-password
`User.authenticate` calls the counter equals the number of calls and the account is locked
exactly when at least four calls were made: still unlocked after three, locked by the
fourth, locked after the fifth. -/
theorem authenticate_locks_at_fourth_failure (env : Env) (email ipAddress : String)
    (ps : List String) (w : World) (u : UserRow) (hf : w.faults = []) (hu : w.uniqueEmails)
    (ha : w.account email = some u) (hl : u.account_locked = false)
    (hc : u.failed_login_count = 0)
    (hw : ∀ p ∈ ps, env.bcryptCompare p u.password_hash = false)
    (hlen : ps.length ≤ sqlIntMax) :
    ∃ a, (authenticateEach env email ipAddress ps w).account email = some a ∧
      a.failed_login_count = ps.length ∧ (a.account_locked = true ↔ 4 ≤ ps.length) := by
  obtain ⟨a, h1, h2, h3⟩ := authenticateEach_failed env email ipAddress ps w u hf hu ha hw
    (by omega)
  refine ⟨a, h1, by omega, ?_⟩
  rw [h3, hl, hc]
  simp only [Bool.false_or, Nat.zero_add, Bool.and_eq_true, decide_eq_true_eq]
  constructor
  · intro h; exact h.2
  · intro h; exact ⟨by omega, h⟩

/-- A witness for the amended C4: three wrong passwords on the sample account. -/
theorem authenticate_locks_at_fourth_failure_witness :
    ∃ a, (authenticateEach sampleEnv "a@x" "10.0.0.1" ["bad", "bad", "bad"]
        { users := [alice] }).account "a@x" = some a ∧
      a.failed_login_count = ["bad", "bad", "bad"].length ∧
      (a.account_locked = true ↔ 4 ≤ ["bad", "bad", "bad"].length) :=
  authenticate_locks_at_fourth_failure sampleEnv "a@x" "10.0.0.1" ["bad", "bad", "bad"]
    { users := [alice] } alice (by decide) (by decide) (by decide) (by decide) (by decide)
    (by decide) (by decide)

/-- A failed-attempt recording whose insert is not hit by a storage fault appends exactly
the attempt it was given. -/
theorem recordLoginAttempt_failed_appends (env : Env) (email ipAddress : String)
    (userAgent reason : Option String) (w : World) (hf : w.faultNow = false) :
    (User.recordLoginAttempt env email ipAddress userAgent false reason w).login_attempts =
      w.login_attempts ++
        [{ email := email, ip_address := ipAddress, user_agent := userAgent,
           success := false, failure_reason := reason }] := by
  simp only [User.recordLoginAttempt]
  split_ifs <;> simp_all

/-- C5. For a locked account and every password, `User.authenticate` never reaches
`bcrypt.compare` and never succeeds; when the account lookup is answered it rejects with
the `Account is locked` error; every login attempt it records is a failure carrying the
reason `Account locked`; and when the insert into `login_attempts` is not hit by a storage
fault, exactly one such attempt is recorded. -/
theorem authenticate_locked_skips_password_check (env : Env)
    (email password ipAddress : String) (w : World) (u : UserRow)
    (ha : w.account email = some u) (hl : u.account_locked = true) :
    (User.authenticate env email password ipAddress w).2.bcryptCalls = w.bcryptCalls ∧
    (∀ v, (User.authenticate env email password ipAddress w).1 ≠ .ok v) ∧
    (w.faultNow = false →
      (User.authenticate env email password ipAddress w).1 =
        .error (.message "Account is locked")) ∧
    (∀ a ∈ (User.authenticate env email password ipAddress w).2.login_attempts,
      a ∈ w.login_attempts ∨
        (a.email = email ∧ a.success = false ∧ a.failure_reason = some "Account locked")) ∧
    (w.faultNow = false → w.advance.faultNow = false →
      (User.authenticate env email password ipAddress w).2.login_attempts =
        w.login_attempts ++
          [{ email := email, ip_address := ipAddress, user_agent := none, success := false,
             failure_reason := some "Account locked" }]) := by
  unfold World.account at ha
  by_cases hfn : w.faultNow = true
  · have hres : User.authenticate env email password ipAddress w =
        (.error .storage, w.advance) := by
      simp [User.authenticate, User.getByEmail, hfn]
    rw [hres]
    refine ⟨rfl, ?_, ?_, ?_, ?_⟩
    · intro v h; cases h
    · intro h; rw [h] at hfn; cases hfn
    · intro a h; exact Or.inl h
    · intro h; rw [h] at hfn; cases hfn
  · have hres : User.authenticate env email password ipAddress w =
        (.error (.message "Account is locked"),
          User.recordLoginAttempt env email ipAddress none false (some "Account locked")
            w.advance) := by
      simp [User.authenticate, User.getByEmail, hfn, ha, hl]
    rw [hres]
    obtain ⟨h1, h2, _⟩ := recordLoginAttempt_failed_cases env email ipAddress none
      (some "Account locked") w.advance
    refine ⟨by simpa using h1, ?_, ?_, ?_, ?_⟩
    · intro v h; cases h
    · intro _; rfl
    · intro a h
      rcases h2 with h2 | h2
      · left; simpa [h2] using h
      · simp only [h2, advance_login_attempts, List.mem_append, List.mem_singleton] at h
        rcases h with h | h
        · exact Or.inl h
        · right; subst h; exact ⟨rfl, rfl, rfl⟩
    · intro _ hins
      have := recordLoginAttempt_failed_appends env email ipAddress none
        (some "Account locked") w.advance hins
      simpa using this

/-- A witness for C5: the locked sample account and its correct password; the one attempt
recorded carries the reason `Account locked`. -/
theorem authenticate_locked_skips_password_check_witness :
    (User.authenticate sampleEnv "a@x" "pw" "10.0.0.1" { users := [lockedAlice] }).2.bcryptCalls
        = 0 ∧
    (User.authenticate sampleEnv "a@x" "pw" "10.0.0.1" { users := [lockedAlice] }).1 =
      .error (.message "Account is locked") ∧
    (User.authenticate sampleEnv "a@x" "pw" "10.0.0.1"
        { users := [lockedAlice] }).2.login_attempts =
      [] ++ [{ email := "a@x", ip_address := "10.0.0.1", user_agent := none, success := false,
               failure_reason := some "Account locked" }] :=
  ⟨(authenticate_locked_skips_password_check sampleEnv "a@x" "pw" "10.0.0.1"
      { users := [lockedAlice] } lockedAlice (by decide) (by decide)).1,
   (authenticate_locked_skips_password_check sampleEnv "a@x" "pw" "10.0.0.1"
      { users := [lockedAlice] } lockedAlice (by decide) (by decide)).2.2.1 (by decide),
   (authenticate_locked_skips_password_check sampleEnv "a@x" "pw" "10.0.0.1"
      { users := [lockedAlice] } lockedAlice (by decide) (by decide)).2.2.2.2 (by decide)
      (by decide)⟩

/-- C6, as stated, fails: a `User.authenticate` call on the locked sample account (counter
4) leaves its counter at 5, since the recording of the refused attempt runs the same
counter `UPDATE` as any failure. -/
theorem authenticate_locked_bumps_counter_sample :
    lockedAlice.account_locked = true ∧ lockedAlice.failed_login_count = 4 ∧
    ((User.authenticate sampleEnv "a@x" "pw" "10.0.0.1"
        { users := [lockedAlice] }).2.account "a@x").map (fun a => a.failed_login_count)
      = some 5 := by
  decide

/-- C6, amended. A `User.authenticate` call on a locked account (with any password) leaves
the account locked and its `failed_login_count` either unchanged or increased by one; on a
store without storage faults (and a counter below the column maximum) it is increased by
exactly one. -/
theorem authenticate_locked_counter_step (env : Env) (email password ipAddress : String)
    (w : World) (u : UserRow) (ha : w.account email = some u)
    (hl : u.account_locked = true) :
    (∃ a, (User.authenticate env email password ipAddress w).2.account email = some a ∧
      a.account_locked = true ∧
      (a.failed_login_count = u.failed_login_count ∨
        a.failed_login_count = u.failed_login_count + 1)) ∧
    (w.faults = [] → w.uniqueEmails → u.failed_login_count < sqlIntMax →
      ∃ a, (User.authenticate env email password ipAddress w).2.account email = some a ∧
        a.failed_login_count = u.failed_login_count + 1) := by
  constructor
  · have ha1 := ha
    unfold World.account at ha1
    by_cases hfn : w.faultNow = true
    · have hres : User.authenticate env email password ipAddress w =
          (.error .storage, w.advance) := by
        simp [User.authenticate, User.getByEmail, hfn]
      rw [hres]
      exact ⟨u, ha, hl, Or.inl rfl⟩
    · have hres : User.authenticate env email password ipAddress w =
          (.error (.message "Account is locked"),
            User.recordLoginAttempt env email ipAddress none false (some "Account locked")
              w.advance) := by
        simp [User.authenticate, User.getByEmail, hfn, ha1, hl]
      rw [hres]
      obtain ⟨_, _, h3⟩ := recordLoginAttempt_failed_cases env email ipAddress none
        (some "Account locked") w.advance
      rcases h3 with h3 | h3
      · refine ⟨u, ?_, hl, Or.inl rfl⟩
        unfold World.account
        rw [h3]
        exact ha1
      · refine ⟨bumpFailedLogin u, ?_, ?_, Or.inr rfl⟩
        · unfold World.account
          rw [h3, advance_users, find_map_email _ _ _ bumpFailedLogin_email, ha1]
          rfl
        · rw [bumpFailedLogin_locked, hl]
          simp
  · intro hf hu hr
    obtain ⟨_, _, h3⟩ := authenticate_failed_step env email password ipAddress w u hf hu ha
      (Or.inl hl) hr
    exact ⟨bumpFailedLogin u, h3, rfl⟩

/-- A witness for the amended C6: the locked sample account. -/
theorem authenticate_locked_counter_step_witness :
    ∃ a, (User.authenticate sampleEnv "a@x" "pw" "10.0.0.1"
        { users := [lockedAlice] }).2.account "a@x" = some a ∧
      a.failed_login_count = lockedAlice.failed_login_count + 1 :=
  (authenticate_locked_counter_step sampleEnv "a@x" "pw" "10.0.0.1" { users := [lockedAlice] }
    lockedAlice (by decide) (by decide)).2 (by decide) (by decide) (by decide)

/-- The failing input of C7: a wrong-password call on the unlocked sample account during
which the insert into `login_attempts` errors leaves the counter at 0, where the failure
should have been counted; the counter `UPDATE` sits behind the insert in the same `try`
block and is skipped. -/
theorem authenticate_insert_fault_keeps_counter_sample :
    alice.account_locked = false ∧
    sampleEnv.bcryptCompare "bad" alice.password_hash = false ∧
    (User.authenticate sampleEnv "a@x" "bad" "10.0.0.1"
        { users := [alice], faults := [false, true] }).1 =
      .error (.message "Invalid credentials") ∧
    ((User.authenticate sampleEnv "a@x" "bad" "10.0.0.1"
        { users := [alice], faults := [false, true] }).2.account "a@x").map
      (fun a => a.failed_login_count) = some 0 :=
  ⟨by decide, by decide, rfl, by decide⟩

/-- C7 (code defect). When the insert into `login_attempts` errors during a wrong-password
`User.authenticate` call on an existing unlocked account, the error is swallowed (the call
still rejects with `Invalid credentials`), nothing is recorded and the `users` table is left
as it was: the failure is not counted and the lock is not applied, because
`recordLoginAttempt` holds the counter `UPDATE` in the `try` block of the insert, whereas
the reset of the counter on success is a statement of `User.authenticate` itself. -/
theorem authenticate_insert_fault_skips_counter (env : Env)
    (email password ipAddress : String) (w : World) (u : UserRow) (rest : List Bool)
    (hf : w.faults = false :: true :: rest) (ha : w.account email = some u)
    (hl : u.account_locked = false)
    (hp : env.bcryptCompare password u.password_hash = false) :
    (User.authenticate env email password ipAddress w).1 =
      .error (.message "Invalid credentials") ∧
    (User.authenticate env email password ipAddress w).2.users = w.users ∧
    (User.authenticate env email password ipAddress w).2.login_attempts =
      w.login_attempts := by
  unfold World.account at ha
  simp [User.authenticate, User.getByEmail, User.recordLoginAttempt, World.faultNow,
    World.advance, hf, ha, hl, hp]

/-- A witness for C7: the sample account, the insert being the failing statement. -/
theorem authenticate_insert_fault_skips_counter_witness :
    (User.authenticate sampleEnv "a@x" "bad" "10.0.0.1"
        { users := [alice], faults := [false, true] }).2.users = [alice] :=
  (authenticate_insert_fault_skips_counter sampleEnv "a@x" "bad" "10.0.0.1"
    { users := [alice], faults := [false, true] } alice [] (by decide) (by decide) (by decide)
    (by decide)).2.1

/-! ## Authorization policy -/

/-- C8. For a single role or a list of roles, `requireRole(roles)` calls `next()` (with the
request as it is) exactly when `req.user` is set and its role is one of the allowed roles;
without `req.user` it answers 401 `AUTH_REQUIRED`, and with a role outside the allowed
roles it answers 403 `INSUFFICIENT_PERMISSIONS`. -/
theorem requireRole_next_iff_member (roles : RolesArg) (req : Request) :
    ((∃ r, requireRole roles req = .next r) ↔
      ∃ u, req.user = some u ∧ u.role ∈ allowedRoles roles) ∧
    (∀ r, requireRole roles req = .next r → r = req) ∧
    (req.user = none →
      requireRole roles req = failWith 401 "Authentication required" "AUTH_REQUIRED") ∧
    (∀ u, req.user = some u → u.role ∉ allowedRoles roles →
      requireRole roles req =
        .respond { status := 403, error := some "Insufficient permissions",
                   code := some "INSUFFICIENT_PERMISSIONS",
                   required := some (allowedRoles roles), current := some u.role }) := by
  refine ⟨?_, ?_, ?_, ?_⟩
  · constructor
    · rintro ⟨r, h⟩
      unfold requireRole at h
      split at h
      · simp [failWith] at h
      · rename_i user hu
        split at h
        · cases h
        · rename_i hmem
          refine ⟨user, hu, ?_⟩
          simpa using hmem
    · rintro ⟨u, hu, hmem⟩
      refine ⟨req, ?_⟩
      unfold requireRole
      simp [hu, hmem]
  · intro r h
    unfold requireRole at h
    split at h
    · simp [failWith] at h
    · split at h
      · cases h
      · cases h; rfl
  · intro hu
    unfold requireRole
    simp [hu]
  · intro u hu hmem
    unfold requireRole
    simp [hu, hmem]

/-- A witness for C8: an admin passes `requireRole("admin")`, an anonymous request gets
401 and a player gets 403 from `requireRole(["captain", "admin"])`. -/
theorem requireRole_next_iff_member_witness :
    (∃ r, requireRole (.one "admin")
      { user := some { authUserOf alice with role := "admin" } } = .next r) ∧
    requireRole (.one "admin") {} =
      failWith 401 "Authentication required" "AUTH_REQUIRED" ∧
    requireRole (.many ["captain", "admin"]) { user := some (authUserOf alice) } =
      .respond { status := 403, error := some "Insufficient permissions",
                 code := some "INSUFFICIENT_PERMISSIONS",
                 required := some ["captain", "admin"], current := some "player" } :=
  ⟨(requireRole_next_iff_member (.one "admin")
      { user := some { authUserOf alice with role := "admin" } }).1.mpr
      ⟨{ authUserOf alice with role := "admin" }, rfl, by decide⟩,
   (requireRole_next_iff_member (.one "admin") {}).2.2.1 rfl,
   (requireRole_next_iff_member (.many ["captain", "admin"])
      { user := some (authUserOf alice) }).2.2.2 (authUserOf alice) rfl (by decide)⟩

theorem teamsById_eq_filter (env : Env) (teamId : Option String) (w : World) :
    teamsById env teamId w =
      w.teams.filter (fun t => decide (teamId.bind env.sqlRowId = some t.id)) := by
  cases teamId with
  | none => simp [teamsById]
  | some text => simp [teamsById]

theorem tournamentsById_eq_filter (env : Env) (tournamentId : Option String) (w : World) :
    tournamentsById env tournamentId w =
      w.tournaments.filter (fun t => decide (tournamentId.bind env.sqlRowId = some t.id)) := by
  cases tournamentId with
  | none => simp [tournamentsById]
  | some text => simp [tournamentsById]

/-- C9, as stated, fails for admins: with an admin caller and a resource id that matches no
row, both ownership middlewares call `next()` instead of answering 404. -/
theorem ownership_admin_missing_resource_sample :
    requireTeamOwnership sampleEnv
        { params := { id := some "9" },
          user := some { authUserOf alice with role := "admin" } } {} =
      (.next { params := { id := some "9" },
               user := some { authUserOf alice with role := "admin" } }, {}) ∧
    requireTournamentOwnership sampleEnv
        { params := { id := some "9" },
          user := some { authUserOf alice with role := "admin" } } {} =
      (.next { params := { id := some "9" },
               user := some { authUserOf alice with role := "admin" } }, {}) := by
  decide

/-- C9, amended. In `requireTeamOwnership` and `requireTournamentOwnership`, the lookup
being answered: a caller who is neither the owner nor an admin gets 403 when the parameter,
as the store converts it, is the id of an existing resource; a caller who is not an admin
gets 404 when it is the id of no row; and an admin caller is passed to `next()` without
any lookup, whether the resource exists or not. -/
theorem ownership_guard_outcomes (env : Env) (req : Request) (w : World) (u : AuthUser)
    (hu : req.user = some u) :
    (u.role ≠ "admin" → w.faultNow = false →
      (∃ t ∈ w.teams,
        (orParam req.params.teamId req.params.id).bind env.sqlRowId = some t.id) →
      (∀ t ∈ w.teams,
        (orParam req.params.teamId req.params.id).bind env.sqlRowId = some t.id →
          t.captain_id ≠ u.id) →
      (requireTeamOwnership env req w).1 =
        failWith 403 "Team access denied" "TEAM_ACCESS_DENIED") ∧
    (u.role ≠ "admin" → w.faultNow = false →
      (∀ t ∈ w.teams,
        (orParam req.params.teamId req.params.id).bind env.sqlRowId ≠ some t.id) →
      (requireTeamOwnership env req w).1 = failWith 404 "Team not found" "TEAM_NOT_FOUND") ∧
    (u.role = "admin" → requireTeamOwnership env req w = (.next req, w)) ∧
    (u.role ≠ "admin" → w.faultNow = false →
      (∃ t ∈ w.tournaments,
        (orParam req.params.tournamentId req.params.id).bind env.sqlRowId = some t.id) →
      (∀ t ∈ w.tournaments,
        (orParam req.params.tournamentId req.params.id).bind env.sqlRowId = some t.id →
          t.created_by ≠ u.id) →
      (requireTournamentOwnership env req w).1 =
        failWith 403 "Tournament access denied" "TOURNAMENT_ACCESS_DENIED") ∧
    (u.role ≠ "admin" → w.faultNow = false →
      (∀ t ∈ w.tournaments,
        (orParam req.params.tournamentId req.params.id).bind env.sqlRowId ≠ some t.id) →
      (requireTournamentOwnership env req w).1 =
        failWith 404 "Tournament not found" "TOURNAMENT_NOT_FOUND") ∧
    (u.role = "admin" → requireTournamentOwnership env req w = (.next req, w)) := by
  refine ⟨?_, ?_, ?_, ?_, ?_, ?_⟩
  · intro hr hf ⟨t, ht, hid⟩ hall
    unfold requireTeamOwnership
    simp only [hu, hr, hf, if_false, Bool.false_eq_true, teamsById_eq_filter]
    split
    · rename_i hnil
      have : t ∈ w.advance.teams.filter (fun t =>
          decide ((orParam req.params.teamId req.params.id).bind env.sqlRowId = some t.id)) :=
        List.mem_filter.mpr ⟨ht, by simpa using hid⟩
      rw [hnil] at this
      cases this
    · rename_i team rest hcons
      have h1 := head_of_filter_eq_cons _ _ _ _ hcons
      simp only [advance_teams, decide_eq_true_eq] at h1
      simp [hall team h1.1 h1.2]
  · intro hr hf hall
    unfold requireTeamOwnership
    have hnil : teamsById env (orParam req.params.teamId req.params.id) w.advance = [] := by
      rw [teamsById_eq_filter]
      apply filter_eq_nil_of_forall
      intro t ht
      simpa using hall t ht
    simp [hu, hr, hf, hnil]
  · intro hr
    unfold requireTeamOwnership
    simp [hu, hr]
  · intro hr hf ⟨t, ht, hid⟩ hall
    unfold requireTournamentOwnership
    simp only [hu, hr, hf, if_false, Bool.false_eq_true, tournamentsById_eq_filter]
    split
    · rename_i hnil
      have : t ∈ w.advance.tournaments.filter (fun t =>
          decide ((orParam req.params.tournamentId req.params.id).bind env.sqlRowId
            = some t.id)) :=
        List.mem_filter.mpr ⟨ht, by simpa using hid⟩
      rw [hnil] at this
      cases this
    · rename_i tournament rest hcons
      have h1 := head_of_filter_eq_cons _ _ _ _ hcons
      simp only [advance_tournaments, decide_eq_true_eq] at h1
      simp [hall tournament h1.1 h1.2]
  · intro hr hf hall
    unfold requireTournamentOwnership
    have hnil : tournamentsById env (orParam req.params.tournamentId req.params.id)
        w.advance = [] := by
      rw [tournamentsById_eq_filter]
      apply filter_eq_nil_of_forall
      intro t ht
      simpa using hall t ht
    simp [hu, hr, hf, hnil]
  · intro hr
    unfold requireTournamentOwnership
    simp [hu, hr]

/-- A witness for the amended C9: the player `alice` against the team of captain 2,
addressed as `5abc`, which the store reads as 5 (403), against a team id that matches no
row (404), and likewise for tournaments. -/
theorem ownership_guard_outcomes_witness :
    (requireTeamOwnership sampleEnv
        { params := { id := some "5abc" }, user := some (authUserOf alice) }
        { teams := [{ id := 5, name := "Ravens", captain_id := 2 }] }).1 =
      failWith 403 "Team access denied" "TEAM_ACCESS_DENIED" ∧
    (requireTeamOwnership sampleEnv
        { params := { id := some "9" }, user := some (authUserOf alice) }
        { teams := [{ id := 5, name := "Ravens", captain_id := 2 }] }).1 =
      failWith 404 "Team not found" "TEAM_NOT_FOUND" ∧
    (requireTournamentOwnership sampleEnv
        { params := { id := some "3" }, user := some (authUserOf alice) }
        { tournaments := [{ id := 3, name := "Cup", created_by := 2 }] }).1 =
      failWith 403 "Tournament access denied" "TOURNAMENT_ACCESS_DENIED" ∧
    (requireTournamentOwnership sampleEnv
        { params := { id := some "9" }, user := some (authUserOf alice) }
        { tournaments := [{ id := 3, name := "Cup", created_by := 2 }] }).1 =
      failWith 404 "Tournament not found" "TOURNAMENT_NOT_FOUND" :=
  ⟨(ownership_guard_outcomes sampleEnv
      { params := { id := some "5abc" }, user := some (authUserOf alice) }
      { teams := [{ id := 5, name := "Ravens", captain_id := 2 }] } (authUserOf alice) rfl).1
      (by decide) (by decide) (by decide) (by decide),
   (ownership_guard_outcomes sampleEnv
      { params := { id := some "9" }, user := some (authUserOf alice) }
      { teams := [{ id := 5, name := "Ravens", captain_id := 2 }] } (authUserOf alice)
      rfl).2.1 (by decide) (by decide) (by decide),
   (ownership_guard_outcomes sampleEnv
      { params := { id := some "3" }, user := some (authUserOf alice) }
      { tournaments := [{ id := 3, name := "Cup", created_by := 2 }] } (authUserOf alice)
      rfl).2.2.2.1 (by decide) (by decide) (by decide) (by decide),
   (ownership_guard_outcomes sampleEnv
      { params := { id := some "9" }, user := some (authUserOf alice) }
      { tournaments := [{ id := 3, name := "Cup", created_by := 2 }] } (authUserOf alice)
      rfl).2.2.2.2.1 (by decide) (by decide) (by decide)⟩

/-! ## User administration route -/

/-- C10 (code defect). `PUT /users/:id` is registered without `requireAdmin`: the player
`alice`, authenticated by a live session, makes herself an admin and locks the account of
`bob`, and both requests are answered 200 with the `users` table rewritten. -/
theorem putUser_player_caller_writes_users :
    alice.role = "player" ∧
    (putUserRoute sampleEnv true { authorization := some "Bearer T", paramId := some 1 }
        { role := some "admin" }
        { users := [alice, bob], user_sessions := [aliceSession 150] }).1.status = 200 ∧
    (putUserRoute sampleEnv true { authorization := some "Bearer T", paramId := some 1 }
        { role := some "admin" }
        { users := [alice, bob], user_sessions := [aliceSession 150] }).2.users =
      [{ alice with role := "admin" }, bob] ∧
    (putUserRoute sampleEnv true { authorization := some "Bearer T", paramId := some 2 }
        { account_locked := some true }
        { users := [alice, bob], user_sessions := [aliceSession 150] }).1.status = 200 ∧
    (putUserRoute sampleEnv true { authorization := some "Bearer T", paramId := some 2 }
        { account_locked := some true }
        { users := [alice, bob], user_sessions := [aliceSession 150] }).2.users =
      [alice, { bob with account_locked := true }] := by
  decide

/-! ## Optional authentication and the admin mount -/

/-- The middleware `optionalAuth` always ends in `next()`. -/
theorem optionalAuth_always_next (env : Env) (req : Request) (w : World) :
    ∃ r, (optionalAuth env req w).1 = .next r := by
  unfold optionalAuth
  split
  · exact ⟨_, rfl⟩
  · split
    · split
      · exact ⟨_, rfl⟩
      · split
        · exact ⟨_, rfl⟩
        · split <;> exact ⟨_, rfl⟩
    · exact ⟨_, rfl⟩

/-- C11 (code defect). `optionalAuth` never reads `user_sessions`: for the validly signed
token of the unlocked sample account, `authenticateToken` answers 401 `SESSION_INVALID`
(no session row, or only an expired one), yet `optionalAuth` attaches the account as
`req.user`. Its other promise holds: it always calls `next()` and never responds. -/
theorem optionalAuth_attaches_user_without_session :
    (authenticateToken sampleEnv { authorization := some "Bearer T" } { users := [alice] }).1 =
      failWith 401 "Invalid or expired session" "SESSION_INVALID" ∧
    (optionalAuth sampleEnv { authorization := some "Bearer T" } { users := [alice] }).1 =
      .next { authorization := some "Bearer T", user := some (authUserOf alice) } ∧
    (authenticateToken sampleEnv { authorization := some "Bearer T" }
        { users := [alice], user_sessions := [aliceSession 50] }).1 =
      failWith 401 "Invalid or expired session" "SESSION_INVALID" ∧
    (optionalAuth sampleEnv { authorization := some "Bearer T" }
        { users := [alice], user_sessions := [aliceSession 50] }).1 =
      .next { authorization := some "Bearer T", user := some (authUserOf alice) } ∧
    (∀ (env : Env) (req : Request) (w : World), ∃ r, (optionalAuth env req w).1 = .next r) :=
  ⟨by decide, by decide, by decide, by decide, optionalAuth_always_next⟩

/-- C12 (code defect). Inside the router mounted at `/api/admin` the path read by
`authenticateToken` is the path after the mount point, so `req.path.includes("/admin")` is
false for `GET /api/admin/stats`: the unlocked admin with an unverified email and a live
session is passed to `next()`. On the unstripped path the same check would answer 403
`EMAIL_NOT_VERIFIED`. -/
theorem authenticateToken_admin_route_skips_email_check :
    carol.email_verified = false ∧ carol.account_locked = false ∧
    routerPath adminMount "/api/admin/stats" = "/stats" ∧
    (authenticateToken adminEnv
        { authorization := some "Bearer A", path := routerPath adminMount "/api/admin/stats" }
        { users := [carol], user_sessions := [carolSession] }).1 =
      .next { authorization := some "Bearer A", path := "/stats",
              user := some (authUserOf carol), sessionId := some 9 } ∧
    (authenticateToken adminEnv
        { authorization := some "Bearer A", path := "/api/admin/stats" }
        { users := [carol], user_sessions := [carolSession] }).1 =
      failWith 403 "Email verification required" "EMAIL_NOT_VERIFIED" := by
  decide

/-- C13. A store error inside `authenticateToken` (session lookup or user lookup),
`requireTeamOwnership` or `requireTournamentOwnership` is answered with status 500, and
`next()` is reached only when no lookup of the middleware errored. -/
theorem middleware_store_error_gives_500 (env : Env) (req : Request) (w : World) :
    (∀ token userId, bearerToken req.authorization = some token →
      env.jwtVerify token = .ok userId → w.faultNow = true →
      (authenticateToken env req w).1 = failWith 500 "Authentication failed" "AUTH_ERROR") ∧
    (∀ token userId, bearerToken req.authorization = some token →
      env.jwtVerify token = .ok userId → w.faultNow = false →
      validSessions env userId token w.advance ≠ [] → w.advance.faultNow = true →
      (authenticateToken env req w).1 = failWith 500 "Authentication failed" "AUTH_ERROR") ∧
    (∀ r, (authenticateToken env req w).1 = .next r →
      w.faultNow = false ∧ w.advance.faultNow = false) ∧
    (∀ u, req.user = some u → u.role ≠ "admin" → w.faultNow = true →
      (requireTeamOwnership env req w).1 =
          failWith 500 "Authorization check failed" "AUTH_CHECK_ERROR" ∧
        (requireTournamentOwnership env req w).1 =
          failWith 500 "Authorization check failed" "AUTH_CHECK_ERROR") ∧
    (∀ u r, req.user = some u → u.role ≠ "admin" →
      ((requireTeamOwnership env req w).1 = .next r → w.faultNow = false) ∧
        ((requireTournamentOwnership env req w).1 = .next r → w.faultNow = false)) := by
  refine ⟨?_, ?_, ?_, ?_, ?_⟩
  · intro token userId htok hver hf
    simp [authenticateToken, htok, hver, hf]
  · intro token userId htok hver hf hs hf2
    unfold authenticateToken
    simp only [htok, hver, hf, Bool.false_eq_true, if_false]
    split
    · rename_i hnil; exact absurd hnil hs
    · simp [hf2]
  · intro r h
    unfold authenticateToken at h
    split at h
    · simp [failWith] at h
    · split at h
      · simp [failWith] at h
      · simp [failWith] at h
      · simp [failWith] at h
      · split at h
        · simp [failWith] at h
        · rename_i hf1
          split at h
          · simp [failWith] at h
          · split at h
            · simp [failWith] at h
            · rename_i hf2
              exact ⟨by simpa using hf1, by simpa using hf2⟩
  · intro u hu hr hf
    simp [requireTeamOwnership, requireTournamentOwnership, hu, hr, hf]
  · intro u r hu hr
    constructor
    · intro h
      by_cases hf : w.faultNow = true
      · simp [requireTeamOwnership, hu, hr, hf, failWith] at h
      · simpa using hf
    · intro h
      by_cases hf : w.faultNow = true
      · simp [requireTournamentOwnership, hu, hr, hf, failWith] at h
      · simpa using hf

/-- A witness for C13: on the sample store the failing session lookup, the failing user
lookup and the failing ownership lookups are all answered 500. -/
theorem middleware_store_error_gives_500_witness :
    (authenticateToken sampleEnv { authorization := some "Bearer T" }
        { users := [alice], user_sessions := [aliceSession 150], faults := [true] }).1 =
      failWith 500 "Authentication failed" "AUTH_ERROR" ∧
    (authenticateToken sampleEnv { authorization := some "Bearer T" }
        { users := [alice], user_sessions := [aliceSession 150], faults := [false, true] }).1 =
      failWith 500 "Authentication failed" "AUTH_ERROR" ∧
    (requireTeamOwnership sampleEnv
        { params := { id := some "5" }, user := some (authUserOf alice) }
        { teams := [{ id := 5, name := "Ravens", captain_id := 1 }], faults := [true] }).1 =
      failWith 500 "Authorization check failed" "AUTH_CHECK_ERROR" :=
  ⟨(middleware_store_error_gives_500 sampleEnv { authorization := some "Bearer T" }
      { users := [alice], user_sessions := [aliceSession 150], faults := [true] }).1 "T" 1
      (by decide) (by decide) (by decide),
   (middleware_store_error_gives_500 sampleEnv { authorization := some "Bearer T" }
      { users := [alice], user_sessions := [aliceSession 150],
        faults := [false, true] }).2.1 "T" 1 (by decide) (by decide) (by decide) (by decide)
      (by decide),
   ((middleware_store_error_gives_500 sampleEnv
      { params := { id := some "5" }, user := some (authUserOf alice) }
      { teams := [{ id := 5, name := "Ravens", captain_id := 1 }],
        faults := [true] }).2.2.2.1 (authUserOf alice) rfl (by decide) (by decide)).1⟩

/-! ## Audit recorder -/

/-- C14, as stated, fails on falsy values: given the snapshots `false` and `0` (neither is
`null`), a successful `logAudit` stores `NULL` for both instead of their JSON
serialisation. -/
theorem logAudit_falsy_snapshot_stored_null_sample :
    (logAudit sampleEnv (some 1) "UPDATE" "teams" (some 5) (some (.bool false))
        (some (.num 0)) "10.0.0.1" {}).audit_logs =
      [{ user_id := some 1, action := "UPDATE", table_name := "teams", record_id := some 5,
         old_values := none, new_values := none, ip_address := "10.0.0.1" }] ∧
    sampleEnv.jsonStringify (.bool false) = "json" ∧
    sampleEnv.jsonStringify (.num 0) = "json" := by
  decide

/-- C14, amended. `logAudit` is total (it never throws or rejects); a failed insert leaves
`audit_logs` as it was; a successful insert appends exactly one row, whose `old_values` and
`new_values` are the JSON serialisation of the given value when that value is truthy and
`NULL` when it is `null`, absent or any other falsy value; no other table is touched. -/
theorem logAudit_appends_one_row (env : Env) (userId : Option Nat)
    (action tableName : String) (recordId : Option Nat) (oldValues newValues : Option Json)
    (ipAddress : String) (w : World) :
    (w.faultNow = true →
      (logAudit env userId action tableName recordId oldValues newValues ipAddress
        w).audit_logs = w.audit_logs) ∧
    (w.faultNow = false →
      (logAudit env userId action tableName recordId oldValues newValues ipAddress
        w).audit_logs =
        w.audit_logs ++
          [{ user_id := userId, action := action, table_name := tableName,
             record_id := recordId, old_values := auditValue env oldValues,
             new_values := auditValue env newValues, ip_address := ipAddress }]) ∧
    auditValue env none = none ∧
    (∀ v : Json, v.truthy = true → auditValue env (some v) = some (env.jsonStringify v)) ∧
    (∀ v : Json, v.truthy = false → auditValue env (some v) = none) ∧
    (logAudit env userId action tableName recordId oldValues newValues ipAddress w).users =
      w.users ∧
    (logAudit env userId action tableName recordId oldValues newValues ipAddress
      w).user_sessions = w.user_sessions := by
  refine ⟨?_, ?_, rfl, ?_, ?_, ?_, ?_⟩
  · intro hf; simp [logAudit, hf]
  · intro hf; simp [logAudit, hf]
  · intro v hv; simp [auditValue, hv]
  · intro v hv; simp [auditValue, hv]
  · unfold logAudit; split <;> rfl
  · unfold logAudit; split <;> rfl

/-- A witness for the amended C14: an object snapshot is stored serialised, on a
successful insert. -/
theorem logAudit_appends_one_row_witness :
    (logAudit sampleEnv (some 1) "UPDATE" "teams" (some 5) none
        (some (.obj [("name", .str "Ravens")])) "10.0.0.1" {}).audit_logs =
      [] ++ [{ user_id := some 1, action := "UPDATE", table_name := "teams",
               record_id := some 5, old_values := auditValue sampleEnv none,
               new_values := auditValue sampleEnv (some (.obj [("name", .str "Ravens")])),
               ip_address := "10.0.0.1" }] ∧
    auditValue sampleEnv (some (.obj [("name", .str "Ravens")])) = some "json" :=
  ⟨(logAudit_appends_one_row sampleEnv (some 1) "UPDATE" "teams" (some 5) none
      (some (.obj [("name", .str "Ravens")])) "10.0.0.1" {}).2.1 (by decide),
   (logAudit_appends_one_row sampleEnv (some 1) "UPDATE" "teams" (some 5) none
      (some (.obj [("name", .str "Ravens")])) "10.0.0.1" {}).2.2.2.1
      (.obj [("name", .str "Ravens")]) rfl⟩

/-! ## Refresh and logout -/

/-- No response of `POST /refresh` carries an access token. -/
theorem postRefresh_never_issues (env : Env) (body : RefreshBody) (w : World) :
    (postRefresh env body w).1.accessToken = none := by
  unfold postRefresh
  split
  · rfl
  · split
    · split
      · rfl
      · split
        · rfl
        · split
          · rfl
          · simp [authRoutesUnbound]
    · rfl

/-- C18 (code defect). For the validly signed refresh token of the existing, unlocked sample
account, `POST /refresh` signs an access token but then evaluates the unbound
`getClientIP`, and the `catch` answers 500 `Failed to create session` without any token; a
locked or missing account gets 401 `INVALID_REFRESH_TOKEN`. No refresh response ever
carries an access token. -/
theorem postRefresh_unlocked_account_gets_no_token :
    alice.account_locked = false ∧ sampleEnv.jwtVerifyRefresh "R" = .ok alice.id ∧
    (postRefresh sampleEnv { refresh_token := some "R" } { users := [alice] }).1 =
      { status := 500, error := some "Failed to create session" } ∧
    (postRefresh sampleEnv { refresh_token := some "R" } { users := [lockedAlice] }).1 =
      { status := 401, error := some "Invalid refresh token",
        code := some "INVALID_REFRESH_TOKEN" } ∧
    (postRefresh sampleEnv { refresh_token := some "R" } { users := [bob] }).1 =
      { status := 401, error := some "Invalid refresh token",
        code := some "INVALID_REFRESH_TOKEN" } ∧
    (∀ (env : Env) (body : RefreshBody) (w : World),
      (postRefresh env body w).1.accessToken = none) :=
  ⟨by decide, by decide, by decide, by decide, by decide, postRefresh_never_issues⟩

/-- C19. On the session table, the `DELETE` being answered: `POST /logout` removes exactly
the rows whose id is `req.sessionId` and keeps every other row as it is; `POST /logout-all`
removes exactly the rows whose `user_id` is the caller and keeps the rows of other
accounts; and after logout-all every validly signed token of the caller is refused by
`authenticateToken` with 401 `SESSION_INVALID` (the session lookup being answered). -/
theorem logout_removes_exactly_callers_sessions (env : Env) (req : Request) (w : World)
    (u : AuthUser) (hu : req.user = some u) (hf : w.faultNow = false) :
    (postLogout req w).1 = { status := 200, message := some "Logout successful" } ∧
    (∀ s, s ∈ (postLogout req w).2.user_sessions ↔
      s ∈ w.user_sessions ∧ some s.id ≠ req.sessionId) ∧
    (postLogout req w).2.user_sessions =
      w.user_sessions.filter (fun s => decide (some s.id ≠ req.sessionId)) ∧
    (postLogoutAll req w).1 = { status := 200, message := some "Logged out from all devices" } ∧
    (∀ s, s ∈ (postLogoutAll req w).2.user_sessions ↔
      s ∈ w.user_sessions ∧ s.user_id ≠ u.id) ∧
    (postLogoutAll req w).2.user_sessions =
      w.user_sessions.filter (fun s => decide (s.user_id ≠ u.id)) ∧
    (∀ (req2 : Request) (token : String), bearerToken req2.authorization = some token →
      env.jwtVerify token = .ok u.id → (postLogoutAll req w).2.faultNow = false →
      (authenticateToken env req2 (postLogoutAll req w).2).1 =
        failWith 401 "Invalid or expired session" "SESSION_INVALID") := by
  have h1 : postLogout req w =
      ({ status := 200, message := some "Logout successful" },
        { w.advance with
          user_sessions :=
            w.user_sessions.filter (fun s => decide (some s.id ≠ req.sessionId)) }) := by
    simp [postLogout, hu, hf, authRoutesUnbound]
  have h2 : postLogoutAll req w =
      ({ status := 200, message := some "Logged out from all devices" },
        { w.advance with
          user_sessions := w.user_sessions.filter (fun s => decide (s.user_id ≠ u.id)) }) := by
    simp [postLogoutAll, hu, hf, authRoutesUnbound]
  rw [h1, h2]
  refine ⟨rfl, ?_, rfl, rfl, ?_, rfl, ?_⟩
  · intro s
    simp [List.mem_filter]
  · intro s
    simp [List.mem_filter]
  · intro req2 token htok hver hf2
    have hnil : validSessions env u.id token
        (World.advance { w.advance with
          user_sessions := w.user_sessions.filter (fun s => decide (s.user_id ≠ u.id)) })
        = [] := by
      unfold validSessions
      apply filter_eq_nil_of_forall
      intro s hs
      simp only [advance_user_sessions, List.mem_filter, decide_eq_true_eq] at hs
      simp [hs.2]
    unfold authenticateToken
    simp only [htok, hver, hf2, hnil]
    simp

/-- A witness for C19: `alice` holds the sessions 7 and 8 and `bob` session 9; the logout
of session 7 keeps 8 and 9, and logout-all keeps only 9. -/
theorem logout_removes_exactly_callers_sessions_witness :
    (postLogout { user := some (authUserOf alice), sessionId := some 7 }
        { user_sessions := [aliceSession 150,
            { id := 8, user_id := 1, token_hash := "T2", expires_at := 150 },
            { id := 9, user_id := 2, token_hash := "B", expires_at := 150 }] }).2.user_sessions =
      [{ id := 8, user_id := 1, token_hash := "T2", expires_at := 150 },
       { id := 9, user_id := 2, token_hash := "B", expires_at := 150 }] ∧
    (postLogoutAll { user := some (authUserOf alice), sessionId := some 7 }
        { user_sessions := [aliceSession 150,
            { id := 8, user_id := 1, token_hash := "T2", expires_at := 150 },
            { id := 9, user_id := 2, token_hash := "B", expires_at := 150 }] }).2.user_sessions =
      [{ id := 9, user_id := 2, token_hash := "B", expires_at := 150 }] :=
  ⟨(logout_removes_exactly_callers_sessions sampleEnv
      { user := some (authUserOf alice), sessionId := some 7 }
      { user_sessions := [aliceSession 150,
          { id := 8, user_id := 1, token_hash := "T2", expires_at := 150 },
          { id := 9, user_id := 2, token_hash := "B", expires_at := 150 }] }
      (authUserOf alice) rfl (by decide)).2.2.1,
   (logout_removes_exactly_callers_sessions sampleEnv
      { user := some (authUserOf alice), sessionId := some 7 }
      { user_sessions := [aliceSession 150,
          { id := 8, user_id := 1, token_hash := "T2", expires_at := 150 },
          { id := 9, user_id := 2, token_hash := "B", expires_at := 150 }] }
      (authUserOf alice) rfl (by decide)).2.2.2.2.2.1⟩

/-! ## Admin routes and unlocking -/

/-- The audit call of the admin handlers throws. -/
theorem logAuditEvent_throws :
    logAuditEvent = .error "TypeError: logAuditEvent is not a function" := rfl

/-- The lock handler of the admin router never answers 200. -/
theorem adminPutUserLock_never_200 (req : Request) (w : World) :
    (adminPutUserLock req w).1.status ≠ 200 := by
  unfold adminPutUserLock
  rw [logAuditEvent_throws]
  split
  · simp [internalError]
  · split_ifs
    · simp
    · simp [internalError]
    · split <;> simp [internalError]
    · split <;> simp [internalError]

/-- C15 (code defect). `routes/admin.js` takes `logAuditEvent` from
`middleware/validation.js`, which exports no such name, so the call after every domain
write throws and the handler's `catch` answers 500 although the write is done: the admin
`carol` locks `alice` through `PUT /api/admin/users/1/lock`, and changes her role through
`PUT /api/admin/users/1`; both rows are rewritten and both responses are 500. The lock
handler never answers 200. -/
theorem admin_write_succeeds_but_answers_500 :
    (adminPutUserLockRoute adminEnv
        { authorization := some "Bearer A",
          path := routerPath adminMount "/api/admin/users/1/lock", paramId := some 1 }
        { users := [alice, carol], user_sessions := [carolSession] }).1 = internalError ∧
    (adminPutUserLockRoute adminEnv
        { authorization := some "Bearer A",
          path := routerPath adminMount "/api/admin/users/1/lock", paramId := some 1 }
        { users := [alice, carol], user_sessions := [carolSession] }).2.users =
      [{ alice with account_locked := true }, carol] ∧
    (adminPutUser true { paramId := some 1, user := some (authUserOf carol) }
        { role := some "captain" } { users := [alice, carol] }).1 = internalError ∧
    (adminPutUser true { paramId := some 1, user := some (authUserOf carol) }
        { role := some "captain" } { users := [alice, carol] }).2.users =
      [{ alice with role := "captain" }, carol] ∧
    (∀ (req : Request) (w : World), (adminPutUserLock req w).1.status ≠ 200) :=
  ⟨by decide, by decide, by decide, by decide, adminPutUserLock_never_200⟩

/-- C20 (code defect). `User.toggleLock` and `User.update` unlock an account without
touching `failed_login_count`: the locked sample account (counter 4) comes out unlocked
with the counter still 4, whereas the lock route of the admin router, on the same account,
leaves the counter 0. -/
theorem model_unlock_keeps_failed_login_count :
    lockedAlice.account_locked = true ∧ lockedAlice.failed_login_count = 4 ∧
    (User.toggleLock sampleEnv 1 3 "10.0.0.1" { users := [lockedAlice] }).1 = .ok false ∧
    (User.toggleLock sampleEnv 1 3 "10.0.0.1" { users := [lockedAlice] }).2.users =
      [{ alice with failed_login_count := 4 }] ∧
    (User.update sampleEnv 1 { account_locked := some false } 3 "10.0.0.1"
        { users := [lockedAlice] }).1 = .ok true ∧
    (User.update sampleEnv 1 { account_locked := some false } 3 "10.0.0.1"
        { users := [lockedAlice] }).2.users = [{ alice with failed_login_count := 4 }] ∧
    (adminPutUserLock { paramId := some 1, user := some (authUserOf carol) }
        { users := [lockedAlice, carol] }).2.users = [alice, carol] :=
  ⟨by decide, by decide, rfl, by decide, rfl, by decide, by decide⟩

/-! ## Model mutators: the domain update comes before the audit entry -/

@[simp] theorem logAudit_users (env : Env) (userId : Option Nat) (action tableName : String)
    (recordId : Option Nat) (oldValues newValues : Option Json) (ipAddress : String)
    (w : World) :
    (logAudit env userId action tableName recordId oldValues newValues ipAddress w).users =
      w.users := by
  unfold logAudit; split <;> rfl

@[simp] theorem logAudit_teams (env : Env) (userId : Option Nat) (action tableName : String)
    (recordId : Option Nat) (oldValues newValues : Option Json) (ipAddress : String)
    (w : World) :
    (logAudit env userId action tableName recordId oldValues newValues ipAddress w).teams =
      w.teams := by
  unfold logAudit; split <;> rfl

@[simp] theorem logAudit_tournaments (env : Env) (userId : Option Nat)
    (action tableName : String) (recordId : Option Nat) (oldValues newValues : Option Json)
    (ipAddress : String) (w : World) :
    (logAudit env userId action tableName recordId oldValues newValues ipAddress
      w).tournaments = w.tournaments := by
  unfold logAudit; split <;> rfl

@[simp] theorem logAudit_matchRows (env : Env) (userId : Option Nat)
    (action tableName : String) (recordId : Option Nat) (oldValues newValues : Option Json)
    (ipAddress : String) (w : World) :
    (logAudit env userId action tableName recordId oldValues newValues ipAddress
      w).matchRows = w.matchRows := by
  unfold logAudit; split <;> rfl

theorem logAudit_audit_logs_cases (env : Env) (userId : Option Nat)
    (action tableName : String) (recordId : Option Nat) (oldValues newValues : Option Json)
    (ipAddress : String) (w : World) :
    (logAudit env userId action tableName recordId oldValues newValues ipAddress
        w).audit_logs = w.audit_logs ∨
      ∃ entry, (logAudit env userId action tableName recordId oldValues newValues ipAddress
        w).audit_logs = w.audit_logs ++ [entry] := by
  unfold logAudit
  split
  · exact Or.inl rfl
  · exact Or.inr ⟨_, rfl⟩

theorem exists_of_filter_length_ne_zero {α : Type} (p : α → Bool) (xs : List α)
    (h : (xs.filter p).length ≠ 0) : ∃ x ∈ xs, p x = true := by
  cases hxs : xs.filter p with
  | nil => rw [hxs] at h; exact absurd rfl h
  | cons x rest =>
    have := head_of_filter_eq_cons p xs x rest hxs
    exact ⟨x, this.1, this.2⟩

theorem mutationBeforeAudit_of_error {Row : Type} (e : AuthError) (audit : List AuditRow)
    (before : List Row) (hasId : Row → Bool) (updated : List Row) :
    MutationBeforeAudit (.error e) audit audit before before hasId updated := by
  refine ⟨fun _ => ⟨rfl, rfl⟩, ?_, fun _ => ⟨e, rfl⟩, fun h => absurd rfl h⟩
  intro h; cases h

theorem mutationBeforeAudit_of_ok {Row : Type} (auditBefore auditAfter : List AuditRow)
    (before : List Row) (hasId : Row → Bool) (updated : List Row)
    (hex : ∃ r ∈ before, hasId r = true)
    (haud : auditAfter = auditBefore ∨ ∃ entry, auditAfter = auditBefore ++ [entry]) :
    MutationBeforeAudit (.ok true) auditBefore auditAfter before updated hasId updated := by
  refine ⟨?_, fun _ => ⟨hex, rfl⟩, ?_, ?_⟩
  · rintro ⟨e, h⟩; cases h
  · intro hall
    obtain ⟨r, hr, hid⟩ := hex
    rw [hall r hr] at hid
    cases hid
  · intro hne
    rcases haud with h | h
    · exact absurd h hne
    · exact ⟨rfl, h⟩

/-- The contract of the shared `UPDATE` callback, for a table `table` that neither the
consumption of a statement nor the audit insert touches. -/
theorem updateThenAudit_contract {Row : Type} (table : World → List Row)
    (hasId : Row → Bool) (updated : List Row) (errors : Bool) (notFound : String)
    (mutate audit : World → World) (w0 w : World)
    (htab : table w.advance = table w0) (haud : w.advance.audit_logs = w0.audit_logs)
    (hmt : table (audit (mutate w.advance)) = updated)
    (hma : (audit (mutate w.advance)).audit_logs = w0.audit_logs ∨
      ∃ entry, (audit (mutate w.advance)).audit_logs = w0.audit_logs ++ [entry]) :
    MutationBeforeAudit
      (updateThenAudit errors ((table w0).filter hasId).length notFound mutate audit w).1
      w0.audit_logs
      (updateThenAudit errors ((table w0).filter hasId).length notFound mutate audit
        w).2.audit_logs
      (table w0)
      (table (updateThenAudit errors ((table w0).filter hasId).length notFound mutate audit
        w).2)
      hasId updated := by
  unfold updateThenAudit
  split_ifs with h1 h2
  · simp only [htab, haud]
    exact mutationBeforeAudit_of_error _ _ _ _ _
  · simp only [htab, haud]
    exact mutationBeforeAudit_of_error _ _ _ _ _
  · simp only [hmt]
    exact mutationBeforeAudit_of_ok _ _ _ _ _ (exists_of_filter_length_ne_zero _ _ h2) hma

/-- When the `UPDATE` errors or affects no row, the shared callback reports an error and
nothing but the consumption of the statement happens: no update, no audit entry. -/
theorem updateThenAudit_failure (errors : Bool) (affected : Nat) (notFound : String)
    (mutate audit : World → World) (w : World)
    (h : w.faultNow = true ∨ errors = true ∨ affected = 0) :
    (∃ e, (updateThenAudit errors affected notFound mutate audit w).1 = .error e) ∧
    (updateThenAudit errors affected notFound mutate audit w).2 = w.advance := by
  unfold updateThenAudit
  split_ifs with h1 h2
  · exact ⟨⟨_, rfl⟩, rfl⟩
  · exact ⟨⟨_, rfl⟩, rfl⟩
  · exfalso
    rcases h with h | h | h
    · simp [h] at h1
    · simp [h] at h1
    · exact h2 h

theorem Match_verifyResult_contract (env : Env) (id adminId : Nat) (ipAddress : String)
    (w : World) :
    MutationBeforeAudit (Match.verifyResult env id adminId ipAddress w).1 w.audit_logs
      (Match.verifyResult env id adminId ipAddress w).2.audit_logs w.matchRows
      (Match.verifyResult env id adminId ipAddress w).2.matchRows
      (fun m => decide (m.id = id))
      (w.matchRows.map (fun m =>
        if m.id = id then { m with verified_by_admin_id := some adminId } else m)) := by
  unfold Match.verifyResult
  exact updateThenAudit_contract (fun v => v.matchRows) (fun m => decide (m.id = id)) _ false
    "Match not found" _ _ w w rfl rfl (by simp) (logAudit_audit_logs_cases _ _ _ _ _ _ _ _ _)

theorem Match_update_contract (env : Env) (id : Nat) (updateData : MatchPatch) (userId : Nat)
    (ipAddress : String) (w : World) :
    MutationBeforeAudit (Match.update env id updateData userId ipAddress w).1 w.audit_logs
      (Match.update env id updateData userId ipAddress w).2.audit_logs w.matchRows
      (Match.update env id updateData userId ipAddress w).2.matchRows
      (fun m => decide (m.id = id))
      (w.matchRows.map (fun m => if m.id = id then applyMatchPatch updateData m else m)) := by
  unfold Match.update Match.getById
  by_cases hf : w.faultNow = true
  · rw [if_pos hf]
    exact mutationBeforeAudit_of_error _ _ _ _ _
  · rw [if_neg hf]
    cases w.matchRows.find? (fun m =>
      decide (m.id = id) && w.teams.any (fun t => decide (t.id = m.team1_id))
        && w.teams.any (fun t => decide (t.id = m.team2_id))
        && w.tournaments.any (fun t => decide (t.id = m.tournament_id))) with
    | none => exact mutationBeforeAudit_of_error _ _ _ _ _
    | some oldData =>
      dsimp only
      split_ifs
      · exact mutationBeforeAudit_of_error _ _ _ _ _
      · exact updateThenAudit_contract (fun v => v.matchRows) (fun m => decide (m.id = id)) _ _
          "Match not found" _ _ w w.advance rfl rfl (by simp)
          (logAudit_audit_logs_cases _ _ _ _ _ _ _ _ _)

theorem Match_submitResult_contract (env : Env) (id : Nat) (resultData : ResultData)
    (userId : Nat) (ipAddress : String) (w : World) :
    MutationBeforeAudit (Match.submitResult env id resultData userId ipAddress w).1
      w.audit_logs (Match.submitResult env id resultData userId ipAddress w).2.audit_logs
      w.matchRows (Match.submitResult env id resultData userId ipAddress w).2.matchRows
      (fun m => decide (m.id = id))
      (w.matchRows.map (fun m =>
        if m.id = id then
          { m with score1 := resultData.score1, score2 := resultData.score2,
                   status := "completed", submitted_by_user_id := some userId }
        else m)) := by
  unfold Match.submitResult
  split_ifs
  · exact mutationBeforeAudit_of_error _ _ _ _ _
  · exact updateThenAudit_contract (fun v => v.matchRows) (fun m => decide (m.id = id)) _ _
      "Match not found" _ _ w w rfl rfl (by simp) (logAudit_audit_logs_cases _ _ _ _ _ _ _ _ _)

theorem Tournament_update_contract (env : Env) (id : Nat) (updateData : TournamentPatch)
    (userId : Nat) (ipAddress : String) (w : World) :
    MutationBeforeAudit (Tournament.update env id updateData userId ipAddress w).1
      w.audit_logs (Tournament.update env id updateData userId ipAddress w).2.audit_logs
      w.tournaments (Tournament.update env id updateData userId ipAddress w).2.tournaments
      (fun t => decide (t.id = id))
      (w.tournaments.map (fun t =>
        if t.id = id then applyTournamentPatch updateData t else t)) := by
  unfold Tournament.update Tournament.getById
  by_cases hf : w.faultNow = true
  · rw [if_pos hf]
    exact mutationBeforeAudit_of_error _ _ _ _ _
  · rw [if_neg hf]
    cases w.tournaments.find? (fun t =>
      decide (t.id = id) && w.users.any (fun u => decide (u.id = t.created_by))) with
    | none => exact mutationBeforeAudit_of_error _ _ _ _ _
    | some oldData =>
      dsimp only
      split_ifs
      · exact mutationBeforeAudit_of_error _ _ _ _ _
      · exact updateThenAudit_contract (fun v => v.tournaments) (fun t => decide (t.id = id))
          _ _ "Tournament not found" _ _ w w.advance rfl rfl (by simp)
          (logAudit_audit_logs_cases _ _ _ _ _ _ _ _ _)

theorem Tournament_delete_contract (env : Env) (id userId : Nat) (ipAddress : String)
    (w : World) :
    MutationBeforeAudit (Tournament.delete env id userId ipAddress w).1 w.audit_logs
      (Tournament.delete env id userId ipAddress w).2.audit_logs w.tournaments
      (Tournament.delete env id userId ipAddress w).2.tournaments
      (fun t => decide (t.id = id))
      (w.tournaments.map (fun t =>
        if t.id = id then { t with status := "cancelled" } else t)) := by
  unfold Tournament.delete Tournament.getById
  by_cases hf : w.faultNow = true
  · rw [if_pos hf]
    exact mutationBeforeAudit_of_error _ _ _ _ _
  · rw [if_neg hf]
    cases w.tournaments.find? (fun t =>
      decide (t.id = id) && w.users.any (fun u => decide (u.id = t.created_by))) with
    | none => exact mutationBeforeAudit_of_error _ _ _ _ _
    | some oldData =>
      exact updateThenAudit_contract (fun v => v.tournaments) (fun t => decide (t.id = id))
        _ false "Tournament not found" _ _ w w.advance rfl rfl (by simp)
        (logAudit_audit_logs_cases _ _ _ _ _ _ _ _ _)

/-- The captain-or-admin check passes the contract of its continuation on, for a
continuation that is an `UPDATE` callback on `teams`. -/
theorem Team_asCaptainOrAdmin_contract (oldData : TeamRow) (userId : Nat) (denied : String)
    (hasId : TeamRow → Bool) (updated : List TeamRow)
    (continuation : World → Except AuthError Bool × World) (w0 w : World)
    (htab : w.teams = w0.teams) (haud : w.audit_logs = w0.audit_logs)
    (hc : ∀ v : World, v.teams = w0.teams → v.audit_logs = w0.audit_logs →
      MutationBeforeAudit (continuation v).1 w0.audit_logs (continuation v).2.audit_logs
        w0.teams (continuation v).2.teams hasId updated) :
    MutationBeforeAudit
      (Team.asCaptainOrAdmin oldData userId denied continuation w).1 w0.audit_logs
      (Team.asCaptainOrAdmin oldData userId denied continuation w).2.audit_logs w0.teams
      (Team.asCaptainOrAdmin oldData userId denied continuation w).2.teams hasId updated := by
  unfold Team.asCaptainOrAdmin
  split_ifs
  · simp only [advance_audit_logs, advance_teams, htab, haud]
    exact mutationBeforeAudit_of_error _ _ _ _ _
  · split
    · simp only [advance_audit_logs, advance_teams, htab, haud]
      exact mutationBeforeAudit_of_error _ _ _ _ _
    · split_ifs
      · simp only [advance_audit_logs, advance_teams, htab, haud]
        exact mutationBeforeAudit_of_error _ _ _ _ _
      · exact hc w.advance htab haud
  · exact hc w htab haud

theorem Team_update_contract (env : Env) (id : Nat) (updateData : TeamPatch) (userId : Nat)
    (ipAddress : String) (w : World) :
    MutationBeforeAudit (Team.update env id updateData userId ipAddress w).1 w.audit_logs
      (Team.update env id updateData userId ipAddress w).2.audit_logs w.teams
      (Team.update env id updateData userId ipAddress w).2.teams
      (fun t => decide (t.id = id))
      (w.teams.map (fun t => if t.id = id then applyTeamPatch updateData t else t)) := by
  unfold Team.update Team.getById
  by_cases hf : w.faultNow = true
  · rw [if_pos hf]
    exact mutationBeforeAudit_of_error _ _ _ _ _
  · rw [if_neg hf]
    cases w.teams.find? (fun t =>
      decide (t.id = id) && w.users.any (fun u => decide (u.id = t.captain_id))) with
    | none => exact mutationBeforeAudit_of_error _ _ _ _ _
    | some oldData =>
      apply Team_asCaptainOrAdmin_contract oldData userId _ _ _ _ w w.advance rfl rfl
      intro v hvt hva
      unfold Team.continueUpdate
      split_ifs
      · simp only [hvt, hva]
        exact mutationBeforeAudit_of_error _ _ _ _ _
      · rw [hvt]
        exact updateThenAudit_contract (fun x => x.teams) (fun t => decide (t.id = id)) _ _
          "Team not found" _ _ w v (by simpa using hvt) (by simpa using hva)
          (by simp [hvt])
          (by
            have := logAudit_audit_logs_cases env (some userId) "UPDATE" "teams" (some id)
              (some (teamJson v oldData)) (some updateData.toJson) ipAddress
              { v.advance with
                teams := v.advance.teams.map
                  (fun t => if t.id = id then applyTeamPatch updateData t else t) }
            simpa [hva] using this)

theorem Team_delete_contract (env : Env) (id userId : Nat) (ipAddress : String) (w : World) :
    MutationBeforeAudit (Team.delete env id userId ipAddress w).1 w.audit_logs
      (Team.delete env id userId ipAddress w).2.audit_logs w.teams
      (Team.delete env id userId ipAddress w).2.teams
      (fun t => decide (t.id = id))
      (w.teams.map (fun t => if t.id = id then { t with is_active := false } else t)) := by
  unfold Team.delete Team.getById
  by_cases hf : w.faultNow = true
  · rw [if_pos hf]
    exact mutationBeforeAudit_of_error _ _ _ _ _
  · rw [if_neg hf]
    cases w.teams.find? (fun t =>
      decide (t.id = id) && w.users.any (fun u => decide (u.id = t.captain_id))) with
    | none => exact mutationBeforeAudit_of_error _ _ _ _ _
    | some oldData =>
      apply Team_asCaptainOrAdmin_contract oldData userId _ _ _ _ w w.advance rfl rfl
      intro v hvt hva
      unfold Team.continueDelete
      rw [hvt]
      exact updateThenAudit_contract (fun x => x.teams) (fun t => decide (t.id = id)) _ false
        "Team not found" _ _ w v (by simpa using hvt) (by simpa using hva)
        (by simp [hvt])
        (by
          have := logAudit_audit_logs_cases env (some userId) "DELETE" "teams" (some id)
            (some (teamJson v oldData)) (some (.obj [("is_active", .bool false)])) ipAddress
            { v.advance with
              teams := v.advance.teams.map
                (fun t => if t.id = id then { t with is_active := false } else t) }
          simpa [hva] using this)

/-- C16. For `Team.update`, `Team.delete`, `Tournament.update`, `Tournament.delete`,
`Match.update`, `Match.submitResult` and `Match.verifyResult`: a call that ends in an error
writes no audit entry and leaves the table as it was; a call that succeeds found the row
and updated it; without a row of that id the call ends in an error; an audit entry appears
only with a successful call; and in the `UPDATE` callback they share, an error of the
statement or zero affected rows gives an error with neither update nor audit entry. -/
theorem mutators_audit_only_after_update (env : Env) (id userId : Nat) (ipAddress : String)
    (teamPatch : TeamPatch) (tournamentPatch : TournamentPatch) (matchPatch : MatchPatch)
    (resultData : ResultData) (w : World) :
    MutationBeforeAudit (Team.update env id teamPatch userId ipAddress w).1 w.audit_logs
      (Team.update env id teamPatch userId ipAddress w).2.audit_logs w.teams
      (Team.update env id teamPatch userId ipAddress w).2.teams
      (fun t => decide (t.id = id))
      (w.teams.map (fun t => if t.id = id then applyTeamPatch teamPatch t else t)) ∧
    MutationBeforeAudit (Team.delete env id userId ipAddress w).1 w.audit_logs
      (Team.delete env id userId ipAddress w).2.audit_logs w.teams
      (Team.delete env id userId ipAddress w).2.teams
      (fun t => decide (t.id = id))
      (w.teams.map (fun t => if t.id = id then { t with is_active := false } else t)) ∧
    MutationBeforeAudit (Tournament.update env id tournamentPatch userId ipAddress w).1
      w.audit_logs (Tournament.update env id tournamentPatch userId ipAddress w).2.audit_logs
      w.tournaments (Tournament.update env id tournamentPatch userId ipAddress w).2.tournaments
      (fun t => decide (t.id = id))
      (w.tournaments.map (fun t =>
        if t.id = id then applyTournamentPatch tournamentPatch t else t)) ∧
    MutationBeforeAudit (Tournament.delete env id userId ipAddress w).1 w.audit_logs
      (Tournament.delete env id userId ipAddress w).2.audit_logs w.tournaments
      (Tournament.delete env id userId ipAddress w).2.tournaments
      (fun t => decide (t.id = id))
      (w.tournaments.map (fun t =>
        if t.id = id then { t with status := "cancelled" } else t)) ∧
    MutationBeforeAudit (Match.update env id matchPatch userId ipAddress w).1 w.audit_logs
      (Match.update env id matchPatch userId ipAddress w).2.audit_logs w.matchRows
      (Match.update env id matchPatch userId ipAddress w).2.matchRows
      (fun m => decide (m.id = id))
      (w.matchRows.map (fun m => if m.id = id then applyMatchPatch matchPatch m else m)) ∧
    MutationBeforeAudit (Match.submitResult env id resultData userId ipAddress w).1
      w.audit_logs (Match.submitResult env id resultData userId ipAddress w).2.audit_logs
      w.matchRows (Match.submitResult env id resultData userId ipAddress w).2.matchRows
      (fun m => decide (m.id = id))
      (w.matchRows.map (fun m =>
        if m.id = id then
          { m with score1 := resultData.score1, score2 := resultData.score2,
                   status := "completed", submitted_by_user_id := some userId }
        else m)) ∧
    MutationBeforeAudit (Match.verifyResult env id userId ipAddress w).1 w.audit_logs
      (Match.verifyResult env id userId ipAddress w).2.audit_logs w.matchRows
      (Match.verifyResult env id userId ipAddress w).2.matchRows
      (fun m => decide (m.id = id))
      (w.matchRows.map (fun m =>
        if m.id = id then { m with verified_by_admin_id := some userId } else m)) ∧
    (∀ (errors : Bool) (affected : Nat) (notFound : String) (mutate audit : World → World),
      (w.faultNow = true ∨ errors = true ∨ affected = 0) →
      (∃ e, (updateThenAudit errors affected notFound mutate audit w).1 = .error e) ∧
        (updateThenAudit errors affected notFound mutate audit w).2 = w.advance) :=
  ⟨Team_update_contract env id teamPatch userId ipAddress w,
   Team_delete_contract env id userId ipAddress w,
   Tournament_update_contract env id tournamentPatch userId ipAddress w,
   Tournament_delete_contract env id userId ipAddress w,
   Match_update_contract env id matchPatch userId ipAddress w,
   Match_submitResult_contract env id resultData userId ipAddress w,
   Match_verifyResult_contract env id userId ipAddress w,
   fun errors affected notFound mutate audit h =>
     updateThenAudit_failure errors affected notFound mutate audit w h⟩

/-- A witness for C16: a score submission whose `UPDATE` errors and a score submission for
an id without a row both end in an error with the audit log and the table untouched. -/
theorem mutators_audit_only_after_update_witness :
    ((Match.submitResult sampleEnv 4 { score1 := some 2, score2 := some 1 } 1 "10.0.0.1"
        { matchRows := [sampleMatch], faults := [true] }).2.audit_logs = [] ∧
      (Match.submitResult sampleEnv 4 { score1 := some 2, score2 := some 1 } 1 "10.0.0.1"
        { matchRows := [sampleMatch], faults := [true] }).2.matchRows = [sampleMatch]) ∧
    (∃ e, (Match.submitResult sampleEnv 9 { score1 := some 2, score2 := some 1 } 1 "10.0.0.1"
        { matchRows := [sampleMatch] }).1 = .error e) :=
  ⟨(mutators_audit_only_after_update sampleEnv 4 1 "10.0.0.1" {} {} {}
      { score1 := some 2, score2 := some 1 }
      { matchRows := [sampleMatch], faults := [true] }).2.2.2.2.2.1.1 ⟨.storage, rfl⟩,
   (mutators_audit_only_after_update sampleEnv 9 1 "10.0.0.1" {} {} {}
      { score1 := some 2, score2 := some 1 }
      { matchRows := [sampleMatch] }).2.2.2.2.2.1.2.2.1 (by decide)⟩

/-! ## Team creation route -/

/-- The team route never creates a team: `Team.create` reads `name` off the string it is
given, finds `undefined`, and the `INSERT` of a `NULL` name errors. -/
theorem postTeams_never_creates (env : Env) (req : Request) (name : String) (w : World) :
    (postTeams env req name w).1.status ≠ 201 ∧ (postTeams env req name w).2.teams = w.teams ∧
    (postTeams env req name w).2.team_members = w.team_members := by
  have hany : (w.teams.any
      (fun t => decide (some t.name = sqlText ((Json.str name).field "name")))) = false := by
    simp [Json.field, sqlText]
  unfold postTeams
  cases req.user with
  | none => simp
  | some caller =>
    simp only [Team.create, hany]
    split_ifs <;> simp [Json.field, sqlText]

/-- C17 (code defect). `POST /teams` passes the submitted name, a string, where
`Team.create` destructures an object: the name it reads is `undefined`, the `INSERT INTO
teams` gets a `NULL` name and errors, and the captain `bob` creating "Ravens" is answered
500 `CREATE_TEAM_ERROR` with no row inserted, whereas `Team.create` called with the object
does insert the team and the membership. No request to the route is answered 201. -/
theorem postTeams_valid_name_answers_500 :
    (postTeams sampleEnv { user := some (authUserOf bob) } "Ravens"
        { users := [alice, bob] }).1 =
      { status := 500, error := some "Failed to create team",
        code := some "CREATE_TEAM_ERROR" } ∧
    (postTeams sampleEnv { user := some (authUserOf bob) } "Ravens"
        { users := [alice, bob] }).2.teams = [] ∧
    (Team.create sampleEnv (.obj [("name", .str "Ravens")]) 2 "10.0.0.1"
        { users := [alice, bob] }).2.teams = [{ id := 1, name := "Ravens", captain_id := 2 }] ∧
    (Team.create sampleEnv (.obj [("name", .str "Ravens")]) 2 "10.0.0.1"
        { users := [alice, bob] }).2.team_members =
      [{ team_id := 1, user_id := 2, status := "active" }] ∧
    (∀ (env : Env) (req : Request) (name : String) (w : World),
      (postTeams env req name w).1.status ≠ 201 ∧
        (postTeams env req name w).2.teams = w.teams ∧
        (postTeams env req name w).2.team_members = w.team_members) :=
  ⟨by decide, by decide, by decide, by decide, postTeams_never_creates⟩

/-! ## Error middleware and pagination -/

/-- C24, as stated, fails: with `NODE_ENV` unset, or set to `test`, the 500 response of the
error middleware carries the stack trace. -/
theorem errorHandler_unset_env_exposes_stack_sample :
    (errorHandler none { message := "boom", stack := "Error: boom at handler" }).stack =
      some "Error: boom at handler" ∧
    (errorHandler (some "test") { message := "boom", stack := "Error: boom at handler" }).stack
      = some "Error: boom at handler" := by
  decide

/-- C24, amended. The 500 response of the error middleware contains no stack trace (and no
error message of the exception) exactly when `NODE_ENV` is `production`; for every other
value, and when it is unset, the response carries `err.message` and `err.stack`. -/
theorem errorHandler_hides_stack_iff_production (nodeEnv : Option String) (err : JsError) :
    (errorHandler nodeEnv err).status = 500 ∧
    (nodeEnv = some "production" →
      errorHandler nodeEnv err = { status := 500, error := some "Internal server error" }) ∧
    (nodeEnv ≠ some "production" →
      (errorHandler nodeEnv err).stack = some err.stack ∧
        (errorHandler nodeEnv err).error = some err.message) ∧
    ((errorHandler nodeEnv err).stack = none ↔ nodeEnv = some "production") := by
  unfold errorHandler
  by_cases h : nodeEnv = some "production"
  · simp [h]
  · simp [h]

/-- A witness for the amended C24: production hides the stack, development shows it. -/
theorem errorHandler_hides_stack_iff_production_witness :
    errorHandler (some "production") { message := "boom", stack := "trace" } =
      { status := 500, error := some "Internal server error" } ∧
    (errorHandler (some "development") { message := "boom", stack := "trace" }).stack =
      some "trace" :=
  ⟨(errorHandler_hides_stack_iff_production (some "production")
      { message := "boom", stack := "trace" }).2.1 rfl,
   ((errorHandler_hides_stack_iff_production (some "development")
      { message := "boom", stack := "trace" }).2.2.1 (by decide)).1⟩

theorem bitLengthAux_spec (fuel n : Nat) (h : n ≤ fuel) (hn : 0 < n) :
    2 ^ (bitLengthAux fuel n - 1) ≤ n ∧ n < 2 ^ bitLengthAux fuel n ∧
      0 < bitLengthAux fuel n := by
  induction fuel generalizing n with
  | zero => omega
  | succ f ih =>
    have hne : n ≠ 0 := by omega
    simp only [bitLengthAux, hne, if_false]
    by_cases h1 : n / 2 = 0
    · have hn1 : n = 1 := by omega
      subst hn1
      cases f with
      | zero => simp [bitLengthAux]
      | succ g => simp [bitLengthAux]
    · have hpos : 0 < n / 2 := Nat.pos_of_ne_zero h1
      have hle : n / 2 ≤ f := by omega
      obtain ⟨a, b, c⟩ := ih (n / 2) hle hpos
      refine ⟨?_, ?_, by omega⟩
      · simp only [Nat.add_sub_cancel]
        have : 2 ^ bitLengthAux f (n / 2) = 2 ^ (bitLengthAux f (n / 2) - 1) * 2 := by
          rw [← pow_succ]
          congr 1
          omega
        rw [this]
        omega
      · rw [pow_succ]
        omega

theorem bitLength_spec (n : Nat) (hn : 0 < n) :
    2 ^ (bitLength n - 1) ≤ n ∧ n < 2 ^ bitLength n ∧ 0 < bitLength n :=
  bitLengthAux_spec n n (Nat.le_refl n) hn

theorem divRoundEven_bounds (n d : Nat) :
    n / d ≤ divRoundEven n d ∧ divRoundEven n d ≤ n / d + 1 := by
  unfold divRoundEven
  split_ifs <;> omega

theorem divRoundEven_exact (n d : Nat) (h : n % d = 0) (hd : 0 < d) :
    divRoundEven n d = n / d := by
  unfold divRoundEven
  simp [h, hd]

theorem divRoundEven_up (n d : Nat) (h : d < 2 * (n % d)) :
    divRoundEven n d = n / d + 1 := by
  unfold divRoundEven
  have : ¬ 2 * (n % d) < d := by omega
  simp [this, h]


theorem two_pow_53 : (2 : Nat) ^ 53 = 9007199254740992 := by norm_num

theorem ceil_of_between (m q scale : Nat) (hs : 0 < scale) (h1 : q * scale < m)
    (h2 : m ≤ (q + 1) * scale) : (m + scale - 1) / scale = q + 1 := by
  apply Nat.div_eq_of_lt_le
  · have : (q + 1) * scale ≤ m + scale - 1 := by
      have : (q + 1) * scale = q * scale + scale := by ring
      omega
    exact this
  · have : (q + 1 + 1) * scale = (q + 1) * scale + scale := by ring
    omega

theorem jsCeilDiv_exact (total limit : Nat) (hl : 1 ≤ limit) (ht : total ≤ 2 ^ 53) :
    jsCeilDiv total limit = some ((total + limit - 1) / limit) := by
  have hl0 : limit ≠ 0 := by omega
  unfold jsCeilDiv
  simp only [hl0, if_false]
  by_cases h0 : total = 0
  · subst h0
    simp only [if_true]
    congr 1
    symm
    apply Nat.div_eq_of_lt
    omega
  · simp only [h0, if_false]
    by_cases hlt : total < limit
    · simp only [hlt, if_true]
      congr 1
      symm
      apply Nat.div_eq_of_lt_le <;> omega
    · simp only [hlt, if_false]
      have hq : 0 < total / limit := Nat.div_pos (by omega) (by omega)
      obtain ⟨hb1, hb2, hb3⟩ := bitLength_spec (total / limit) hq
      have hdm : limit * (total / limit) + total % limit = total := Nat.div_add_mod total limit
      have hmod : total % limit < limit := Nat.mod_lt _ (by omega)
      have hceil : (total + limit - 1) / limit =
          total / limit + (if total % limit = 0 then 0 else 1) := by
        by_cases hr : total % limit = 0
        · simp only [hr, if_true, Nat.add_zero]
          apply Nat.div_eq_of_lt_le
          · have : total / limit * limit = limit * (total / limit) := Nat.mul_comm _ _
            omega
          · have : (total / limit + 1) * limit = limit * (total / limit) + limit := by ring
            omega
        · simp only [hr, if_false]
          apply Nat.div_eq_of_lt_le
          · have : (total / limit + 1) * limit = limit * (total / limit) + limit := by ring
            omega
          · have : (total / limit + 1 + 1) * limit =
                limit * (total / limit) + limit + limit := by ring
            omega
      rw [hceil]
      by_cases hd : bitLength (total / limit) ≤ 53
      · simp only [hd, if_true]
        congr 1
        set q := total / limit with hqdef
        set r := total % limit with hrdef
        set b := bitLength q with hbdef
        set scale := 2 ^ (53 - b) with hsdef
        have hs : 0 < scale := pow_pos (by norm_num) _
        have hN : total * scale = limit * (q * scale) + r * scale := by
          rw [← hdm]; ring
        by_cases hr : r = 0
        · simp only [hr, if_true, Nat.add_zero]
          have hN2 : total * scale = limit * (q * scale) := by
            rw [hN, hr]; ring
          have hmod0 : (total * scale) % limit = 0 := by
            rw [hN2]; exact Nat.mul_mod_right _ _
          rw [divRoundEven_exact _ _ hmod0 (by omega), hN2,
            Nat.mul_div_cancel_left _ (by omega : 0 < limit)]
          apply Nat.div_eq_of_lt_le
          · omega
          · have : (q + 1) * scale = q * scale + scale := by ring
            omega
        · simp only [hr, if_false]
          have hrpos : 1 ≤ r := Nat.pos_of_ne_zero hr
          have hQ : (total * scale) / limit = q * scale + (r * scale) / limit := by
            rw [hN, Nat.mul_add_div (by omega : 0 < limit)]
          have hR : (total * scale) % limit = (r * scale) % limit := by
            rw [hN, Nat.mul_add_mod]
          have hup : (r * scale) / limit < scale := by
            apply Nat.div_lt_of_lt_mul
            have : r * scale < limit * scale := Nat.mul_lt_mul_of_pos_right hmod hs
            exact this
          obtain ⟨hlo, hhi⟩ := divRoundEven_bounds (total * scale) limit
          rw [hQ] at hlo hhi
          have hexp : (q + 1) * scale = q * scale + scale := by ring
          apply ceil_of_between _ _ _ hs
          · by_cases hbig : 1 ≤ (r * scale) / limit
            · exact Nat.lt_of_lt_of_le (Nat.lt_add_of_pos_right hbig) hlo
            · have hlt2 : r * scale < limit := by
                by_contra hc
                have h5 : 0 < (r * scale) / limit := Nat.div_pos (by omega) (by omega)
                exact hbig h5
              have hRm : (total * scale) % limit = r * scale := by
                rw [hR]; exact Nat.mod_eq_of_lt hlt2
              have hlim : limit < 2 * scale := by
                have h1 : 2 ^ (b - 1) * limit ≤ q * limit := Nat.mul_le_mul_right _ hb1
                have h2 : q * limit < 2 ^ 53 := by
                  have : q * limit = limit * q := Nat.mul_comm _ _
                  omega
                have h3 : 2 ^ (b - 1) * (2 * scale) = 2 ^ 53 := by
                  rw [hsdef, ← pow_succ', ← pow_add]
                  congr 1
                  omega
                by_contra hc
                have h4 : 2 ^ (b - 1) * (2 * scale) ≤ 2 ^ (b - 1) * limit :=
                  Nat.mul_le_mul_left _ (by omega)
                omega
              have hle : scale ≤ r * scale := Nat.le_mul_of_pos_left _ hrpos
              have hupd := divRoundEven_up (total * scale) limit (by rw [hRm]; omega)
              rw [hupd, hQ]
              exact Nat.lt_succ_of_le (Nat.le_add_right _ _)
          · rw [hexp]
            have : q * scale + r * scale / limit + 1 ≤ q * scale + scale :=
              Nat.add_le_add_left (Nat.succ_le_of_lt hup) _
            exact Nat.le_trans hhi this
      · simp only [hd, if_false]
        have hb : 54 ≤ bitLength (total / limit) := by omega
        have hq53 : 2 ^ 53 ≤ total / limit := by
          have : 2 ^ 53 ≤ 2 ^ (bitLength (total / limit) - 1) :=
            Nat.pow_le_pow_right (by norm_num) (by omega)
          omega
        have hqle : total / limit ≤ total := Nat.div_le_self _ _
        have hqeq : total / limit = 2 ^ 53 := by omega
        have hteq : total = 2 ^ 53 := by omega
        have hl1 : limit = 1 := by
          by_contra hc
          have h2 : 2 ≤ limit := by omega
          have : 2 * (total / limit) ≤ limit * (total / limit) := Nat.mul_le_mul_right _ h2
          have two := two_pow_53
          omega
        subst hl1
        subst hteq
        decide

theorem roundDouble_exact (n : Nat) (h : n ≤ 2 ^ 53) : roundDouble n = some n := by
  unfold roundDouble
  rw [if_pos h]

/-- C30, as stated, fails for large pages: the code computes in doubles, and for page
3002399751580332 with limit 3 (both exact doubles, and a request `validatePagination`
accepts) the product `(page - 1) * limit = 9007199254740993` is rounded to
9007199254740992. -/
theorem pageOffset_large_page_rounds_sample :
    pageOffset 3002399751580332 3 = some 9007199254740992 ∧
    (((3002399751580332 - 1) * 3 : Nat) : Int) = 9007199254740993 ∧
    roundDouble 3002399751580332 = some 3002399751580332 ∧ roundDouble 3 = some 3 := by
  decide

/-- C30, amended. For `page >= 1`, `limit >= 1` and `total` with `page * limit` and `total`
at most `2 ^ 53` (where the double arithmetic of the code is exact), the pagination record
has `offset = (page - 1) * limit`, `totalPages = ceil(total / limit)` (the least number of
pages of `limit` rows that hold `total` rows), `hasPrev` exactly when `page > 1`, and
`hasNext` exactly when `page * limit < total`. -/
theorem paginationRecord_exact_below_two_pow_53 (page limit total : Nat) (hp : 1 ≤ page) (hl : 1 ≤ limit)
    (hs : page * limit ≤ 2 ^ 53) (ht : total ≤ 2 ^ 53) :
    pageOffset page limit = some (((page - 1) * limit : Nat) : Int) ∧
    (∃ totalPages, (paginationRecord page limit total).totalPages = some totalPages ∧
      total ≤ totalPages * limit ∧ (∀ k, total ≤ k * limit → totalPages ≤ k)) ∧
    ((paginationRecord page limit total).hasPrev = true ↔ 1 < page) ∧
    ((paginationRecord page limit total).hasNext = true ↔ page * limit < total) ∧
    (paginationRecord page limit total).page = page ∧
    (paginationRecord page limit total).limit = limit ∧
    (paginationRecord page limit total).total = total := by
  have hlpos : 0 < limit := by omega
  have hceil := jsCeilDiv_exact total limit hl ht
  have key : ∀ k, (total + limit - 1) / limit ≤ k ↔ total ≤ k * limit := by
    intro k
    rw [Nat.div_le_iff_le_mul_add_pred hlpos]
    constructor
    · intro h
      have : limit * k = k * limit := Nat.mul_comm _ _
      omega
    · intro h
      have : limit * k = k * limit := Nat.mul_comm _ _
      omega
  have hple : page ≤ page * limit := Nat.le_mul_of_pos_right _ hlpos
  have hmul : (page - 1) * limit ≤ page * limit := Nat.mul_le_mul_right _ (by omega)
  refine ⟨?_, ⟨(total + limit - 1) / limit, ?_, ?_, ?_⟩, ?_, ?_, rfl, rfl, rfl⟩
  · have hp0 : page ≠ 0 := by omega
    unfold pageOffset
    rw [if_neg hp0, roundDouble_exact (page - 1) (by omega)]
    simp only [Option.some_bind]
    rw [roundDouble_exact ((page - 1) * limit) (by omega)]
    rfl
  · simp [paginationRecord, hceil]
  · exact (key _).mp (Nat.le_refl _)
  · intro k hk
    exact (key k).mpr hk
  · simp [paginationRecord]
  · simp only [paginationRecord, hceil, decide_eq_true_eq]
    constructor
    · intro h
      by_contra hc
      have : total ≤ page * limit := by omega
      have := (key page).mpr this
      omega
    · intro h
      by_contra hc
      have : (total + limit - 1) / limit ≤ page := by omega
      have := (key page).mp this
      omega

/-- A witness for the amended C30: page 2 of 45 rows, 20 per page. -/
theorem paginationRecord_exact_below_two_pow_53_witness :
    pageOffset 2 20 = some (((2 - 1) * 20 : Nat) : Int) ∧
    ((paginationRecord 2 20 45).hasNext = true ↔ 2 * 20 < 45) ∧
    paginationRecord 2 20 45 =
      { page := 2, limit := 20, total := 45, totalPages := some 3, hasNext := true,
        hasPrev := true } :=
  ⟨(paginationRecord_exact_below_two_pow_53 2 20 45 (by decide) (by decide) (by decide) (by decide)).1,
   (paginationRecord_exact_below_two_pow_53 2 20 45 (by decide) (by decide) (by decide) (by decide)).2.2.2.1,
   by decide⟩

/-! ## Account enumeration -/

theorem filter_email_of_account_none (users : List UserRow) (email : String)
    (h : users.find? (fun u => decide (u.email = email)) = none) :
    users.filter (fun u => decide (u.email = email)) = [] := by
  induction users with
  | nil => rfl
  | cons x xs ih =>
    by_cases hx : x.email = email
    · simp [List.find?_cons, hx] at h
    · simp only [List.find?_cons, hx, decide_False] at h
      simp [List.filter_cons, hx, ih h]

theorem filter_email_of_account_some (users : List UserRow) (email : String) (u : UserRow)
    (h : users.find? (fun u => decide (u.email = email)) = some u) :
    ∃ rest, users.filter (fun u => decide (u.email = email)) = u :: rest := by
  induction users with
  | nil => simp at h
  | cons x xs ih =>
    by_cases hx : x.email = email
    · simp [List.find?_cons, hx] at h
      subst h
      exact ⟨xs.filter (fun u => decide (u.email = email)), by simp [List.filter_cons, hx]⟩
    · simp only [List.find?_cons, hx, decide_False] at h
      obtain ⟨rest, hrest⟩ := ih h
      exact ⟨rest, by simp [List.filter_cons, hx, hrest]⟩

/-- C21, as stated, fails for a locked account: with the same wrong password,
`User.authenticate` raises `Account is locked` for the email of the locked sample account
and `Invalid credentials` for an unknown email, so the two failures differ. -/
theorem authenticate_locked_reveals_account_sample :
    sampleEnv.bcryptCompare "bad" lockedAlice.password_hash = false ∧
    (World.account { users := [lockedAlice] } "z@x") = none ∧
    (User.authenticate sampleEnv "a@x" "bad" "10.0.0.1" { users := [lockedAlice] }).1 =
      .error (.message "Account is locked") ∧
    (User.authenticate sampleEnv "z@x" "bad" "10.0.0.1" { users := [lockedAlice] }).1 =
      .error (.message "Invalid credentials") :=
  ⟨by decide, by decide, rfl, rfl⟩

/-- C21, amended. The lookup being answered, for two non-empty emails, one unknown and one
of an existing account: for every password that is a string the account's hash does not
match, `POST /login` sends the same response for both, and `User.authenticate` raises the
same `Invalid credentials` error for both when the existing account is unlocked, and
`Account is locked` for the existing account when it is locked; for a truthy password that
is no string, `POST /login` answers 500 for the existing account and 401 for the unknown
email. -/
theorem invalid_credentials_same_for_unknown_email (env : Env)
    (known unknown password ipAddress : String) (w : World) (u : UserRow)
    (hk : w.account known = some u) (hu : w.account unknown = none)
    (hk0 : known ≠ "") (hu0 : unknown ≠ "")
    (hp : env.bcryptCompare password u.password_hash = false) (hf : w.faultNow = false) :
    (postLogin env { email := some known, password := some (.str password) } w).1 =
      (postLogin env { email := some unknown, password := some (.str password) } w).1 ∧
    (u.account_locked = false →
      (User.authenticate env known password ipAddress w).1 =
          .error (.message "Invalid credentials") ∧
        (User.authenticate env unknown password ipAddress w).1 =
          .error (.message "Invalid credentials")) ∧
    (u.account_locked = true →
      (User.authenticate env known password ipAddress w).1 =
        .error (.message "Account is locked")) ∧
    (∀ v : Json, v.truthy = true → (∀ text, v ≠ .str text) →
      (postLogin env { email := some known, password := some v } w).1 =
          { status := 500, error := some "Authentication failed" } ∧
        (postLogin env { email := some unknown, password := some v } w).1 =
          { status := 401, error := some "Invalid credentials" }) := by
  unfold World.account at hk hu
  obtain ⟨rest, hrest⟩ := filter_email_of_account_some _ _ _ hk
  have hnil := filter_email_of_account_none _ _ hu
  refine ⟨?_, ?_, ?_, ?_⟩
  · by_cases hpw : password = ""
    · simp [postLogin, truthyStr, truthyJson, Json.truthy, hpw]
    · simp [postLogin, truthyStr, truthyJson, Json.truthy, hpw, hk0, hu0, hf, hrest, hnil, hp]
  · intro hl
    constructor
    · simp [User.authenticate, User.getByEmail, hf, hk, hl, hp]
    · simp [User.authenticate, User.getByEmail, hf, hu]
  · intro hl
    simp [User.authenticate, User.getByEmail, hf, hk, hl]
  · intro v hv hns
    constructor
    · unfold postLogin
      simp only [truthyStr, hk0, if_false, truthyJson, hv, if_true, hf, Bool.false_eq_true,
        hrest]
    · simp [postLogin, truthyStr, truthyJson, hv, hu0, hf, hnil]

/-- A witness for the amended C21: the unlocked sample account against an unknown email,
with a wrong password and with the number 7 as password. -/
theorem invalid_credentials_same_for_unknown_email_witness :
    (postLogin sampleEnv { email := some "a@x", password := some (.str "bad") }
        { users := [alice] }).1 =
      (postLogin sampleEnv { email := some "z@x", password := some (.str "bad") }
        { users := [alice] }).1 ∧
    (User.authenticate sampleEnv "a@x" "bad" "10.0.0.1" { users := [alice] }).1 =
      .error (.message "Invalid credentials") ∧
    (User.authenticate sampleEnv "z@x" "bad" "10.0.0.1" { users := [alice] }).1 =
      .error (.message "Invalid credentials") ∧
    (postLogin sampleEnv { email := some "a@x", password := some (.num 7) }
        { users := [alice] }).1 = { status := 500, error := some "Authentication failed" } ∧
    (postLogin sampleEnv { email := some "z@x", password := some (.num 7) }
        { users := [alice] }).1 = { status := 401, error := some "Invalid credentials" } :=
  ⟨(invalid_credentials_same_for_unknown_email sampleEnv "a@x" "z@x" "bad" "10.0.0.1"
      { users := [alice] } alice (by decide) (by decide) (by decide) (by decide) (by decide)
      (by decide)).1,
   ((invalid_credentials_same_for_unknown_email sampleEnv "a@x" "z@x" "bad" "10.0.0.1"
      { users := [alice] } alice (by decide) (by decide) (by decide) (by decide) (by decide)
      (by decide)).2.1 (by decide)).1,
   ((invalid_credentials_same_for_unknown_email sampleEnv "a@x" "z@x" "bad" "10.0.0.1"
      { users := [alice] } alice (by decide) (by decide) (by decide) (by decide) (by decide)
      (by decide)).2.1 (by decide)).2,
   ((invalid_credentials_same_for_unknown_email sampleEnv "a@x" "z@x" "bad" "10.0.0.1"
      { users := [alice] } alice (by decide) (by decide) (by decide) (by decide) (by decide)
      (by decide)).2.2.2 (.num 7) (by decide) (by intro text h; cases h)).1,
   ((invalid_credentials_same_for_unknown_email sampleEnv "a@x" "z@x" "bad" "10.0.0.1"
      { users := [alice] } alice (by decide) (by decide) (by decide) (by decide) (by decide)
      (by decide)).2.2.2 (.num 7) (by decide) (by intro text h; cases h)).2⟩

/-! ## Score submission, tournament creation, registration -/

/-- C22 (code defect). `PUT /matches/:id/score` checks no team membership: `alice`, who is
a member of neither team of the sample match, submits 2:1 and is answered 200, and the
match row now carries her scores, status `completed` and her id as submitter. -/
theorem putMatchScore_non_member_overwrites_match :
    (matchWorld.team_members.any (fun m => decide (m.user_id = alice.id))) = false ∧
    (putMatchScoreRoute sampleEnv true { authorization := some "Bearer T", paramId := some 4 }
        { score1 := some 2, score2 := some 1 } matchWorld).1.status = 200 ∧
    (putMatchScoreRoute sampleEnv true { authorization := some "Bearer T", paramId := some 4 }
        { score1 := some 2, score2 := some 1 } matchWorld).2.matchRows =
      [{ sampleMatch with score1 := some 2, score2 := some 1, status := "completed",
                          submitted_by_user_id := some 1 }] := by
  decide

/-- The tournament route never creates a tournament. -/
theorem postTournamentsRoute_never_creates (env : Env) (validationOk : Bool) (req : Request)
    (body : TournamentData) (w : World) :
    (postTournamentsRoute env validationOk req body w).1.status ≠ 201 ∧
    (postTournamentsRoute env validationOk req body w).2.tournaments = w.tournaments := by
  unfold postTournamentsRoute
  cases validationOk <;> simp [postTournaments, Request.incoming]

/-- C23 (code defect). `POST /tournaments` is registered with `authenticateToken` and
`requireAdmin` commented out, so its handler reads `req.user.id` of an absent `req.user`:
the admin `carol`, with her valid token and a valid body, is answered 500
`CREATE_TOURNAMENT_ERROR` and no tournament is created; the handler itself, given an
authenticated caller, creates it with `created_by` the caller. No request to the route is
answered 201. -/
theorem postTournaments_admin_answers_500 :
    carol.role = "admin" ∧
    (postTournamentsRoute adminEnv true { authorization := some "Bearer A" }
        { name := some "Winter Cup", game := some "Chess", start_date := some 500 }
        { users := [carol], user_sessions := [carolSession] }).1 =
      { status := 500, error := some "Failed to create tournament",
        code := some "CREATE_TOURNAMENT_ERROR" } ∧
    (postTournamentsRoute adminEnv true { authorization := some "Bearer A" }
        { name := some "Winter Cup", game := some "Chess", start_date := some 500 }
        { users := [carol], user_sessions := [carolSession] }).2.tournaments = [] ∧
    (postTournaments adminEnv { user := some (authUserOf carol) }
        { name := some "Winter Cup", game := some "Chess", start_date := some 500 }
        { users := [carol] }).1.status = 201 ∧
    (postTournaments adminEnv { user := some (authUserOf carol) }
        { name := some "Winter Cup", game := some "Chess", start_date := some 500 }
        { users := [carol] }).2.tournaments =
      [{ id := 1, name := "Winter Cup", created_by := 3, game := "Chess",
         start_date := 500 }] ∧
    (∀ (env : Env) (validationOk : Bool) (req : Request) (body : TournamentData) (w : World),
      (postTournamentsRoute env validationOk req body w).1.status ≠ 201 ∧
        (postTournamentsRoute env validationOk req body w).2.tournaments = w.tournaments) :=
  ⟨by decide, by decide, by decide, by decide, by decide, postTournamentsRoute_never_creates⟩

theorem filter_id_append_ne_nil (users : List UserRow) (row : UserRow) :
    (users ++ [row]).filter (fun u => decide (u.id = row.id)) ≠ [] := by
  intro h
  have hmem : row ∈ (users ++ [row]).filter (fun u => decide (u.id = row.id)) := by
    simp [List.mem_filter]
  rw [h] at hmem
  cases hmem

/-- C29, as stated, fails for a role that is no member of the column's `ENUM`: a
registration with role `superuser` (fresh username and email) is answered 500 and stores no
row, and one with role `3` stores a row whose role is `admin`, the third member. -/
theorem postRegister_unknown_role_stores_nothing_sample :
    (postRegister sampleEnv
        { username := some "dave", email := some "d@x", password := some (.str "pw4"),
          role := some (.str "superuser") } { users := [alice] }).1 =
      { status := 500, error := some "Failed to create user" } ∧
    (postRegister sampleEnv
        { username := some "dave", email := some "d@x", password := some (.str "pw4"),
          role := some (.str "superuser") } { users := [alice] }).2.users = [alice] ∧
    ((postRegister sampleEnv
        { username := some "dave", email := some "d@x", password := some (.str "pw4"),
          role := some (.str "3") } { users := [alice] }).2.users.map (fun u => u.role)) =
      ["player", "admin"] := by
  decide

/-- The registration with a role the `INSERT` stores as `stored`. -/
theorem postRegister_of_stored (env : Env) (username email password : String)
    (role : Option Json) (stored : String) (w : World) (hu : username ≠ "") (he : email ≠ "")
    (hp : password ≠ "") (hf : w.faults = [])
    (hfree : ∀ u ∈ w.users, u.email ≠ email ∧ u.username ≠ username)
    (hul : username.length ≤ 50) (hel : email.length ≤ 255)
    (hs : enumStored env userRoles (role.getD (.str "player")) = some stored) :
    (postRegister env
        { username := some username, email := some email, password := some (.str password),
          role := role } w).1.status = 201 ∧
    (postRegister env
        { username := some username, email := some email, password := some (.str password),
          role := role } w).2.users =
      w.users ++
        [{ id := nextId (w.users.map (fun u => u.id)), username := username,
           email := email, password_hash := env.bcryptHash password, role := stored }] := by
  have hany : (w.users.any
      (fun u => decide (u.email = email) || decide (u.username = username))) = false := by
    rw [List.any_eq_false]
    intro u hmem
    have := hfree u hmem
    simp [this.1, this.2]
  have hfn : w.faultNow = false := by simp [World.faultNow, hf]
  have hfn2 : w.advance.faultNow = false := by simp [World.faultNow, World.advance, hf]
  have hlong : userTextTooLong username email = false := by
    unfold userTextTooLong
    have h2 : decide (50 < username.length) = false := decide_eq_false (by omega)
    have h3 : decide (255 < email.length) = false := decide_eq_false (by omega)
    rw [h2, h3]
    rfl
  have hfn3 : ∀ users : List UserRow,
      (World.faultNow { w.advance.advance with users := users }) = false := by
    intro users
    simp [World.faultNow, World.advance, hf]
  unfold postRegister
  simp only [truthyStr, truthyJson, Json.truthy, hu, he, hp, if_false, hfn, hany, hfn2,
    hlong, hs, Bool.false_eq_true, Bool.or_false, bne_iff_ne, ne_eq, not_false_eq_true,
    if_true, hfn3]
  split
  · exact ⟨rfl, rfl⟩
  · rename_i hnil
    exfalso
    exact filter_id_append_ne_nil w.users
      { id := nextId (w.users.map (fun u => u.id)), username := username, email := email,
        password_hash := env.bcryptHash password, role := stored } hnil

/-- C29, amended. For a `POST /register` request with non-empty username, email and
password (a string) that collide with no existing user and fit their columns, no statement
failing: when the role is omitted the new row has role `player`; when the name of a member
of the column's `ENUM` (`player`, `captain`, `admin`) is supplied the new row has exactly
that role, whoever the caller is; any other supplied value is stored as the member the
store resolves it to (the number of a member, such as `3`, as that member), all with the
response 201; and a value that resolves to no member makes the `INSERT` error, and the
request is answered 500 with no row stored. -/
theorem postRegister_stores_supplied_role (env : Env) (username email password : String)
    (role : Option Json) (w : World) (hu : username ≠ "") (he : email ≠ "")
    (hp : password ≠ "") (hf : w.faults = [])
    (hfree : ∀ u ∈ w.users, u.email ≠ email ∧ u.username ≠ username)
    (hul : username.length ≤ 50) (hel : email.length ≤ 255) :
    (∀ stored,
      ((role = none ∧ stored = "player") ∨
        (stored ∈ userRoles ∧ role = some (.str stored)) ∨
        (∃ value, role = some value ∧ enumStored env userRoles value = some stored)) →
      (postRegister env
          { username := some username, email := some email,
            password := some (.str password), role := role } w).1.status = 201 ∧
      (postRegister env
          { username := some username, email := some email,
            password := some (.str password), role := role } w).2.users =
        w.users ++
          [{ id := nextId (w.users.map (fun u => u.id)), username := username,
             email := email, password_hash := env.bcryptHash password, role := stored }]) ∧
    (∀ value, role = some value → enumStored env userRoles value = none →
      (postRegister env
          { username := some username, email := some email,
            password := some (.str password), role := role } w).1.status = 500 ∧
      (postRegister env
          { username := some username, email := some email,
            password := some (.str password), role := role } w).2.users = w.users) := by
  constructor
  · intro stored hcase
    apply postRegister_of_stored env username email password role stored w hu he hp hf hfree
      hul hel
    rcases hcase with ⟨hr, hs⟩ | ⟨hm, hr⟩ | ⟨value, hr, hs⟩
    · subst hr hs
      rfl
    · subst hr
      have hc : userRoles.contains stored = true := List.elem_iff.mpr hm
      simp only [Option.getD_some, enumStored, hc, if_true]
    · subst hr
      exact hs
  · intro value hr hs
    subst hr
    have hany : (w.users.any
        (fun u => decide (u.email = email) || decide (u.username = username))) = false := by
      rw [List.any_eq_false]
      intro u hmem
      have := hfree u hmem
      simp [this.1, this.2]
    have hfn : w.faultNow = false := by simp [World.faultNow, hf]
    unfold postRegister
    simp [truthyStr, truthyJson, Json.truthy, hu, he, hp, hfn, hany, hs]

/-- A witness for the amended C29: an unauthenticated registration with role `admin` stores
an admin row. -/
theorem postRegister_stores_supplied_role_witness :
    (postRegister sampleEnv
        { username := some "dave", email := some "d@x", password := some (.str "pw4"),
          role := some (.str "admin") } { users := [alice] }).1.status = 201 ∧
    (postRegister sampleEnv
        { username := some "dave", email := some "d@x", password := some (.str "pw4"),
          role := some (.str "admin") } { users := [alice] }).2.users =
      [alice] ++
        [{ id := nextId ([alice].map (fun u => u.id)), username := "dave", email := "d@x",
           password_hash := sampleEnv.bcryptHash "pw4", role := "admin" }] :=
  (postRegister_stores_supplied_role sampleEnv "dave" "d@x" "pw4" (some (.str "admin"))
    { users := [alice] } (by decide) (by decide) (by decide) (by decide) (by decide)
    (by decide) (by decide)).1 "admin" (Or.inr (Or.inl ⟨by decide, rfl⟩))

/-! ## Input sanitization -/

/-- C25 fails in the code: each `replace` scans its input once and never rescans its
result, so removing the inner `javascript:` of `javajavascript:script:` joins the two halves
into a new `javascript:`, which `sanitizeString` returns. -/
theorem sanitizeString_returns_javascript_scheme :
    sanitizeString "javajavascript:script:" = "javascript:" ∧
    includesCI "javascript:".data (sanitizeString "javajavascript:script:").data = true := by
  decide

theorem sanitizeItems_of_strings (ss : List String) :
    sanitizeItems (ss.map Json.str) = ss.map Json.str := by
  induction ss with
  | nil => simp [sanitizeItems]
  | cons s rest ih => simp [sanitizeItems, sanitizeObject, ih]

/-- C26 fails in the code: the strings that are elements of an array are handed to
`sanitizeObject`, which returns every value that is no object as it is, so they are never
sanitized; in the sample object the property `bio` is sanitized and the same string inside
the array `tags` is not. -/
theorem sanitizeObject_leaves_array_strings :
    (∀ ss : List String, sanitizeObject (.arr (ss.map Json.str)) = .arr (ss.map Json.str)) ∧
    sanitizeObject
        (.obj [("bio", .str "javascript:x"), ("tags", .arr [.str "javascript:x"])]) =
      .obj [("bio", .str "x"), ("tags", .arr [.str "javascript:x"])] ∧
    sanitizeString "javascript:x" = "x" := by
  refine ⟨?_, ?_, by decide⟩
  · intro ss
    simp [sanitizeObject, sanitizeItems_of_strings]
  · have h : sanitizeString "javascript:x" = "x" := by decide
    simp [sanitizeObject, sanitizeFields, sanitizeItems, h]

/-! ## Round-robin generation -/

theorem roundRobinRow_length (team : SchedTeam) (rest : List SchedTeam) (time : Nat) :
    (roundRobinRow team rest time).length = rest.length := by
  induction rest generalizing time with
  | nil => rfl
  | cons o r ih => simp [roundRobinRow, ih]

theorem roundRobinRow_mem (team : SchedTeam) (rest : List SchedTeam) (time : Nat)
    (m : GeneratedMatch) (hm : m ∈ roundRobinRow team rest time) :
    m.team1_id = team.id ∧ m.team2_id ∈ rest.map (fun t => t.id) := by
  induction rest generalizing time with
  | nil => simp [roundRobinRow] at hm
  | cons o r ih =>
    simp only [roundRobinRow, List.mem_cons] at hm
    rcases hm with h | h
    · subst h
      simp
    · have := ih _ h
      refine ⟨this.1, ?_⟩
      simp only [List.map_cons, List.mem_cons]
      exact Or.inr this.2

theorem generateRoundRobinMatches_mem (teams : List SchedTeam) (time : Nat)
    (m : GeneratedMatch) (hm : m ∈ generateRoundRobinMatches teams time) :
    m.team1_id ∈ teams.map (fun t => t.id) ∧ m.team2_id ∈ teams.map (fun t => t.id) := by
  induction teams generalizing time with
  | nil => simp [generateRoundRobinMatches] at hm
  | cons t r ih =>
    simp only [generateRoundRobinMatches, List.mem_append] at hm
    rcases hm with h | h
    · have := roundRobinRow_mem _ _ _ _ h
      refine ⟨by simp [this.1], ?_⟩
      simp only [List.map_cons, List.mem_cons]
      exact Or.inr this.2
    · have := ih _ h
      simp only [List.map_cons, List.mem_cons]
      exact ⟨Or.inr this.1, Or.inr this.2⟩

theorem roundRobinRow_countP (team : SchedTeam) (rest : List SchedTeam) (time a b : Nat)
    (hab : a ≠ b) :
    (roundRobinRow team rest time).countP (pairsTeams a b) =
      (if team.id = a then (rest.map (fun t => t.id)).count b else 0) +
      (if team.id = b then (rest.map (fun t => t.id)).count a else 0) := by
  induction rest generalizing time with
  | nil => simp [roundRobinRow]
  | cons o r ih =>
    simp only [roundRobinRow, List.countP_cons, ih, List.map_cons, List.count_cons, pairsTeams]
    have hba : ¬ b = a := fun h => hab h.symm
    by_cases h1 : team.id = a
    · have h2 : ¬ team.id = b := fun h => hab (h1.symm.trans h)
      by_cases h3 : o.id = b
      · simp [h1, h3, hab, hba]
      · simp [h1, h3, hab, hba]
    · by_cases h2 : team.id = b
      · by_cases h3 : o.id = a
        · simp [h2, h3, hab, hba]
        · simp [h2, h3, hab, hba]
      · simp [h1, h2]

theorem generateRoundRobinMatches_countP_zero (teams : List SchedTeam) (time a b : Nat)
    (ha : a ∉ teams.map (fun t => t.id)) :
    (generateRoundRobinMatches teams time).countP (pairsTeams a b) = 0 := by
  rw [List.countP_eq_zero]
  intro m hm
  have := generateRoundRobinMatches_mem _ _ _ hm
  simp only [pairsTeams, Bool.or_eq_true, Bool.and_eq_true, decide_eq_true_eq, not_or, not_and]
  constructor
  · intro h; exact absurd (h ▸ this.1) ha
  · intro _ h; exact absurd (h ▸ this.2) ha

theorem pairsTeams_comm (a b : Nat) : pairsTeams a b = pairsTeams b a := by
  funext m
  simp only [pairsTeams]
  rw [Bool.or_comm]

theorem generateRoundRobinMatches_countP (teams : List SchedTeam) (time a b : Nat)
    (hnd : (teams.map (fun t => t.id)).Nodup)
    (ha : a ∈ teams.map (fun t => t.id)) (hb : b ∈ teams.map (fun t => t.id))
    (hab : a ≠ b) :
    (generateRoundRobinMatches teams time).countP (pairsTeams a b) = 1 := by
  induction teams generalizing time with
  | nil => simp at ha
  | cons t r ih =>
    simp only [List.map_cons, List.nodup_cons] at hnd
    simp only [List.map_cons, List.mem_cons] at ha hb
    simp only [generateRoundRobinMatches, List.countP_append, roundRobinRow_countP _ _ _ _ _ hab]
    by_cases h1 : t.id = a
    · have h2 : ¬ t.id = b := fun h => hab (h1.symm.trans h)
      have hb2 : b ∈ r.map (fun t => t.id) := by
        rcases hb with h | h
        · exact absurd h.symm h2
        · exact h
      have ha2 : a ∉ r.map (fun t => t.id) := h1 ▸ hnd.1
      rw [generateRoundRobinMatches_countP_zero _ _ _ _ ha2]
      simp [h1, hab, List.count_eq_one_of_mem hnd.2 hb2]
    · by_cases h2 : t.id = b
      · have ha2 : a ∈ r.map (fun t => t.id) := by
          rcases ha with h | h
          · exact absurd h.symm h1
          · exact h
        have hb2 : b ∉ r.map (fun t => t.id) := h2 ▸ hnd.1
        rw [pairsTeams_comm a b, generateRoundRobinMatches_countP_zero _ _ _ _ hb2]
        have hba : ¬ b = a := fun h => hab h.symm
        simp [h2, hba, List.count_eq_one_of_mem hnd.2 ha2]
      · have ha2 : a ∈ r.map (fun t => t.id) := by
          rcases ha with h | h
          · exact absurd h.symm h1
          · exact h
        have hb2 : b ∈ r.map (fun t => t.id) := by
          rcases hb with h | h
          · exact absurd h.symm h2
          · exact h
        simp [h1, h2, ih _ hnd.2 ha2 hb2]

theorem generateRoundRobinMatches_length_double (teams : List SchedTeam) (time : Nat) :
    2 * (generateRoundRobinMatches teams time).length = teams.length * (teams.length - 1) := by
  induction teams generalizing time with
  | nil => rfl
  | cons t r ih =>
    simp only [generateRoundRobinMatches, List.length_append, roundRobinRow_length,
      List.length_cons, Nat.add_sub_cancel, Nat.mul_add, ih]
    cases r.length with
    | zero => rfl
    | succ k => simp only [Nat.add_sub_cancel]; ring

theorem generateRoundRobinMatches_distinct (teams : List SchedTeam) (time : Nat)
    (hnd : (teams.map (fun t => t.id)).Nodup) (m : GeneratedMatch)
    (hm : m ∈ generateRoundRobinMatches teams time) : m.team1_id ≠ m.team2_id := by
  induction teams generalizing time with
  | nil => simp [generateRoundRobinMatches] at hm
  | cons t r ih =>
    simp only [List.map_cons, List.nodup_cons] at hnd
    simp only [generateRoundRobinMatches, List.mem_append] at hm
    rcases hm with h | h
    · have := roundRobinRow_mem _ _ _ _ h
      intro heq
      exact hnd.1 (this.1 ▸ heq ▸ this.2)
    · exact ih _ hnd.2 h

/-- C27: for teams with pairwise distinct ids `generateRoundRobinMatches` returns
`n (n - 1) / 2` matches, any two teams with different ids play each other in exactly one of
them, and no match pairs a team with itself. -/
theorem generateRoundRobinMatches_spec (teams : List SchedTeam) (startDate : Nat)
    (hnd : (teams.map (fun t => t.id)).Nodup) :
    (generateRoundRobinMatches teams startDate).length =
        teams.length * (teams.length - 1) / 2 ∧
    (∀ s ∈ teams, ∀ t ∈ teams, s.id ≠ t.id →
        (generateRoundRobinMatches teams startDate).countP (pairsTeams s.id t.id) = 1) ∧
    (∀ m ∈ generateRoundRobinMatches teams startDate, m.team1_id ≠ m.team2_id) := by
  refine ⟨?_, ?_, ?_⟩
  · have := generateRoundRobinMatches_length_double teams startDate
    omega
  · intro s hs t ht hst
    exact generateRoundRobinMatches_countP teams startDate s.id t.id hnd
      (List.mem_map_of_mem _ hs) (List.mem_map_of_mem _ ht) hst
  · intro m hm
    exact generateRoundRobinMatches_distinct teams startDate hnd m hm

/-- A witness for C27: three teams give three matches, one per pair. -/
theorem generateRoundRobinMatches_spec_witness :
    (([{ id := 5, name := "Ravens" }, { id := 6, name := "Crows" },
        { id := 7, name := "Owls" }] : List SchedTeam).map (fun t => t.id)).Nodup ∧
    ((generateRoundRobinMatches
          [{ id := 5, name := "Ravens" }, { id := 6, name := "Crows" },
           { id := 7, name := "Owls" }] 24).length = 3 * (3 - 1) / 2 ∧
      (∀ s ∈ ([{ id := 5, name := "Ravens" }, { id := 6, name := "Crows" },
                { id := 7, name := "Owls" }] : List SchedTeam),
        ∀ t ∈ ([{ id := 5, name := "Ravens" }, { id := 6, name := "Crows" },
                { id := 7, name := "Owls" }] : List SchedTeam), s.id ≠ t.id →
          (generateRoundRobinMatches
              [{ id := 5, name := "Ravens" }, { id := 6, name := "Crows" },
               { id := 7, name := "Owls" }] 24).countP (pairsTeams s.id t.id) = 1) ∧
      (∀ m ∈ generateRoundRobinMatches
              [{ id := 5, name := "Ravens" }, { id := 6, name := "Crows" },
               { id := 7, name := "Owls" }] 24, m.team1_id ≠ m.team2_id)) :=
  ⟨by decide, generateRoundRobinMatches_spec _ 24 (by decide)⟩

/-! ## Match generation route -/

theorem registeredTeams_eq_nil (nameLe : String → String → Bool) (tournamentId : Nat)
    (w : World) (h : matchesOfTournament tournamentId w = []) :
    registeredTeams nameLe tournamentId w = [] := by
  unfold matchesOfTournament at h
  rw [List.filter_eq_nil_iff] at h
  have hin : w.teams.flatMap (fun t =>
      (w.matchRows.filter (fun m =>
        (decide (t.id = m.team1_id) || decide (t.id = m.team2_id))
          && decide (m.tournament_id = tournamentId))).map
        (fun _ => ({ id := t.id, name := t.name } : SchedTeam))) = [] := by
    rw [List.flatMap_eq_nil_iff]
    intro t _
    rw [List.map_eq_nil_iff, List.filter_eq_nil_iff]
    intro m hm
    have := h m hm
    simp only [Bool.and_eq_true, not_and]
    intro _
    exact this
  unfold registeredTeams
  rw [hin]
  rfl

/-- C28, as stated, fails for a tournament that is not active: two teams appear in the
matches of the completed tournament 1, and the handler answers 400 `TOURNAMENT_NOT_ACTIVE`,
not 409. -/
theorem postGenerateMatches_completed_tournament_sample :
    2 ≤ (registeredTeams byCodePoints 1 finishedWorld).length ∧
    (postGenerateMatches sampleEnv byCodePoints 0 {} 1 none finishedWorld).1.status = 400 ∧
    (postGenerateMatches sampleEnv byCodePoints 0 {} 1 none finishedWorld).1.code =
      some "TOURNAMENT_NOT_ACTIVE" := by
  decide

/-- C28, amended: the handler never changes the table `matches` and never answers 200,
whatever the store, the request and the storage faults. When no statement errors: an
absent tournament is answered 404 and one that is not active 400
`TOURNAMENT_NOT_ACTIVE`; for an active tournament, two or more registered teams mean that
the tournament has matches and the answer is 409 `MATCHES_EXIST`, fewer than two are
answered 400 `INSUFFICIENT_TEAMS`. A statement of the handler that errors is answered 500
`GENERATE_MATCHES_ERROR`. -/
theorem postGenerateMatches_never_inserts (env : Env) (nameLe : String → String → Bool)
    (serverTime : Nat) (req : Request) (tournamentId : Nat) (bracketType : Option String)
    (w : World) :
    (postGenerateMatches env nameLe serverTime req tournamentId bracketType w).2.matchRows =
      w.matchRows ∧
    (postGenerateMatches env nameLe serverTime req tournamentId bracketType w).1.status ∈
      [404, 400, 409, 500] ∧
    (w.faults = [] →
      (tournamentsWithId tournamentId w = [] →
        (postGenerateMatches env nameLe serverTime req tournamentId bracketType w).1.status
          = 404) ∧
      (∀ tournament rest, tournamentsWithId tournamentId w = tournament :: rest →
        (tournament.status ≠ "active" →
          (postGenerateMatches env nameLe serverTime req tournamentId bracketType w).1.code
            = some "TOURNAMENT_NOT_ACTIVE") ∧
        (tournament.status = "active" →
          (2 ≤ (registeredTeams nameLe tournamentId w).length →
            0 < (matchesOfTournament tournamentId w).length ∧
            (postGenerateMatches env nameLe serverTime req tournamentId bracketType
              w).1.status = 409 ∧
            (postGenerateMatches env nameLe serverTime req tournamentId bracketType
              w).1.code = some "MATCHES_EXIST") ∧
          ((registeredTeams nameLe tournamentId w).length < 2 →
            (postGenerateMatches env nameLe serverTime req tournamentId bracketType
              w).1.status = 400 ∧
            (postGenerateMatches env nameLe serverTime req tournamentId bracketType
              w).1.code = some "INSUFFICIENT_TEAMS")))) ∧
    (w.faultNow = true →
      (postGenerateMatches env nameLe serverTime req tournamentId bracketType w).1 =
        generateMatchesError) ∧
    (∀ tournament rest, w.faultNow = false →
      tournamentsWithId tournamentId w = tournament :: rest → tournament.status = "active" →
      (w.advance.faultNow = true →
        (postGenerateMatches env nameLe serverTime req tournamentId bracketType w).1 =
          generateMatchesError) ∧
      (w.advance.faultNow = false → 2 ≤ (registeredTeams nameLe tournamentId w).length →
        w.advance.advance.faultNow = true →
        (postGenerateMatches env nameLe serverTime req tournamentId bracketType w).1 =
          generateMatchesError)) := by
  have hpos : 2 ≤ (registeredTeams nameLe tournamentId w).length →
      0 < (matchesOfTournament tournamentId w).length := by
    intro h2
    by_contra hc
    have hnil : matchesOfTournament tournamentId w = [] :=
      List.length_eq_zero.mp (by omega)
    rw [registeredTeams_eq_nil nameLe tournamentId w hnil] at h2
    simp at h2
  have hmain :
      (postGenerateMatches env nameLe serverTime req tournamentId bracketType w).2.matchRows =
        w.matchRows ∧
      (postGenerateMatches env nameLe serverTime req tournamentId bracketType w).1.status ∈
        [404, 400, 409, 500] := by
    unfold postGenerateMatches
    simp only []
    by_cases h1 : w.faultNow = true
    · simp [h1, generateMatchesError]
    · cases hq : tournamentsWithId tournamentId w with
      | nil => simp [h1]
      | cons tournament rest =>
        by_cases h2 : tournament.status = "active"
        · by_cases h3 : w.advance.faultNow = true
          · simp [h1, h2, h3, generateMatchesError]
          · by_cases h4 : (registeredTeams nameLe tournamentId w).length < 2
            · simp [h1, h2, h3, h4]
            · by_cases h5 : w.advance.advance.faultNow = true
              · simp [h1, h2, h3, h4, h5, generateMatchesError]
              · have h6 : 0 < (matchesOfTournament tournamentId w).length :=
                  hpos (by omega)
                simp [h1, h2, h3, h4, h5, h6]
        · simp [h1, h2]
  refine ⟨hmain.1, hmain.2, ?_, ?_, ?_⟩
  · intro hf
    have hfn : w.faultNow = false := by simp [World.faultNow, hf]
    have hfn2 : w.advance.faultNow = false := by simp [World.faultNow, World.advance, hf]
    have hfn3 : w.advance.advance.faultNow = false := by
      simp [World.faultNow, World.advance, hf]
    constructor
    · intro hnone
      unfold postGenerateMatches
      simp [hfn, hnone]
    · intro tournament rest hsome
      refine ⟨?_, ?_⟩
      · intro hna
        unfold postGenerateMatches
        simp [hfn, hsome, hna]
      · intro hact
        refine ⟨?_, ?_⟩
        · intro h2
          have hlt : ¬ (registeredTeams nameLe tournamentId w).length < 2 := by omega
          refine ⟨hpos h2, ?_, ?_⟩
          · unfold postGenerateMatches
            simp [hfn, hsome, hact, hfn2, hfn3, hlt, hpos h2]
          · unfold postGenerateMatches
            simp [hfn, hsome, hact, hfn2, hfn3, hlt, hpos h2]
        · intro hlt
          constructor
          · unfold postGenerateMatches
            simp [hfn, hsome, hact, hfn2, hlt]
          · unfold postGenerateMatches
            simp [hfn, hsome, hact, hfn2, hlt]
  · intro hf1
    unfold postGenerateMatches
    simp [hf1]
  · intro tournament rest hf1 hsome hact
    constructor
    · intro hf2
      unfold postGenerateMatches
      simp [hf1, hsome, hact, hf2]
    · intro hf2 h2 hf3
      have hlt : ¬ (registeredTeams nameLe tournamentId w).length < 2 := by omega
      unfold postGenerateMatches
      simp [hf1, hsome, hact, hf2, hlt, hf3]

/-- A witness for the amended C28: in the sample store the active tournament 1 has the two
teams of its one match registered, and the handler answers 409 without storing a match. -/
theorem postGenerateMatches_never_inserts_witness :
    (postGenerateMatches sampleEnv byCodePoints 0 {} 1 (some "round_robin")
      matchWorld).2.matchRows = [sampleMatch] ∧
    (postGenerateMatches sampleEnv byCodePoints 0 {} 1 (some "round_robin")
      matchWorld).1.status = 409 :=
  ⟨(postGenerateMatches_never_inserts sampleEnv byCodePoints 0 {} 1 (some "round_robin")
      matchWorld).1,
    (((postGenerateMatches_never_inserts sampleEnv byCodePoints 0 {} 1 (some "round_robin")
      matchWorld).2.2.1 rfl).2 springCup [] (by decide)).2 rfl |>.1 (by decide) |>.2.1⟩

end Esports
